import Mathlib

/-!
# GP-Engine: the scene update and render sequencing of `Scene.cpp`

A shallow embedding of `src/Scene.cpp`.  The file-level globals of the C++ translation unit
become the fields of one record, `Scene`, which every function takes and returns.  Calls on
the Direct3D device context are recorded, in program order, as a list of `Cmd`; a small
replay function (`applyCmd`) recovers the pipeline state in force at each draw.

Floating-point values are kept as rationals.  The colours of the lights, their products with
the strength, the colour channels that `Light2RGB` steps and the fade scalar that `FadeTexture`
steps are single-precision values: each is the result of rounding (`toFloat`, `toDouble`),
as the `float` objects of the program hold it.  The other decimal literals (positions, angles,
speeds, the strength and its steps of one half) are read exactly.  Functions that live in other
translation units (trigonometry, the `Model` and `Camera` classes, the projection helper) are
taken as parameters, collected in `Externals`.
-/

namespace GPEngine

/-! ## Single and double precision

A `float` holds a binary number with a significand of 24 digits, a `double` one with a
significand of 53 digits; the finest spacing of the representable numbers is `2 ^ (-149)` and
`2 ^ (-1074)`.  A result that is not representable is replaced by the nearest representable
number, a tie going to the one whose significand is even.  The exponent is not bounded above
here: no value of this file comes near the largest finite number of either format. -/

/-- The integer nearest to the quotient `n / d` of two naturals (`d` positive), a tie going to
the even integer. -/
def nearestEven (n d : ℕ) : ℕ :=
  let q := n / d
  let r := n % d
  if 2 * r < d then q else if d < 2 * r then q + 1 else if q % 2 = 0 then q else q + 1

/-- The first `j`, counting up from `k`, with `q < 2 ^ 2 ^ j`; at most `fuel` steps are taken. -/
def digitLevel : ℕ → ℕ → ℕ → ℕ
  | 0, k, _ => k
  | fuel + 1, k, q => if q < 2 ^ 2 ^ k then k else digitLevel fuel (k + 1) q

/-- The number of binary digits of `q`, for `q < 2 ^ 2 ^ k`, by bisection: when `q` has more
than `2 ^ (k - 1)` digits, the lowest `2 ^ (k - 1)` are counted and dropped. -/
def digitsBelow : ℕ → ℕ → ℕ
  | 0, q => if q = 0 then 0 else 1
  | k + 1, q => if q < 2 ^ 2 ^ k then digitsBelow k q else digitsBelow k (q / 2 ^ 2 ^ k) + 2 ^ k

/-- The number of binary digits of `q`: 0 for 0, and `d` when `2 ^ (d - 1) ≤ q < 2 ^ d`. -/
def binaryDigits (q : ℕ) : ℕ := digitsBelow (digitLevel q 0 q) q

/-- The binary floating-point number nearest to `x`, a tie going to the even significand, in
the format whose significands have `prec` digits and whose numbers are multiples of
`2 ^ (-grid)`.  With `|x| * 2 ^ grid = n / x.den`, the integer part of that quotient has
`shift` digits more than the significand holds, so the result is a multiple of
`2 ^ shift * 2 ^ (-grid)`: the one nearest to `x`. -/
def roundBinary (prec grid : ℕ) (x : ℚ) : ℚ :=
  let n := x.num.natAbs * 2 ^ grid
  let shift := binaryDigits (n / x.den) - prec
  let m := nearestEven n (x.den * 2 ^ shift) * 2 ^ shift
  if x.num < 0 then mkRat (-(m : ℤ)) (2 ^ grid) else mkRat (m : ℤ) (2 ^ grid)

/-- The value a `float` holds when `x` is stored in it (IEEE 754 single precision). -/
def toFloat (x : ℚ) : ℚ := roundBinary 24 149 x

/-- The value a `double` holds when `x` is stored in it (IEEE 754 double precision). -/
def toDouble (x : ℚ) : ℚ := roundBinary 53 1074 x

/-! ## Vectors and matrices -/

/-- The three-component vector class `CVector3`. -/
structure CVector3 where
  x : ℚ
  y : ℚ
  z : ℚ
deriving DecidableEq

/-- Component-wise sum, `operator+` of `CVector3`. -/
def CVector3.add (a b : CVector3) : CVector3 :=
  { x := a.x + b.x, y := a.y + b.y, z := a.z + b.z }

/-- Product with a scalar, `operator*` of `CVector3` and `float`: each component is a
product of two `float` values, held in a `float`. -/
def CVector3.scale (a : CVector3) (k : ℚ) : CVector3 :=
  { x := toFloat (a.x * k), y := toFloat (a.y * k), z := toFloat (a.z * k) }

/-- The colour class `ColourRGBA`. -/
structure ColourRGBA where
  r : ℚ
  g : ℚ
  b : ℚ
  a : ℚ
deriving DecidableEq

/-- The matrix class `CMatrix4x4`: sixteen entries `eRC`, row `R`, column `C`.  Points are row
vectors, so the translation of an affine matrix is its fourth row. -/
structure CMatrix4x4 where
  e00 : ℚ
  e01 : ℚ
  e02 : ℚ
  e03 : ℚ
  e10 : ℚ
  e11 : ℚ
  e12 : ℚ
  e13 : ℚ
  e20 : ℚ
  e21 : ℚ
  e22 : ℚ
  e23 : ℚ
  e30 : ℚ
  e31 : ℚ
  e32 : ℚ
  e33 : ℚ
deriving DecidableEq

/-- The identity matrix. -/
def CMatrix4x4.identity : CMatrix4x4 :=
  { e00 := 1, e01 := 0, e02 := 0, e03 := 0,
    e10 := 0, e11 := 1, e12 := 0, e13 := 0,
    e20 := 0, e21 := 0, e22 := 1, e23 := 0,
    e30 := 0, e31 := 0, e32 := 0, e33 := 1 }

/-- The all-zero matrix (the value of a zero-initialised global). -/
def CMatrix4x4.zero : CMatrix4x4 :=
  { e00 := 0, e01 := 0, e02 := 0, e03 := 0,
    e10 := 0, e11 := 0, e12 := 0, e13 := 0,
    e20 := 0, e21 := 0, e22 := 0, e23 := 0,
    e30 := 0, e31 := 0, e32 := 0, e33 := 0 }

/-- Matrix product, `operator*` of `CMatrix4x4`: rows of `a` against columns of `b`. -/
def CMatrix4x4.mul (a b : CMatrix4x4) : CMatrix4x4 :=
  { e00 := a.e00 * b.e00 + a.e01 * b.e10 + a.e02 * b.e20 + a.e03 * b.e30,
    e01 := a.e00 * b.e01 + a.e01 * b.e11 + a.e02 * b.e21 + a.e03 * b.e31,
    e02 := a.e00 * b.e02 + a.e01 * b.e12 + a.e02 * b.e22 + a.e03 * b.e32,
    e03 := a.e00 * b.e03 + a.e01 * b.e13 + a.e02 * b.e23 + a.e03 * b.e33,
    e10 := a.e10 * b.e00 + a.e11 * b.e10 + a.e12 * b.e20 + a.e13 * b.e30,
    e11 := a.e10 * b.e01 + a.e11 * b.e11 + a.e12 * b.e21 + a.e13 * b.e31,
    e12 := a.e10 * b.e02 + a.e11 * b.e12 + a.e12 * b.e22 + a.e13 * b.e32,
    e13 := a.e10 * b.e03 + a.e11 * b.e13 + a.e12 * b.e23 + a.e13 * b.e33,
    e20 := a.e20 * b.e00 + a.e21 * b.e10 + a.e22 * b.e20 + a.e23 * b.e30,
    e21 := a.e20 * b.e01 + a.e21 * b.e11 + a.e22 * b.e21 + a.e23 * b.e31,
    e22 := a.e20 * b.e02 + a.e21 * b.e12 + a.e22 * b.e22 + a.e23 * b.e32,
    e23 := a.e20 * b.e03 + a.e21 * b.e13 + a.e22 * b.e23 + a.e23 * b.e33,
    e30 := a.e30 * b.e00 + a.e31 * b.e10 + a.e32 * b.e20 + a.e33 * b.e30,
    e31 := a.e30 * b.e01 + a.e31 * b.e11 + a.e32 * b.e21 + a.e33 * b.e31,
    e32 := a.e30 * b.e02 + a.e31 * b.e12 + a.e32 * b.e22 + a.e33 * b.e32,
    e33 := a.e30 * b.e03 + a.e31 * b.e13 + a.e32 * b.e23 + a.e33 * b.e33 }

/-- An affine matrix has the fourth column `(0, 0, 0, 1)`. -/
def CMatrix4x4.IsAffine (m : CMatrix4x4) : Prop :=
  m.e03 = 0 ∧ m.e13 = 0 ∧ m.e23 = 0 ∧ m.e33 = 1

/-- Determinant of the upper-left 3×3 block. -/
def CMatrix4x4.det3 (m : CMatrix4x4) : ℚ :=
  m.e00 * (m.e11 * m.e22 - m.e12 * m.e21)
    + m.e01 * (m.e12 * m.e20 - m.e10 * m.e22)
    + m.e02 * (m.e10 * m.e21 - m.e11 * m.e20)

/-- Modelled from the spec: `InverseAffine` is declared in `MathHelpers.h`, which is not among
the sources.  The spec calls it the exact affine matrix inverse: the upper-left 3×3 block is
inverted through its cofactors and determinant, the translation row is the negated
translation carried through that inverse, and the fourth column is `(0, 0, 0, 1)`. -/
def InverseAffine (m : CMatrix4x4) : CMatrix4x4 :=
  let det0 := m.e11 * m.e22 - m.e12 * m.e21
  let det1 := m.e12 * m.e20 - m.e10 * m.e22
  let det2 := m.e10 * m.e21 - m.e11 * m.e20
  let det := m.e00 * det0 + m.e01 * det1 + m.e02 * det2
  let invDet := 1 / det
  let o00 := invDet * det0
  let o10 := invDet * det1
  let o20 := invDet * det2
  let o01 := invDet * (m.e21 * m.e02 - m.e22 * m.e01)
  let o11 := invDet * (m.e22 * m.e00 - m.e20 * m.e02)
  let o21 := invDet * (m.e20 * m.e01 - m.e21 * m.e00)
  let o02 := invDet * (m.e01 * m.e12 - m.e02 * m.e11)
  let o12 := invDet * (m.e02 * m.e10 - m.e00 * m.e12)
  let o22 := invDet * (m.e00 * m.e11 - m.e01 * m.e10)
  { e00 := o00, e01 := o01, e02 := o02, e03 := 0,
    e10 := o10, e11 := o11, e12 := o12, e13 := 0,
    e20 := o20, e21 := o21, e22 := o22, e23 := 0,
    e30 := -m.e30 * o00 - m.e31 * o10 - m.e32 * o20,
    e31 := -m.e30 * o01 - m.e31 * o11 - m.e32 * o21,
    e32 := -m.e30 * o02 - m.e31 * o12 - m.e32 * o22,
    e33 := 1 }

/-! ## Scene data -/

/-- The length of the light array, `NUM_LIGHTS`. -/
abbrev NUM_LIGHTS : Nat := 3

/-- Radius of light 0's orbit, `gLightOrbit`. -/
def gLightOrbit : ℚ := 40.0

/-- Angular speed of light 0's orbit, `gLightOrbitSpeed`. -/
def gLightOrbitSpeed : ℚ := 0.7

/-- Modelled from the spec: the transform state of a render entity (class `Model`, whose header
is not among the sources): position, rotation and scale. -/
structure Model where
  position : CVector3
  rotation : CVector3
  scale : ℚ

/-- Modelled from the spec: the transform state of the camera (class `Camera`, whose header is
not among the sources). -/
structure Camera where
  position : CVector3
  rotation : CVector3

/-- One entry of the light array, `struct Light`. -/
structure Light where
  model : Model
  colour : CVector3
  strength : ℚ

/-- The key codes that `UpdateScene` names. -/
inductive KeyCode where
  | Key_I | Key_K | Key_J | Key_L | Key_U | Key_O | Key_Period | Key_Comma
  | Key_Up | Key_Down | Key_Left | Key_Right | Key_W | Key_S | Key_A | Key_D
  | Key_1 | Key_P
deriving DecidableEq

/-- The keyboard as one `UpdateScene` call sees it: which keys were hit since the last poll
(`KeyHit`) and which are held down (`KeyHeld`). -/
structure Input where
  keyHit : KeyCode → Bool
  keyHeld : KeyCode → Bool

/-- No key hit and no key held. -/
def Input.none : Input :=
  { keyHit := fun _ => false, keyHeld := fun _ => false }

/-- The per-frame constant block `PerFrameConstants` (declared in `Common.h`): the fields that
`Scene.cpp` reads or writes. -/
structure PerFrameConstants where
  viewMatrix : CMatrix4x4
  projectionMatrix : CMatrix4x4
  viewProjectionMatrix : CMatrix4x4
  light1Position : CVector3
  light1Colour : CVector3
  light1Facing : CVector3
  light1CosHalfAngle : ℚ
  light1ViewMatrix : CMatrix4x4
  light1ProjectionMatrix : CMatrix4x4
  light2Position : CVector3
  light2Colour : CVector3
  light2Facing : CVector3
  light2CosHalfAngle : ℚ
  light2ViewMatrix : CMatrix4x4
  light2ProjectionMatrix : CMatrix4x4
  ambientColour : CVector3
  specularPower : ℚ
  cameraPosition : CVector3
  parallaxDepth : ℚ
  alpha : ℚ

/-- The per-model constant block `PerModelConstants` (declared in `Common.h`). -/
structure PerModelConstants where
  worldMatrix : CMatrix4x4
  objectColour : CVector3
  wiggle : ℚ

/-- Functions that `Scene.cpp` calls and other translation units define.  Every definition
and theorem below is parametric in them. -/
structure Externals where
  /-- Library cosine. -/
  cos : ℚ → ℚ
  /-- Library sine. -/
  sin : ℚ → ℚ
  /-- Library power function. -/
  pow : ℚ → ℚ → ℚ
  /-- Degrees to radians (`MathHelpers.h`). -/
  ToRadians : ℚ → ℚ
  /-- Unit vector of a vector (`CVector3.h`). -/
  Normalise : CVector3 → CVector3
  /-- Third axis of a matrix (`CMatrix4x4::GetZAxis`). -/
  GetZAxis : CMatrix4x4 → CVector3
  /-- Perspective projection from aspect ratio and field of view (`GraphicsHelpers.cpp`). -/
  MakeProjectionMatrix : ℚ → ℚ → CMatrix4x4
  /-- World matrix of a model (`Model::WorldMatrix`). -/
  WorldMatrix : Model → CMatrix4x4
  /-- Rotation that `Model::FaceTarget` gives a model so that it faces a target point. -/
  faceRotation : Model → CVector3 → CVector3
  /-- Keyboard control of a model (`Model::Control`): input, frame time, the eight keys. -/
  modelControl : Input → ℚ → List KeyCode → Model → Model
  /-- Keyboard control of the camera (`Camera::Control`). -/
  cameraControl : Input → ℚ → List KeyCode → Camera → Camera
  /-- View matrix of the camera (`Camera::ViewMatrix`). -/
  ViewMatrix : Camera → CMatrix4x4
  /-- Projection matrix of the camera (`Camera::ProjectionMatrix`). -/
  ProjectionMatrix : Camera → CMatrix4x4
  /-- View-projection matrix of the camera (`Camera::ViewProjectionMatrix`). -/
  ViewProjectionMatrix : Camera → CMatrix4x4

/-- `Model::SetPosition`. -/
def Model.SetPosition (m : Model) (p : CVector3) : Model := { m with position := p }

/-- `Model::SetRotation`. -/
def Model.SetRotation (m : Model) (r : CVector3) : Model := { m with rotation := r }

/-- `Model::SetScale`. -/
def Model.SetScale (m : Model) (k : ℚ) : Model := { m with scale := k }

/-- `Model::Position`. -/
def Model.Position (m : Model) : CVector3 := m.position

/-- Modelled from the spec: `Model::FaceTarget` computes a rotation such that the entity's
forward axis points at the target; position and scale are kept. -/
def Model.FaceTarget (ext : Externals) (m : Model) (target : CVector3) : Model :=
  { m with rotation := ext.faceRotation m target }

/-- Modelled from the spec: a freshly constructed `Model` sits at the origin, unrotated, with
unit scale. -/
def Model.new : Model :=
  { position := { x := 0, y := 0, z := 0 }, rotation := { x := 0, y := 0, z := 0 }, scale := 1 }

/-- Modelled from the spec: a freshly constructed `Camera`, at the origin and unrotated. -/
def Camera.new : Camera :=
  { position := { x := 0, y := 0, z := 0 }, rotation := { x := 0, y := 0, z := 0 } }

/-- The globals of `Scene.cpp` (and the function-local statics of `UpdateScene`), together
with the two window-size globals it reads from `Common.h`. -/
structure Scene where
  gSphere : Model
  gTeapot : Model
  gGround : Model
  gCube : Model
  gGlassCube : Model
  gSmoke : Model
  gTech : Model
  gNormMapFadeCube : Model
  gCamera : Camera
  gLights : Fin NUM_LIGHTS → Light
  gAmbientColour : CVector3
  gSpecularPower : ℚ
  gBackgroundColor : ColourRGBA
  gSpotlightConeAngle : ℚ
  lockFPS : Bool
  gShadowMapSize : ℤ
  gViewportWidth : ℤ
  gViewportHeight : ℤ
  gPerFrameConstants : PerFrameConstants
  gPerModelConstants : PerModelConstants
  /-- Function-local static `rotate` of `UpdateScene`. -/
  rotate : ℚ
  /-- Function-local static `go` of `UpdateScene`. -/
  go : Bool
  /-- Function-local static `totalFrameTime` of `UpdateScene`. -/
  totalFrameTime : ℚ
  /-- Function-local static `frameCount` of `UpdateScene`. -/
  frameCount : ℤ
  light1StrengthGoingUp : Bool
  light2RedGoingUp : Bool
  light2GreenGoingUp : Bool
  light2BlueGoingUp : Bool
  isFading : Bool

/-- Replace entry `i` of the light array. -/
def Scene.setLight (s : Scene) (i : Fin NUM_LIGHTS) (l : Light) : Scene :=
  { s with gLights := Function.update s.gLights i l }

/-- Set the strength of light `i`. -/
def Scene.setStrength (s : Scene) (i : Fin NUM_LIGHTS) (v : ℚ) : Scene :=
  s.setLight i { s.gLights i with strength := v }

/-- Set the colour of light `i`. -/
def Scene.setColour (s : Scene) (i : Fin NUM_LIGHTS) (c : CVector3) : Scene :=
  s.setLight i { s.gLights i with colour := c }

/-- Set the model of light `i`. -/
def Scene.setModel (s : Scene) (i : Fin NUM_LIGHTS) (m : Model) : Scene :=
  s.setLight i { s.gLights i with model := m }

/-- Set the fade scalar `gPerFrameConstants.alpha`. -/
def Scene.setAlpha (s : Scene) (v : ℚ) : Scene :=
  { s with gPerFrameConstants := { s.gPerFrameConstants with alpha := v } }

/-! ## Scene update -/

/-- `Light1Strength`: one step of the strength oscillator of light 0. -/
def Light1Strength (s : Scene) : Scene :=
  if s.light1StrengthGoingUp then
    let s := s.setStrength 0 ((s.gLights 0).strength + 0.5)
    if (s.gLights 0).strength ≥ 75 then { s with light1StrengthGoingUp := false } else s
  else
    let s := s.setStrength 0 ((s.gLights 0).strength - 0.5)
    if (s.gLights 0).strength ≤ 0 then { s with light1StrengthGoingUp := true } else s

/-- The red channel block of `Light2RGB`.  The channel is a `float` and the literal `0.01` a
`double`: the sum or difference is taken in double precision and stored back in the
`float`. -/
def Light2Red (s : Scene) : Scene :=
  if s.light2RedGoingUp then
    let s := s.setColour 1 { (s.gLights 1).colour with
      x := toFloat (toDouble ((s.gLights 1).colour.x + toDouble 0.01)) }
    if (s.gLights 1).colour.x ≥ 1 then { s with light2RedGoingUp := false } else s
  else
    let s := s.setColour 1 { (s.gLights 1).colour with
      x := toFloat (toDouble ((s.gLights 1).colour.x - toDouble 0.01)) }
    if (s.gLights 1).colour.x ≤ 0 then { s with light2RedGoingUp := true } else s

/-- The green channel block of `Light2RGB`. -/
def Light2Green (s : Scene) : Scene :=
  if s.light2GreenGoingUp then
    let s := s.setColour 1 { (s.gLights 1).colour with
      y := toFloat (toDouble ((s.gLights 1).colour.y + toDouble 0.01)) }
    if (s.gLights 1).colour.y ≥ 1 then { s with light2GreenGoingUp := false } else s
  else
    let s := s.setColour 1 { (s.gLights 1).colour with
      y := toFloat (toDouble ((s.gLights 1).colour.y - toDouble 0.01)) }
    if (s.gLights 1).colour.y ≤ 0 then { s with light2GreenGoingUp := true } else s

/-- The blue channel block of `Light2RGB`. -/
def Light2Blue (s : Scene) : Scene :=
  if s.light2BlueGoingUp then
    let s := s.setColour 1 { (s.gLights 1).colour with
      z := toFloat (toDouble ((s.gLights 1).colour.z + toDouble 0.01)) }
    if (s.gLights 1).colour.z ≥ 1 then { s with light2BlueGoingUp := false } else s
  else
    let s := s.setColour 1 { (s.gLights 1).colour with
      z := toFloat (toDouble ((s.gLights 1).colour.z - toDouble 0.01)) }
    if (s.gLights 1).colour.z ≤ 0 then { s with light2BlueGoingUp := true } else s

/-- `Light2RGB`: one step of each of the three colour-channel oscillators of light 1, red
first, then green, then blue. -/
def Light2RGB (s : Scene) : Scene :=
  Light2Blue (Light2Green (Light2Red s))

/-- `FadeTexture`: one step of the fade oscillator.  The fade scalar is a `float` and the
literals `0.001f`, `1.2f` and `0.0f` are `float` values: the sum or difference is taken in
single precision. -/
def FadeTexture (s : Scene) : Scene :=
  if s.isFading then
    let s := s.setAlpha (toFloat (s.gPerFrameConstants.alpha + toFloat 0.001))
    if s.gPerFrameConstants.alpha ≥ toFloat 1.2 then { s with isFading := false } else s
  else
    let s := s.setAlpha (toFloat (s.gPerFrameConstants.alpha - toFloat 0.001))
    if s.gPerFrameConstants.alpha ≤ toFloat 0.0 then { s with isFading := true } else s

/-- The keys that steer the sphere, in the order `UpdateScene` passes them. -/
def sphereKeys : List KeyCode :=
  [.Key_I, .Key_K, .Key_J, .Key_L, .Key_U, .Key_O, .Key_Period, .Key_Comma]

/-- The keys that steer the camera, in the order `UpdateScene` passes them. -/
def cameraKeys : List KeyCode :=
  [.Key_Up, .Key_Down, .Key_Left, .Key_Right, .Key_W, .Key_S, .Key_A, .Key_D]

/-- Interval between window-title updates, `fpsUpdateTime`. -/
def fpsUpdateTime : ℚ := 0.5

/-- `UpdateScene`: one update of the scene for a frame of length `frameTime` under the
keyboard state `inp`.  The window-title text that is handed to the host shell every
half second is not recorded; the two counters behind it are. -/
def UpdateScene (ext : Externals) (frameTime : ℚ) (inp : Input) (s : Scene) : Scene :=
  let s := Light1Strength s
  let s := Light2RGB s
  let s := FadeTexture s
  let s := { s with gPerModelConstants :=
    { s.gPerModelConstants with wiggle := s.gPerModelConstants.wiggle + 6 * frameTime } }
  let s := { s with gSphere := ext.modelControl inp frameTime sphereKeys s.gSphere }
  let s := s.setModel 0 ((s.gLights 0).model.SetPosition
    (s.gSphere.Position.add
      { x := ext.cos s.rotate * gLightOrbit, y := 10, z := ext.sin s.rotate * gLightOrbit }))
  let s := s.setModel 0 ((s.gLights 0).model.FaceTarget ext s.gSphere.Position)
  let s := if s.go then { s with rotate := s.rotate - gLightOrbitSpeed * frameTime } else s
  let s := if inp.keyHit .Key_1 then { s with go := !s.go } else s
  let s := { s with gCamera := ext.cameraControl inp frameTime cameraKeys s.gCamera }
  let s := if inp.keyHit .Key_P then { s with lockFPS := !s.lockFPS } else s
  let s := { s with totalFrameTime := s.totalFrameTime + frameTime, frameCount := s.frameCount + 1 }
  if s.totalFrameTime > fpsUpdateTime then { s with totalFrameTime := 0, frameCount := 0 } else s

/-- A run of `UpdateScene` calls, one per listed frame (frame time and keyboard state). -/
def runUpdates (ext : Externals) (frames : List (ℚ × Input)) (s : Scene) : Scene :=
  frames.foldl (fun acc f => UpdateScene ext f.1 f.2 acc) s

/-- The zero-initialised `gPerFrameConstants`. -/
def PerFrameConstants.zero : PerFrameConstants :=
  let v0 : CVector3 := { x := 0, y := 0, z := 0 }
  { viewMatrix := CMatrix4x4.zero, projectionMatrix := CMatrix4x4.zero,
    viewProjectionMatrix := CMatrix4x4.zero,
    light1Position := v0, light1Colour := v0, light1Facing := v0, light1CosHalfAngle := 0,
    light1ViewMatrix := CMatrix4x4.zero, light1ProjectionMatrix := CMatrix4x4.zero,
    light2Position := v0, light2Colour := v0, light2Facing := v0, light2CosHalfAngle := 0,
    light2ViewMatrix := CMatrix4x4.zero, light2ProjectionMatrix := CMatrix4x4.zero,
    ambientColour := v0, specularPower := 0, cameraPosition := v0, parallaxDepth := 0,
    alpha := 0 }

/-- The zero-initialised `gPerModelConstants`. -/
def PerModelConstants.zero : PerModelConstants :=
  { worldMatrix := CMatrix4x4.zero, objectColour := { x := 0, y := 0, z := 0 }, wiggle := 0 }

/-- A model placed by the three setter calls `InitScene` makes on each entity. -/
def placed (position : CVector3) (scale : ℚ) (rotation : CVector3) : Model :=
  ((Model.new.SetPosition position).SetScale scale).SetRotation rotation

/-- A light as `InitScene` sets it up: colour, strength, position, a scale derived from the
strength, and facing the sphere. -/
def initLight (ext : Externals) (colour : CVector3) (strength : ℚ) (position target : CVector3) :
    Light :=
  { model := ((Model.new.SetPosition position).SetScale (ext.pow strength 0.7)).FaceTarget ext target,
    colour := colour, strength := strength }

/-- `InitScene`: the scene state after static initialisation of the globals and the set-up
done by `InitScene`, for a window of the given size. -/
def InitScene (ext : Externals) (viewportWidth viewportHeight : ℤ) : Scene :=
  let yaw : CVector3 := { x := 0.0, y := ext.ToRadians (-20.0), z := 0.0 }
  let gSphere : Model :=
    placed { x := 15, y := 5, z := 0 } 0.5 { x := 0, y := ext.ToRadians 215.0, z := 0 }
  let light0 := initLight ext { x := toFloat 0.8, y := toFloat 0.8, z := toFloat 1.0 } 10
    { x := 30, y := 20, z := 0 } gSphere.Position
  let light1 := initLight ext { x := toFloat 1.0, y := toFloat 0.8, z := toFloat 0.2 } 40
    { x := -20, y := 30, z := 20 } gSphere.Position
  let light2 := initLight ext { x := toFloat 0.8, y := toFloat 0.8, z := toFloat 0.2 } 40
    { x := 50, y := 30, z := 20 } gSphere.Position
  { gSphere := gSphere,
    gTeapot := placed { x := 30, y := 0, z := 0 } 1 yaw,
    gGround := Model.new,
    gCube := placed { x := 25, y := 15, z := 0 } 1 yaw,
    gGlassCube := placed { x := 10, y := 15, z := -5 } 1 yaw,
    gSmoke := placed { x := 20, y := 35, z := -5 } 1 yaw,
    gTech := placed { x := 40, y := 15, z := 0 } 1 yaw,
    gNormMapFadeCube := placed { x := -5, y := 15, z := -5 } 1 yaw,
    gCamera := { Camera.new with position := { x := 15, y := 30, z := -70 },
                                 rotation := { x := ext.ToRadians 13, y := 0, z := 0 } },
    gLights := fun i => if i = 0 then light0 else if i = 1 then light1 else light2,
    gAmbientColour := { x := 0.2, y := 0.2, z := 0.3 },
    gSpecularPower := 256,
    gBackgroundColor := { r := 0.2, g := 0.2, b := 0.3, a := 1.0 },
    gSpotlightConeAngle := 90.0,
    lockFPS := true,
    gShadowMapSize := 256,
    gViewportWidth := viewportWidth,
    gViewportHeight := viewportHeight,
    gPerFrameConstants := PerFrameConstants.zero,
    gPerModelConstants := PerModelConstants.zero,
    rotate := 0.0,
    go := true,
    totalFrameTime := 0,
    frameCount := 0,
    light1StrengthGoingUp := false,
    light2RedGoingUp := false,
    light2GreenGoingUp := false,
    light2BlueGoingUp := false,
    isFading := true }

/-! ## The device context as a command trace -/

/-- The scene entities that can be drawn: the eight models and the three light markers. -/
inductive Entity where
  | Ground | Sphere | Teapot | Cube | GlassCube | Smoke | Tech | NormMapFadeCube
  | LightModel (i : Fin NUM_LIGHTS)
deriving DecidableEq

/-- Vertex shaders named in `Scene.cpp`. -/
inductive VertexShader where
  | gBasicTransformVertexShader | gPixelLightingVertexShader | gNormalMappingVertexShader
deriving DecidableEq

/-- Pixel shaders named in `Scene.cpp`. -/
inductive PixelShader where
  | gDepthOnlyPixelShader | gPointLightPixelShader | gWigglePixelShader
  | gPixelLightingPixelShader | gFadeTexturePixelShader | gParallaxMappingPixelShader
  | gNormalMappingPixelShader | gLightModelPixelShader
deriving DecidableEq

/-- Blend states named in `Scene.cpp`. -/
inductive BlendState where
  | gNoBlendingState | gAdditiveBlendingState | gMultiplicativeBlendingState
  | gAlphaBlendingState
deriving DecidableEq

/-- Depth-stencil states named in `Scene.cpp`. -/
inductive DepthStencilState where
  | gUseDepthBufferState | gDepthReadOnlyState
deriving DecidableEq

/-- Rasteriser states named in `Scene.cpp`. -/
inductive RasterizerState where
  | gCullBackState | gCullNoneState
deriving DecidableEq

/-- Shader resource views named in `Scene.cpp`. -/
inductive ShaderResourceView where
  | gShadowMap1SRV | gSphereDiffuseSpecularMapSRV | gTeapotDiffuseSpecularMapSRV
  | gGroundDiffuseSpecularMapSRV | gLightDiffuseMapSRV | gCubeTexture1MapSRV
  | gCubeTexture2MapSRV | gGlassCubeTextureMapSRV | gSmokeMapSRV | gTrollDiffuseMapSRV
  | gCubeDiffuseSpecularMapSRV | gCubeNormalMapSRV | gCubeDiffuseSpecularMapSRV2
  | gCubeNormalMapSRV2 | gTechDiffuseSpecularMapSRV | gTechNormalHeightMapSRV
deriving DecidableEq

/-- Samplers named in `Scene.cpp`. -/
inductive Sampler where
  | gAnisotropic4xSampler | gPointSampler
deriving DecidableEq

/-- Depth-stencil views: the shadow map and the main depth buffer. -/
inductive DepthStencilView where
  | gShadowMap1DepthStencil | gDepthStencil
deriving DecidableEq

/-- Colour render targets: only the back buffer. -/
inductive RenderTargetView where
  | gBackBufferRenderTarget
deriving DecidableEq

/-- Constant buffers on the GPU. -/
inductive ConstantBuffer where
  | gPerFrameConstantBuffer | gPerModelConstantBuffer
deriving DecidableEq

/-- A viewport, `D3D11_VIEWPORT`. -/
structure Viewport where
  Width : ℚ
  Height : ℚ
  MinDepth : ℚ
  MaxDepth : ℚ
  TopLeftX : ℚ
  TopLeftY : ℚ
deriving DecidableEq

/-- One call on the device context or the swap chain, with the arguments that matter. -/
inductive Cmd where
  /-- Upload of the per-frame constants: `UpdateConstantBuffer(gPerFrameConstantBuffer, c)`. -/
  | UpdateConstantBuffer (c : PerFrameConstants)
  | VSSetConstantBuffers (slot : Nat) (b : ConstantBuffer)
  | PSSetConstantBuffers (slot : Nat) (b : ConstantBuffer)
  | VSSetShader (vs : VertexShader)
  | PSSetShader (ps : PixelShader)
  | OMSetBlendState (b : BlendState)
  | OMSetDepthStencilState (d : DepthStencilState)
  | RSSetState (r : RasterizerState)
  | PSSetShaderResources (slot : Nat) (view : Option ShaderResourceView)
  | PSSetSamplers (slot : Nat) (sampler : Sampler)
  | RSSetViewports (vp : Viewport)
  | OMSetRenderTargets (target : Option RenderTargetView) (depth : DepthStencilView)
  | ClearDepthStencilView (depth : DepthStencilView) (value : ℚ) (stencil : Nat)
  | ClearRenderTargetView (target : RenderTargetView) (colour : ColourRGBA)
  /-- The draw made by `Model::Render` for an entity, with the per-model constants it uploads. -/
  | Render (e : Entity) (c : PerModelConstants)
  | Present (syncInterval : Nat) (flags : Nat)

/-- Whether a command is a draw. -/
def Cmd.isDraw : Cmd → Bool
  | .Render _ _ => true
  | _ => false

/-- The bindings of the device context that the commands above change. -/
structure Pipeline where
  viewport : Option Viewport
  renderTarget : Option RenderTargetView
  depthTarget : Option DepthStencilView
  vertexShader : Option VertexShader
  pixelShader : Option PixelShader
  blendState : Option BlendState
  depthStencilState : Option DepthStencilState
  rasterizerState : Option RasterizerState
  psResources : Nat → Option ShaderResourceView
  psSamplers : Nat → Option Sampler
  /-- Contents of the per-frame constant buffer on the GPU, once uploaded. -/
  perFrame : Option PerFrameConstants

/-- The device context with nothing bound. -/
def Pipeline.unbound : Pipeline :=
  { viewport := none, renderTarget := none, depthTarget := none, vertexShader := none,
    pixelShader := none, blendState := none, depthStencilState := none,
    rasterizerState := none, psResources := fun _ => none, psSamplers := fun _ => none,
    perFrame := none }

/-- Effect of one command on the bindings. -/
def applyCmd (p : Pipeline) : Cmd → Pipeline
  | .UpdateConstantBuffer c => { p with perFrame := some c }
  | .VSSetConstantBuffers _ _ => p
  | .PSSetConstantBuffers _ _ => p
  | .VSSetShader vs => { p with vertexShader := some vs }
  | .PSSetShader ps => { p with pixelShader := some ps }
  | .OMSetBlendState b => { p with blendState := some b }
  | .OMSetDepthStencilState d => { p with depthStencilState := some d }
  | .RSSetState r => { p with rasterizerState := some r }
  | .PSSetShaderResources slot view =>
      { p with psResources := fun i => if i = slot then view else p.psResources i }
  | .PSSetSamplers slot sampler =>
      { p with psSamplers := fun i => if i = slot then some sampler else p.psSamplers i }
  | .RSSetViewports vp => { p with viewport := some vp }
  | .OMSetRenderTargets target depth => { p with renderTarget := target, depthTarget := some depth }
  | .ClearDepthStencilView _ _ _ => p
  | .ClearRenderTargetView _ _ => p
  | .Render _ _ => p
  | .Present _ _ => p

/-- Bindings after a sequence of commands. -/
def execCmds (p : Pipeline) (cs : List Cmd) : Pipeline :=
  cs.foldl applyCmd p

/-- A draw together with the bindings in force when it is issued. -/
structure Draw where
  entity : Entity
  pipeline : Pipeline

/-- The draws of a command sequence, in order, each with the bindings in force at that point. -/
def drawsFrom (p : Pipeline) : List Cmd → List Draw
  | [] => []
  | .Render e c :: cs => { entity := e, pipeline := p } :: drawsFrom (applyCmd p (.Render e c)) cs
  | c :: cs => drawsFrom (applyCmd p c) cs

/-- A scene state together with the commands issued so far, the most recent one first. -/
structure Trace where
  scene : Scene
  issued : List Cmd

/-- The commands of a trace in the order they were issued. -/
def Trace.cmds (t : Trace) : List Cmd := t.issued.reverse

/-- Start of a trace: no command issued yet. -/
def Trace.start (s : Scene) : Trace := { scene := s, issued := [] }

/-- Issue a command. -/
def Trace.emit : Trace → Cmd → Trace
  | ⟨s, cs⟩, c => ⟨s, c :: cs⟩

/-- Change the scene state without issuing a command. -/
def Trace.modify : Trace → (Scene → Scene) → Trace
  | ⟨s, cs⟩, f => ⟨f s, cs⟩

/-- Issue a command whose arguments are read from the scene state. -/
def Trace.emitWith : Trace → (Scene → Cmd) → Trace
  | ⟨s, cs⟩, f => ⟨s, f s :: cs⟩

/-- Continue a trace in a way that depends on the current scene state. -/
def Trace.withScene : Trace → (Scene → Trace → Trace) → Trace
  | ⟨s, cs⟩, f => f s ⟨s, cs⟩

/-- The model behind an entity. -/
def Scene.model (s : Scene) : Entity → Model
  | .Ground => s.gGround
  | .Sphere => s.gSphere
  | .Teapot => s.gTeapot
  | .Cube => s.gCube
  | .GlassCube => s.gGlassCube
  | .Smoke => s.gSmoke
  | .Tech => s.gTech
  | .NormMapFadeCube => s.gNormMapFadeCube
  | .LightModel i => (s.gLights i).model

/-- Modelled from the spec: `Model::Render` (class `Model` is not among the sources) issues
the entity's draw using its current world matrix, which it writes into the per-model
constants and uploads with them.  This is its effect on the scene state. -/
def Model.Render (ext : Externals) (e : Entity) (s : Scene) : Scene :=
  { s with gPerModelConstants :=
      { s.gPerModelConstants with worldMatrix := ext.WorldMatrix (s.model e) } }

/-- Render an entity in a trace: `Model::Render` on its model, recorded as one draw carrying
the per-model constants uploaded with it. -/
def Trace.render (ext : Externals) : Trace → Entity → Trace
  | ⟨s, cs⟩, e => ⟨Model.Render ext e s, .Render e (Model.Render ext e s).gPerModelConstants :: cs⟩

/-! ## Scene rendering -/

/-- `CalculateLightViewMatrix`: the camera-like view matrix of a spotlight. -/
def CalculateLightViewMatrix (ext : Externals) (s : Scene) (lightIndex : Fin NUM_LIGHTS) :
    CMatrix4x4 :=
  InverseAffine (ext.WorldMatrix (s.gLights lightIndex).model)

/-- `CalculateLightProjectionMatrix`: the camera-like projection matrix of a spotlight. -/
def CalculateLightProjectionMatrix (ext : Externals) (s : Scene) (_lightIndex : Fin NUM_LIGHTS) :
    CMatrix4x4 :=
  ext.MakeProjectionMatrix 1.0 (ext.ToRadians s.gSpotlightConeAngle)

/-- Write the per-frame constants. -/
def Scene.setPerFrame (s : Scene) (f : PerFrameConstants → PerFrameConstants) : Scene :=
  { s with gPerFrameConstants := f s.gPerFrameConstants }

/-- `RenderDepthBufferFromLight`, continuing a trace: render the scene from the given
light's point of view, depth only. -/
def RenderDepthBufferFromLightOn (ext : Externals) (lightIndex : Fin NUM_LIGHTS) (t : Trace) :
    Trace :=
  t
  |>.modify (fun s => s.setPerFrame fun c =>
      { c with viewMatrix := CalculateLightViewMatrix ext s lightIndex })
  |>.modify (fun s => s.setPerFrame fun c =>
      { c with projectionMatrix := CalculateLightProjectionMatrix ext s lightIndex })
  |>.modify (fun s => s.setPerFrame fun c =>
      { c with viewProjectionMatrix := c.viewMatrix.mul c.projectionMatrix })
  |>.emitWith (fun s => .UpdateConstantBuffer s.gPerFrameConstants)
  |>.emit (.VSSetConstantBuffers 0 .gPerFrameConstantBuffer)
  |>.emit (.PSSetConstantBuffers 0 .gPerFrameConstantBuffer)
  |>.emit (.VSSetShader .gBasicTransformVertexShader)
  |>.emit (.PSSetShader .gDepthOnlyPixelShader)
  |>.emit (.OMSetBlendState .gNoBlendingState)
  |>.emit (.OMSetDepthStencilState .gUseDepthBufferState)
  |>.emit (.RSSetState .gCullBackState)
  |>.render ext .Ground
  |>.render ext .Sphere
  |>.render ext .Teapot

/-- `RenderDepthBufferFromLight` on its own: the resulting scene and the commands it issues. -/
def RenderDepthBufferFromLight (ext : Externals) (lightIndex : Fin NUM_LIGHTS) (s : Scene) :
    Trace :=
  RenderDepthBufferFromLightOn ext lightIndex (Trace.start s)

/-- The body of the light loop of `RenderSceneFromCamera` for index `i`. -/
def renderLight (ext : Externals) (t : Trace) (i : Fin NUM_LIGHTS) : Trace :=
  t
  |>.modify (fun s => { s with gPerModelConstants :=
      { s.gPerModelConstants with objectColour := (s.gLights i).colour } })
  |>.render ext (.LightModel i)

/-- `RenderSceneFromCamera`, continuing a trace: render everything in the scene from the
given camera. -/
def RenderSceneFromCameraOn (ext : Externals) (camera : Camera) (t : Trace) : Trace :=
  t
  |>.modify (fun s => s.setPerFrame fun c => { c with viewMatrix := ext.ViewMatrix camera })
  |>.modify (fun s => s.setPerFrame fun c =>
      { c with projectionMatrix := ext.ProjectionMatrix camera })
  |>.modify (fun s => s.setPerFrame fun c =>
      { c with viewProjectionMatrix := ext.ViewProjectionMatrix camera })
  |>.emitWith (fun s => .UpdateConstantBuffer s.gPerFrameConstants)
  |>.emit (.VSSetConstantBuffers 0 .gPerFrameConstantBuffer)
  |>.emit (.PSSetConstantBuffers 0 .gPerFrameConstantBuffer)
  -- lit models
  |>.emit (.VSSetShader .gPixelLightingVertexShader)
  |>.emit (.PSSetShader .gPointLightPixelShader)
  |>.emit (.OMSetBlendState .gNoBlendingState)
  |>.emit (.OMSetDepthStencilState .gUseDepthBufferState)
  |>.emit (.RSSetState .gCullBackState)
  |>.emit (.PSSetShaderResources 0 (some .gGroundDiffuseSpecularMapSRV))
  |>.emit (.PSSetSamplers 0 .gAnisotropic4xSampler)
  |>.render ext .Ground
  |>.emit (.VSSetShader .gPixelLightingVertexShader)
  |>.emit (.PSSetShader .gWigglePixelShader)
  |>.emit (.PSSetShaderResources 0 (some .gSphereDiffuseSpecularMapSRV))
  |>.render ext .Sphere
  |>.emit (.VSSetShader .gPixelLightingVertexShader)
  |>.emit (.PSSetShader .gPixelLightingPixelShader)
  |>.emit (.PSSetShaderResources 0 (some .gTeapotDiffuseSpecularMapSRV))
  |>.render ext .Teapot
  |>.emit (.PSSetShader .gFadeTexturePixelShader)
  |>.emit (.PSSetShaderResources 0 (some .gCubeTexture1MapSRV))
  |>.emit (.PSSetShaderResources 2 (some .gCubeTexture2MapSRV))
  |>.render ext .Cube
  |>.emit (.VSSetShader .gNormalMappingVertexShader)
  |>.emit (.PSSetShader .gParallaxMappingPixelShader)
  |>.emit (.PSSetShaderResources 0 (some .gTechDiffuseSpecularMapSRV))
  |>.emit (.PSSetShaderResources 1 (some .gTechNormalHeightMapSRV))
  |>.render ext .Tech
  |>.emit (.VSSetShader .gNormalMappingVertexShader)
  |>.emit (.PSSetShader .gNormalMappingPixelShader)
  |>.emit (.PSSetShaderResources 0 (some .gCubeDiffuseSpecularMapSRV))
  |>.emit (.PSSetShaderResources 1 (some .gCubeNormalMapSRV))
  |>.emit (.PSSetShaderResources 2 (some .gCubeDiffuseSpecularMapSRV2))
  |>.emit (.PSSetShaderResources 3 (some .gCubeNormalMapSRV2))
  |>.render ext .NormMapFadeCube
  -- lights
  |>.emit (.VSSetShader .gBasicTransformVertexShader)
  |>.emit (.PSSetShader .gLightModelPixelShader)
  |>.emit (.PSSetShaderResources 0 (some .gLightDiffuseMapSRV))
  |>.emit (.PSSetSamplers 0 .gAnisotropic4xSampler)
  |>.emit (.OMSetBlendState .gAdditiveBlendingState)
  |>.emit (.OMSetDepthStencilState .gDepthReadOnlyState)
  |>.emit (.RSSetState .gCullNoneState)
  |> (List.finRange NUM_LIGHTS).foldl (renderLight ext)
  -- glass cube
  |>.emit (.OMSetBlendState .gMultiplicativeBlendingState)
  |>.emit (.OMSetDepthStencilState .gDepthReadOnlyState)
  |>.emit (.RSSetState .gCullNoneState)
  |>.emit (.VSSetShader .gPixelLightingVertexShader)
  |>.emit (.PSSetShader .gPixelLightingPixelShader)
  |>.emit (.PSSetShaderResources 0 (some .gGlassCubeTextureMapSRV))
  |>.emit (.RSSetState .gCullBackState)
  |>.render ext .GlassCube
  -- smoke
  |>.emit (.OMSetBlendState .gAlphaBlendingState)
  |>.emit (.OMSetDepthStencilState .gDepthReadOnlyState)
  |>.emit (.RSSetState .gCullNoneState)
  |>.emit (.VSSetShader .gPixelLightingVertexShader)
  |>.emit (.PSSetShader .gPixelLightingPixelShader)
  |>.emit (.PSSetShaderResources 0 (some .gSmokeMapSRV))
  |>.render ext .Smoke

/-- `RenderSceneFromCamera` on its own: the resulting scene and the commands it issues. -/
def RenderSceneFromCamera (ext : Externals) (camera : Camera) (s : Scene) : Trace :=
  RenderSceneFromCameraOn ext camera (Trace.start s)

/-- The viewport `RenderScene` builds for a target of the given size. -/
def fullViewport (width height : ℤ) : Viewport :=
  { Width := width, Height := height, MinDepth := 0.0, MaxDepth := 1.0, TopLeftX := 0,
    TopLeftY := 0 }

/-- Unit facing vector of light `i`: the normalised third axis of its world matrix. -/
def lightFacing (ext : Externals) (s : Scene) (i : Fin NUM_LIGHTS) : CVector3 :=
  ext.Normalise (ext.GetZAxis (ext.WorldMatrix (s.gLights i).model))

/-- Cosine of half the spotlight cone angle. -/
def cosHalfAngle (ext : Externals) (s : Scene) : ℚ :=
  ext.cos (ext.ToRadians (s.gSpotlightConeAngle / 2))

/-- The first block of `RenderScene`: the light and scene information written into the
per-frame constants (not yet uploaded), one assignment per line as in the source. -/
def assembleFrameConstants (ext : Externals) (s : Scene) : Scene :=
  s
  |> (fun s => s.setPerFrame fun c =>
      { c with light1Colour := (s.gLights 0).colour.scale (s.gLights 0).strength })
  |> (fun s => s.setPerFrame fun c => { c with light1Position := (s.gLights 0).model.Position })
  |> (fun s => s.setPerFrame fun c => { c with light1Facing := lightFacing ext s 0 })
  |> (fun s => s.setPerFrame fun c => { c with light1CosHalfAngle := cosHalfAngle ext s })
  |> (fun s => s.setPerFrame fun c =>
      { c with light1ViewMatrix := CalculateLightViewMatrix ext s 0 })
  |> (fun s => s.setPerFrame fun c =>
      { c with light1ProjectionMatrix := CalculateLightProjectionMatrix ext s 0 })
  |> (fun s => s.setPerFrame fun c =>
      { c with light2Colour := (s.gLights 1).colour.scale (s.gLights 1).strength })
  |> (fun s => s.setPerFrame fun c => { c with light2Position := (s.gLights 1).model.Position })
  |> (fun s => s.setPerFrame fun c => { c with light2Facing := lightFacing ext s 1 })
  |> (fun s => s.setPerFrame fun c => { c with light2CosHalfAngle := cosHalfAngle ext s })
  |> (fun s => s.setPerFrame fun c =>
      { c with light2ViewMatrix := CalculateLightViewMatrix ext s 1 })
  |> (fun s => s.setPerFrame fun c =>
      { c with light2ProjectionMatrix := CalculateLightProjectionMatrix ext s 1 })
  |> (fun s => s.setPerFrame fun c =>
      { c with light2Colour := (s.gLights 2).colour.scale (s.gLights 2).strength })
  |> (fun s => s.setPerFrame fun c => { c with light2Position := (s.gLights 2).model.Position })
  |> (fun s => s.setPerFrame fun c => { c with light2Facing := lightFacing ext s 2 })
  |> (fun s => s.setPerFrame fun c => { c with light2CosHalfAngle := cosHalfAngle ext s })
  |> (fun s => s.setPerFrame fun c =>
      { c with light2ViewMatrix := CalculateLightViewMatrix ext s 2 })
  |> (fun s => s.setPerFrame fun c =>
      { c with light2ProjectionMatrix := CalculateLightProjectionMatrix ext s 2 })
  |> (fun s => s.setPerFrame fun c => { c with ambientColour := s.gAmbientColour })
  |> (fun s => s.setPerFrame fun c => { c with specularPower := s.gSpecularPower })
  |> (fun s => s.setPerFrame fun c => { c with cameraPosition := s.gCamera.position })
  |> (fun s => s.setPerFrame fun c => { c with parallaxDepth := 0.1 })

/-- `RenderScene`: one frame.  The call `RenderDepthBufferFromLight(0)` between the clear of
the shadow map and the selection of the back buffer is commented out in the source, so no
command stands there. -/
def RenderScene (ext : Externals) (s : Scene) : Trace :=
  Trace.start s
  |>.modify (assembleFrameConstants ext)
  -- render from the light's point of view
  |>.emitWith (fun s => .RSSetViewports (fullViewport s.gShadowMapSize s.gShadowMapSize))
  |>.emit (.OMSetRenderTargets none .gShadowMap1DepthStencil)
  |>.emit (.ClearDepthStencilView .gShadowMap1DepthStencil 1.0 0)
  -- main scene rendering
  |>.emit (.OMSetRenderTargets (some .gBackBufferRenderTarget) .gDepthStencil)
  |>.emitWith (fun s => .ClearRenderTargetView .gBackBufferRenderTarget s.gBackgroundColor)
  |>.emit (.ClearDepthStencilView .gDepthStencil 1.0 0)
  |>.emitWith (fun s => .RSSetViewports (fullViewport s.gViewportWidth s.gViewportHeight))
  |>.emit (.PSSetShaderResources 1 (some .gShadowMap1SRV))
  |>.emit (.PSSetSamplers 1 .gPointSampler)
  |>.withScene (fun s t => RenderSceneFromCameraOn ext s.gCamera t)
  |>.emit (.PSSetShaderResources 1 none)
  -- scene completion
  |>.emitWith (fun s => .Present (if s.lockFPS then 1 else 0) 0)

/-! ## Vocabulary of the properties -/

/-- One step of a triangle oscillator that runs between `0` and `hi` in steps of `d`, on the
pair of its value and its going-up flag, in exact arithmetic: the shape of `Light1Strength`,
whose steps of one half from the strength 10 need no rounding. -/
def triStep (d hi : ℚ) (v : ℚ × Bool) : ℚ × Bool :=
  if v.2 then (v.1 + d, if v.1 + d ≥ hi then false else true)
  else (v.1 - d, if v.1 - d ≤ 0 then true else false)

/-- Point `m` of a triangle wave with `N` steps of size `d` per ramp: on the rising ramp
(`m < N`) the value is `m * d`, on the falling ramp it is `(2 * N - m) * d`. -/
def triPhase (d : ℚ) (N m : ℕ) : ℚ × Bool :=
  if m < N then ((m : ℚ) * d, true) else ((2 * (N : ℚ) - (m : ℚ)) * d, false)

/-- Value and direction flag of the strength oscillator of light 0. -/
def strengthState (s : Scene) : ℚ × Bool := ((s.gLights 0).strength, s.light1StrengthGoingUp)

/-- Value and direction flag of the red channel oscillator of light 1. -/
def redState (s : Scene) : ℚ × Bool := ((s.gLights 1).colour.x, s.light2RedGoingUp)

/-- Value and direction flag of the green channel oscillator of light 1. -/
def greenState (s : Scene) : ℚ × Bool := ((s.gLights 1).colour.y, s.light2GreenGoingUp)

/-- Value and direction flag of the blue channel oscillator of light 1. -/
def blueState (s : Scene) : ℚ × Bool := ((s.gLights 1).colour.z, s.light2BlueGoingUp)

/-- Value and direction flag of the fade oscillator. -/
def fadeState (s : Scene) : ℚ × Bool := (s.gPerFrameConstants.alpha, s.isFading)

/-- One step of a colour channel oscillator of light 1 on the pair of the channel's value and
its going-up flag: the common shape of the three channel blocks of `Light2RGB`. -/
def channelStep (v : ℚ × Bool) : ℚ × Bool :=
  if v.2 then
    (toFloat (toDouble (v.1 + toDouble 0.01)),
      if toFloat (toDouble (v.1 + toDouble 0.01)) ≥ 1 then false else true)
  else
    (toFloat (toDouble (v.1 - toDouble 0.01)),
      if toFloat (toDouble (v.1 - toDouble 0.01)) ≤ 0 then true else false)

/-- One step of the fade oscillator on the pair of the fade alpha and the flag `isFading`:
the shape of `FadeTexture`. -/
def fadeStep (v : ℚ × Bool) : ℚ × Bool :=
  if v.2 then
    (toFloat (v.1 + toFloat 0.001),
      if toFloat (v.1 + toFloat 0.001) ≥ toFloat 1.2 then false else true)
  else
    (toFloat (v.1 - toFloat 0.001),
      if toFloat (v.1 - toFloat 0.001) ≤ toFloat 0.0 then true else false)

/-- What holds of a colour channel at every call: the value is within one step of the
interval from 0 to 1, and the next call changes the flag if and only if the value it
produces is at or below 0 or at or above 1. -/
def channelTurns (v : ℚ × Bool) : Prop :=
  (-0.01 ≤ v.1 ∧ v.1 ≤ 1.01) ∧
  ((channelStep v).2 ≠ v.2 ↔ ((channelStep v).1 ≤ 0 ∨ 1 ≤ (channelStep v).1))

/-- What holds of the fade oscillator at every call: the alpha is within one step of the
interval from 0 to 1.2, and the next call changes the flag if and only if the alpha it
produces is at or below 0 or at or above the `float` nearest to 1.2. -/
def fadeTurns (v : ℚ × Bool) : Prop :=
  (-0.001 ≤ v.1 ∧ v.1 ≤ 1.201) ∧
  ((fadeStep v).2 ≠ v.2 ↔ ((fadeStep v).1 ≤ 0 ∨ toFloat 1.2 ≤ (fadeStep v).1))

instance : DecidablePred channelTurns := fun v => by unfold channelTurns; infer_instance

instance : DecidablePred fadeTurns := fun v => by unfold fadeTurns; infer_instance

/-- A checked run: the state after `n` steps of `f` from `x`, provided `P` holds of `x` and of
the state after each of the first `n - 1` steps. -/
def checkedRun {α : Type} (P : α → Prop) [DecidablePred P] (f : α → α) : ℕ → α → Option α
  | 0, x => some x
  | n + 1, x => if P x then checkedRun P f n (f x) else none

/-- Checked runs in a row: from `x`, each entry of the list gives a number of steps and the
state those steps lead to; every run is checked with `checkedRun`. -/
def checkedRuns {α : Type} [DecidableEq α] (P : α → Prop) [DecidablePred P] (f : α → α) :
    α → List (ℕ × α) → Bool
  | _, [] => true
  | x, (n, y) :: rest => decide (checkedRun P f n x = some y) && checkedRuns P f y rest

/-- The number of steps of a list of runs. -/
def stepsOf {α : Type} : List (ℕ × α) → ℕ
  | [] => 0
  | (n, _) :: rest => stepsOf rest + n

/-- The state a list of runs from `x` ends in. -/
def endOf {α : Type} (x : α) : List (ℕ × α) → α
  | [] => x
  | (_, y) :: rest => endOf y rest

/-- Light 0's strength after `n` calls of `Light1Strength`. -/
def strengthAfter (n : ℕ) (s : Scene) : ℚ := ((Light1Strength^[n] s).gLights 0).strength

/-- Light 0's direction flag after `n` calls of `Light1Strength`. -/
def strengthUpAfter (n : ℕ) (s : Scene) : Bool := (Light1Strength^[n] s).light1StrengthGoingUp

/-- The fade alpha after `n` calls of `FadeTexture`. -/
def alphaAfter (n : ℕ) (s : Scene) : ℚ := (FadeTexture^[n] s).gPerFrameConstants.alpha

/-- The entities drawn without blending, in the order of the main pass. -/
def unblendedEntities : List Entity :=
  [.Ground, .Sphere, .Teapot, .Cube, .Tech, .NormMapFadeCube]

/-- The entities drawn with blending, in the order of the main pass. -/
def blendedEntities : List Entity :=
  [.LightModel 0, .LightModel 1, .LightModel 2, .GlassCube, .Smoke]

/-- The blend state each entity is to be drawn with: additive for the light markers,
multiplicative for the glass cube, alpha for the smoke, none otherwise. -/
def blendModeOf : Entity → BlendState
  | .LightModel _ => .gAdditiveBlendingState
  | .GlassCube => .gMultiplicativeBlendingState
  | .Smoke => .gAlphaBlendingState
  | _ => .gNoBlendingState

/-- A concrete choice of the external functions, for evaluating the definitions on concrete
scenes: the world matrix scales by the model's scale and translates to its position; no
key moves anything. -/
def sampleExternals : Externals :=
  { cos := fun _ => 1,
    sin := fun _ => 0,
    pow := fun b _ => b,
    ToRadians := fun d => d * 355 / (113 * 180),
    Normalise := fun v => v,
    GetZAxis := fun m => { x := m.e20, y := m.e21, z := m.e22 },
    MakeProjectionMatrix := fun aspect fov =>
      { CMatrix4x4.identity with e00 := 1 / (aspect * fov), e11 := 1 / fov, e23 := 1, e33 := 0 },
    WorldMatrix := fun m =>
      { CMatrix4x4.identity with e00 := m.scale, e11 := m.scale, e22 := m.scale,
                                 e30 := m.position.x, e31 := m.position.y, e32 := m.position.z },
    faceRotation := fun m _ => m.rotation,
    modelControl := fun _ _ _ m => m,
    cameraControl := fun _ _ _ c => c,
    ViewMatrix := fun _ => CMatrix4x4.identity,
    ProjectionMatrix := fun _ => CMatrix4x4.identity,
    ViewProjectionMatrix := fun _ => CMatrix4x4.identity }

/-- The scene after `InitScene` for a 1280 by 960 window, under `sampleExternals`. -/
def sampleScene : Scene := InitScene sampleExternals 1280 960

/-- Whether a command uploads the per-frame constants. -/
def Cmd.isUpload : Cmd → Bool
  | .UpdateConstantBuffer _ => true
  | _ => false

/-- The bindings before the first command and after each command of a sequence, in order. -/
def statesAlong (p : Pipeline) : List Cmd → List Pipeline
  | [] => [p]
  | c :: cs => p :: statesAlong (applyCmd p c) cs

/-- The mesh globals that `InitGeometry` fills, in the order of its `try` block. -/
inductive MeshVar where
  | gSphereMesh | gTeapotMesh | gGroundMesh | gLightMesh | gCubeMesh | gGlassCubeMesh
  | gSmokeMesh | gNormMapFadeCubeMesh | gTechMesh
deriving DecidableEq

/-- One call that `InitGeometry` makes into another translation unit or into Direct3D. -/
inductive InitCall where
  /-- Call `new Mesh(file, requireTangents)`, assigned to a mesh global. -/
  | NewMesh (target : MeshVar) (file : String) (requireTangents : Bool)
  | LoadShaders
  | CreateConstantBuffer (target : ConstantBuffer)
  /-- Call `LoadTexture(file, ..)`, filling a shader resource view. -/
  | LoadTexture (file : String) (target : ShaderResourceView)
  | CreateTexture2D
  | CreateDepthStencilView
  | CreateShaderResourceView
  | CreateStates
deriving DecidableEq

/-- How each call of `InitGeometry` turns out. -/
structure InitWorld where
  /-- The message of the `std::runtime_error` that the `Mesh` constructor throws for this
  global, if it throws. -/
  meshError : MeshVar → Option String
  /-- Whether `LoadShaders` returns true. -/
  LoadShaders : Bool
  /-- Whether `CreateConstantBuffer` returns a non-null buffer. -/
  CreateConstantBuffer : ConstantBuffer → Bool
  /-- Whether `LoadTexture` returns true for this view. -/
  LoadTexture : ShaderResourceView → Bool
  /-- Whether `CreateTexture2D` succeeds (its result is not `FAILED`). -/
  CreateTexture2D : Bool
  /-- Whether `CreateDepthStencilView` succeeds. -/
  CreateDepthStencilView : Bool
  /-- Whether `CreateShaderResourceView` succeeds. -/
  CreateShaderResourceView : Bool
  /-- Whether `CreateStates` returns true. -/
  CreateStates : Bool

/-- The mesh constructions of the `try` block, in order: global, file, tangent flag. -/
def meshLoads : List (MeshVar × String × Bool) :=
  [(.gSphereMesh, "Sphere.x", false),
   (.gTeapotMesh, "Teapot.x", false),
   (.gGroundMesh, "Hills.x", false),
   (.gLightMesh, "Light.x", false),
   (.gCubeMesh, "Cube.x", false),
   (.gGlassCubeMesh, "Cube.x", false),
   (.gSmokeMesh, "Portal.x", false),
   (.gNormMapFadeCubeMesh, "Cube.x", true),
   (.gTechMesh, "Cube.x", true)]

/-- The texture loads of the `||` chain, in order: file and view. -/
def textureLoads : List (String × ShaderResourceView) :=
  [("StoneDiffuseSpecular.dds", .gSphereDiffuseSpecularMapSRV),
   ("CargoA.dds", .gTeapotDiffuseSpecularMapSRV),
   ("GrassDiffuseSpecular.dds", .gGroundDiffuseSpecularMapSRV),
   ("Flare.jpg", .gLightDiffuseMapSRV),
   ("StoneDiffuseSpecular.dds", .gCubeTexture1MapSRV),
   ("WoodDiffuseSpecular.dds", .gCubeTexture2MapSRV),
   ("Glass.jpg", .gGlassCubeTextureMapSRV),
   ("Smoke.png", .gSmokeMapSRV),
   ("PatternDiffuseSpecular.dds", .gCubeDiffuseSpecularMapSRV),
   ("PatternNormal.dds", .gCubeNormalMapSRV),
   ("WoodDiffuseSpecular.dds", .gCubeDiffuseSpecularMapSRV2),
   ("WoodNormal.dds", .gCubeNormalMapSRV2),
   ("TechDiffuseSpecular.dds", .gTechDiffuseSpecularMapSRV),
   ("TechNormalHeight.dds", .gTechNormalHeightMapSRV)]

/-- The `try` block of `InitGeometry`: the constructors run in order until one throws; the
result is the calls made and the message of the error caught, if any. -/
def tryMeshes (w : InitWorld) : List (MeshVar × String × Bool) → List InitCall × Option String
  | [] => ([], none)
  | (target, file, tangents) :: rest =>
    match w.meshError target with
    | some what => ([.NewMesh target file tangents], some what)
    | none => (.NewMesh target file tangents :: (tryMeshes w rest).1, (tryMeshes w rest).2)

/-- The `||` chain of negated `LoadTexture` calls: evaluated left to right until one call
fails; the result is the calls made and whether the chain is true (a load failed). -/
def anyTextureFails (w : InitWorld) : List (String × ShaderResourceView) → List InitCall × Bool
  | [] => ([], false)
  | (file, target) :: rest =>
    if !w.LoadTexture target then ([.LoadTexture file target], true)
    else (.LoadTexture file target :: (anyTextureFails w rest).1, (anyTextureFails w rest).2)

/-- What `InitGeometry` leaves: its return value, the global `gLastError`, and the calls it
made, in order. -/
structure InitResult where
  result : Bool
  gLastError : String
  calls : List InitCall
deriving DecidableEq

/-- `InitGeometry`, run in a world `w` with `gLastError` holding `lastError` on entry. -/
def InitGeometry (w : InitWorld) (lastError : String) : InitResult :=
  match tryMeshes w meshLoads with
  | (calls, some what) => { result := false, gLastError := what, calls := calls }
  | (calls, none) =>
    let calls := calls ++ [.LoadShaders]
    if !w.LoadShaders then
      { result := false, gLastError := "Error loading shaders", calls := calls }
    else
    let calls := calls ++ [.CreateConstantBuffer .gPerFrameConstantBuffer,
      .CreateConstantBuffer .gPerModelConstantBuffer]
    if !w.CreateConstantBuffer .gPerFrameConstantBuffer
        || !w.CreateConstantBuffer .gPerModelConstantBuffer then
      { result := false, gLastError := "Error creating constant buffers", calls := calls }
    else
    let calls := calls ++ (anyTextureFails w textureLoads).1
    if (anyTextureFails w textureLoads).2 then
      { result := false, gLastError := "Error loading textures", calls := calls }
    else
    let calls := calls ++ [.CreateTexture2D]
    if !w.CreateTexture2D then
      { result := false, gLastError := "Error creating shadow map texture", calls := calls }
    else
    let calls := calls ++ [.CreateDepthStencilView]
    if !w.CreateDepthStencilView then
      { result := false, gLastError := "Error creating shadow map depth stencil view",
        calls := calls }
    else
    let calls := calls ++ [.CreateShaderResourceView]
    if !w.CreateShaderResourceView then
      { result := false, gLastError := "Error creating shadow map shader resource view",
        calls := calls }
    else
    let calls := calls ++ [.CreateStates]
    if !w.CreateStates then
      { result := false, gLastError := "Error creating states", calls := calls }
    else
      { result := true, gLastError := lastError, calls := calls }

/-- The initialisation steps that the specification names, in its order. -/
inductive InitStage where
  | meshes | shaders | constantBuffers | textures | shadowTexture | shadowDepthStencilView
  | shadowShaderResourceView | states
deriving DecidableEq

/-- The initialisation steps in the order of the specification. -/
def initStages : List InitStage :=
  [.meshes, .shaders, .constantBuffers, .textures, .shadowTexture, .shadowDepthStencilView,
   .shadowShaderResourceView, .states]

/-- Position of a step in the order of the specification. -/
def InitStage.index : InitStage → Nat
  | .meshes => 0
  | .shaders => 1
  | .constantBuffers => 2
  | .textures => 3
  | .shadowTexture => 4
  | .shadowDepthStencilView => 5
  | .shadowShaderResourceView => 6
  | .states => 7

/-- The step a call belongs to. -/
def InitCall.stage : InitCall → InitStage
  | .NewMesh _ _ _ => .meshes
  | .LoadShaders => .shaders
  | .CreateConstantBuffer _ => .constantBuffers
  | .LoadTexture _ _ => .textures
  | .CreateTexture2D => .shadowTexture
  | .CreateDepthStencilView => .shadowDepthStencilView
  | .CreateShaderResourceView => .shadowShaderResourceView
  | .CreateStates => .states

/-- Whether a step succeeds in a world: every mesh constructor returns, the shaders load,
both constant buffers are created, every texture loads, and so on. -/
def stageSucceeds (w : InitWorld) : InitStage → Bool
  | .meshes => meshLoads.all (fun m => (w.meshError m.1).isNone)
  | .shaders => w.LoadShaders
  | .constantBuffers =>
      w.CreateConstantBuffer .gPerFrameConstantBuffer
        && w.CreateConstantBuffer .gPerModelConstantBuffer
  | .textures => textureLoads.all (fun t => w.LoadTexture t.2)
  | .shadowTexture => w.CreateTexture2D
  | .shadowDepthStencilView => w.CreateDepthStencilView
  | .shadowShaderResourceView => w.CreateShaderResourceView
  | .states => w.CreateStates

/-- The message of a failing step: for mesh construction the message carried by the runtime
error of the first constructor that throws, for the other steps their fixed message. -/
def stageMessage (w : InitWorld) : InitStage → String
  | .meshes => (meshLoads.findSome? (fun m => w.meshError m.1)).getD ""
  | .shaders => "Error loading shaders"
  | .constantBuffers => "Error creating constant buffers"
  | .textures => "Error loading textures"
  | .shadowTexture => "Error creating shadow map texture"
  | .shadowDepthStencilView => "Error creating shadow map depth stencil view"
  | .shadowShaderResourceView => "Error creating shadow map shader resource view"
  | .states => "Error creating states"

/-- The first step, in the order of the specification, that fails in a world. -/
def firstFailingStage (w : InitWorld) : Option InitStage :=
  initStages.find? (fun st => !stageSucceeds w st)

/-- A world in which every call succeeds. -/
def sampleWorld : InitWorld :=
  { meshError := fun _ => none, LoadShaders := true, CreateConstantBuffer := fun _ => true,
    LoadTexture := fun _ => true, CreateTexture2D := true, CreateDepthStencilView := true,
    CreateShaderResourceView := true, CreateStates := true }

/-- A world in which the teapot mesh cannot be read and the shaders would not load either. -/
def brokenWorld : InitWorld :=
  { sampleWorld with
    meshError := fun v => if v = .gTeapotMesh then some "Cannot load Teapot.x" else none,
    LoadShaders := false }

/-! ## Rendering: the command traces -/

/-- The light loop runs over the indices 0, 1, 2. -/
theorem finRange_NUM_LIGHTS : List.finRange NUM_LIGHTS = [0, 1, 2] := rfl

/-- The draws of two command sequences in a row. -/
theorem drawsFrom_append (p : Pipeline) (a b : List Cmd) :
    drawsFrom p (a ++ b) = drawsFrom p a ++ drawsFrom (execCmds p a) b := by
  induction a generalizing p with
  | nil => rfl
  | cons c cs ih =>
    cases c <;> simp [drawsFrom, execCmds, ih]

/-- A property of the images under `f` of a list's members holds of the members. -/
theorem forall_mem_of_map {α β : Type} (f : α → β) (l : List α) (P : β → Prop)
    (h : ∀ b ∈ l.map f, P b) : ∀ a ∈ l, P (f a) :=
  fun _ ha => h _ (List.mem_map_of_mem f ha)

/-- The main pass appends its commands to the trace it continues. -/
theorem RenderSceneFromCameraOn_issued (ext : Externals) (camera : Camera) (t : Trace) :
    (RenderSceneFromCameraOn ext camera t).issued
      = (RenderSceneFromCamera ext camera t.scene).issued ++ t.issued := by
  cases t with
  | mk s cs =>
    simp only [RenderSceneFromCamera, RenderSceneFromCameraOn, Trace.start, Trace.emit,
      Trace.modify, Trace.emitWith, Trace.render, renderLight, finRange_NUM_LIGHTS,
      List.foldl_cons, List.foldl_nil, List.cons_append, List.nil_append]

/-- The scene the main pass leaves does not depend on the commands issued before it. -/
theorem RenderSceneFromCameraOn_scene (ext : Externals) (camera : Camera) (t : Trace) :
    (RenderSceneFromCameraOn ext camera t).scene
      = (RenderSceneFromCamera ext camera t.scene).scene := by
  cases t with
  | mk s cs =>
    simp only [RenderSceneFromCamera, RenderSceneFromCameraOn, Trace.start, Trace.emit,
      Trace.modify, Trace.emitWith, Trace.render, renderLight, finRange_NUM_LIGHTS,
      List.foldl_cons, List.foldl_nil]

/-- The main pass leaves the frame-rate lock alone. -/
theorem RenderSceneFromCamera_lockFPS (ext : Externals) (camera : Camera) (s : Scene) :
    (RenderSceneFromCamera ext camera s).scene.lockFPS = s.lockFPS := by
  simp [RenderSceneFromCamera, RenderSceneFromCameraOn, Trace.start, Trace.emit,
      Trace.modify, Trace.emitWith, Trace.render, renderLight, finRange_NUM_LIGHTS,
      Model.Render, Scene.setPerFrame]

/-- The assembly of the per-frame constants writes nothing but the per-frame constants. -/
theorem assembleFrameConstants_frame (ext : Externals) (s : Scene) :
    (assembleFrameConstants ext s).gCamera = s.gCamera ∧
    (assembleFrameConstants ext s).lockFPS = s.lockFPS ∧
    (assembleFrameConstants ext s).gShadowMapSize = s.gShadowMapSize ∧
    (assembleFrameConstants ext s).gViewportWidth = s.gViewportWidth ∧
    (assembleFrameConstants ext s).gViewportHeight = s.gViewportHeight ∧
    (assembleFrameConstants ext s).gBackgroundColor = s.gBackgroundColor := by
  simp [assembleFrameConstants, Scene.setPerFrame]

/-- The commands of one frame: nine commands of set-up, the commands of the main pass, the
unbinding of the shadow map and the present. -/
theorem RenderScene_cmds (ext : Externals) (s : Scene) :
    (RenderScene ext s).cmds
      = [.RSSetViewports (fullViewport s.gShadowMapSize s.gShadowMapSize),
         .OMSetRenderTargets none .gShadowMap1DepthStencil,
         .ClearDepthStencilView .gShadowMap1DepthStencil 1.0 0,
         .OMSetRenderTargets (some .gBackBufferRenderTarget) .gDepthStencil,
         .ClearRenderTargetView .gBackBufferRenderTarget s.gBackgroundColor,
         .ClearDepthStencilView .gDepthStencil 1.0 0,
         .RSSetViewports (fullViewport s.gViewportWidth s.gViewportHeight),
         .PSSetShaderResources 1 (some .gShadowMap1SRV),
         .PSSetSamplers 1 .gPointSampler]
        ++ (RenderSceneFromCamera ext s.gCamera (assembleFrameConstants ext s)).cmds
        ++ [.PSSetShaderResources 1 none, .Present (if s.lockFPS then 1 else 0) 0] := by
  obtain ⟨h1, h2, h3, h4, h5, h6⟩ := assembleFrameConstants_frame ext s
  simp only [RenderScene, Trace.cmds, Trace.start, Trace.emit, Trace.modify, Trace.emitWith,
    Trace.withScene, RenderSceneFromCameraOn_issued, RenderSceneFromCameraOn_scene,
    RenderSceneFromCamera_lockFPS, h1, h2, h3, h4, h5, h6]
  simp

/-- The bindings that matter for the order of the main pass, at each of its draws. -/
theorem RenderSceneFromCamera_draws (ext : Externals) (camera : Camera) (s : Scene)
    (p : Pipeline) :
    (drawsFrom p (RenderSceneFromCamera ext camera s).cmds).map
        (fun d => (d.entity, d.pipeline.blendState, d.pipeline.depthStencilState,
          d.pipeline.rasterizerState))
      = [(.Ground, some .gNoBlendingState, some .gUseDepthBufferState, some .gCullBackState),
         (.Sphere, some .gNoBlendingState, some .gUseDepthBufferState, some .gCullBackState),
         (.Teapot, some .gNoBlendingState, some .gUseDepthBufferState, some .gCullBackState),
         (.Cube, some .gNoBlendingState, some .gUseDepthBufferState, some .gCullBackState),
         (.Tech, some .gNoBlendingState, some .gUseDepthBufferState, some .gCullBackState),
         (.NormMapFadeCube, some .gNoBlendingState, some .gUseDepthBufferState,
           some .gCullBackState),
         (.LightModel 0, some .gAdditiveBlendingState, some .gDepthReadOnlyState,
           some .gCullNoneState),
         (.LightModel 1, some .gAdditiveBlendingState, some .gDepthReadOnlyState,
           some .gCullNoneState),
         (.LightModel 2, some .gAdditiveBlendingState, some .gDepthReadOnlyState,
           some .gCullNoneState),
         (.GlassCube, some .gMultiplicativeBlendingState, some .gDepthReadOnlyState,
           some .gCullBackState),
         (.Smoke, some .gAlphaBlendingState, some .gDepthReadOnlyState,
           some .gCullNoneState)] := by
  rfl

/-- The targets and pixel shader in force at each draw of one frame. -/
theorem RenderScene_draw_targets (ext : Externals) (s : Scene) (p : Pipeline) :
    (drawsFrom p (RenderScene ext s).cmds).map
        (fun d => (d.entity, d.pipeline.renderTarget, d.pipeline.depthTarget))
      = (unblendedEntities ++ blendedEntities).map
          (fun e => (e, some .gBackBufferRenderTarget, some .gDepthStencil)) := by
  rfl

/-- C1 (the code departs from the claim): in the frame issued by `RenderScene` the shadow
depth target is bound and cleared and the very next command selects the back buffer, so no
shadow caster is drawn in between; every draw of the frame is issued with the back buffer
and the main depth buffer as targets, none with the shadow depth target, and none with the
depth-only pixel shader. -/
theorem C1_shadow_pass_issues_no_draw (ext : Externals) (s : Scene) (p : Pipeline) :
    (RenderScene ext s).cmds.take 4
      = [.RSSetViewports (fullViewport s.gShadowMapSize s.gShadowMapSize),
         .OMSetRenderTargets none .gShadowMap1DepthStencil,
         .ClearDepthStencilView .gShadowMap1DepthStencil 1.0 0,
         .OMSetRenderTargets (some .gBackBufferRenderTarget) .gDepthStencil] ∧
    (drawsFrom p (RenderScene ext s).cmds).filter
        (fun d => decide (d.pipeline.depthTarget = some .gShadowMap1DepthStencil)) = [] ∧
    (drawsFrom p (RenderScene ext s).cmds).filter
        (fun d => decide (d.pipeline.pixelShader = some .gDepthOnlyPixelShader)) = [] ∧
    (drawsFrom p (RenderScene ext s).cmds).map (fun d => d.pipeline.depthTarget)
      = List.replicate 11 (some .gDepthStencil) := by
  refine ⟨?_, ?_, ?_, ?_⟩
  · rw [RenderScene_cmds]; rfl
  · rfl
  · rfl
  · rfl

/-! ## The rounding to single and double precision -/

/-- The level found by `digitLevel` bounds `q`, when the fuel reaches far enough. -/
theorem digitLevel_spec : ∀ (fuel k q : ℕ), q < 2 ^ 2 ^ (k + fuel) →
    q < 2 ^ 2 ^ digitLevel fuel k q := by
  intro fuel
  induction fuel with
  | zero => intro k q h; simpa [digitLevel] using h
  | succ fuel ih =>
    intro k q h
    simp only [digitLevel]
    split_ifs with hq
    · exact hq
    · exact ih (k + 1) q (by rw [Nat.add_assoc, Nat.add_comm 1 fuel]; exact h)

/-- Below `2 ^ 2 ^ k`, `digitsBelow k` counts the binary digits. -/
theorem digitsBelow_spec : ∀ (k q : ℕ), q < 2 ^ 2 ^ k →
    q < 2 ^ digitsBelow k q ∧ (0 < q → 2 ^ (digitsBelow k q - 1) ≤ q) := by
  intro k
  induction k with
  | zero =>
    intro q h
    have h2 : q < 2 := by simpa using h
    simp only [digitsBelow]
    split_ifs with h0
    · subst h0; simp
    · have : q = 1 := by omega
      subst this; simp
  | succ k ih =>
    intro q h
    simp only [digitsBelow]
    split_ifs with hq
    · exact ih q hq
    · have hB : 0 < 2 ^ 2 ^ k := Nat.pow_pos (by norm_num)
      have hsq : 2 ^ 2 ^ (k + 1) = 2 ^ 2 ^ k * 2 ^ 2 ^ k := by
        rw [← pow_add, pow_succ, Nat.mul_two]
      have hq' : q / 2 ^ 2 ^ k < 2 ^ 2 ^ k := by
        rw [Nat.div_lt_iff_lt_mul hB, ← hsq]; exact h
      have hpos : 0 < q / 2 ^ 2 ^ k := Nat.div_pos (not_lt.mp hq) hB
      obtain ⟨u, l⟩ := ih (q / 2 ^ 2 ^ k) hq'
      have l := l hpos
      have hd : 0 < digitsBelow k (q / 2 ^ 2 ^ k) := by
        by_contra h0
        have h0 : digitsBelow k (q / 2 ^ 2 ^ k) = 0 := by omega
        rw [h0] at u; simp at u; omega
      refine ⟨?_, fun _ => ?_⟩
      · rw [pow_add]
        have := (Nat.div_lt_iff_lt_mul hB).mp u
        exact this
      · have e : digitsBelow k (q / 2 ^ 2 ^ k) + 2 ^ k - 1
            = (digitsBelow k (q / 2 ^ 2 ^ k) - 1) + 2 ^ k :=
          (Nat.sub_add_comm hd).symm ▸ rfl
        rw [e, pow_add]
        calc 2 ^ (digitsBelow k (q / 2 ^ 2 ^ k) - 1) * 2 ^ 2 ^ k
            ≤ q / 2 ^ 2 ^ k * 2 ^ 2 ^ k := Nat.mul_le_mul_right _ l
          _ ≤ q := Nat.div_mul_le_self q _

/-- `binaryDigits q` is the number of binary digits of `q`: `q` is below `2 ^ binaryDigits q`
and, unless it is 0, at least `2 ^ (binaryDigits q - 1)`. -/
theorem binaryDigits_spec (q : ℕ) :
    q < 2 ^ binaryDigits q ∧ (0 < q → 2 ^ (binaryDigits q - 1) ≤ q) := by
  apply digitsBelow_spec
  apply digitLevel_spec
  rw [Nat.zero_add]
  calc q < 2 ^ q := Nat.lt_two_pow q
    _ ≤ 2 ^ 2 ^ q := Nat.pow_le_pow_right (by norm_num) (Nat.lt_two_pow q).le

/-- `nearestEven n d` is within one half of the quotient `n / d`. -/
theorem nearestEven_spec (n d : ℕ) (hd : 0 < d) :
    |((nearestEven n d : ℕ) : ℚ) - (n : ℚ) / d| ≤ 1 / 2 := by
  have hdq : (0 : ℚ) < d := by exact_mod_cast hd
  have hn : (n : ℚ) = d * (n / d : ℕ) + (n % d : ℕ) := by exact_mod_cast (Nat.div_add_mod n d).symm
  have hr : ((n % d : ℕ) : ℚ) < d := by exact_mod_cast Nat.mod_lt n hd
  have hr0 : (0 : ℚ) ≤ (n % d : ℕ) := Nat.cast_nonneg _
  have e : (n : ℚ) / d = (n / d : ℕ) + ((n % d : ℕ) : ℚ) / d := by
    rw [div_eq_iff hdq.ne', add_mul, div_mul_cancel₀ _ hdq.ne']
    linear_combination hn
  have hfrac0 : 0 ≤ ((n % d : ℕ) : ℚ) / d := div_nonneg hr0 hdq.le
  have hfrac1 : ((n % d : ℕ) : ℚ) / d < 1 := (div_lt_one hdq).mpr hr
  simp only [nearestEven]
  split_ifs with h1 h2 h3
  · have : (2 : ℚ) * (n % d : ℕ) < d := by exact_mod_cast h1
    have : ((n % d : ℕ) : ℚ) / d < 1 / 2 := by
      rw [div_lt_iff₀ hdq]; linarith
    rw [e, abs_le]; constructor <;> linarith
  · have : (d : ℚ) < 2 * (n % d : ℕ) := by exact_mod_cast h2
    have : 1 / 2 < ((n % d : ℕ) : ℚ) / d := by
      rw [lt_div_iff₀ hdq]; linarith
    rw [e, abs_le]; push_cast; constructor <;> linarith
  · have h4 : 2 * (n % d) = d := by omega
    have : (2 : ℚ) * (n % d : ℕ) = d := by exact_mod_cast h4
    have : ((n % d : ℕ) : ℚ) / d = 1 / 2 := by
      rw [div_eq_iff hdq.ne']; linarith
    rw [e, abs_le]; constructor <;> linarith
  · have h4 : 2 * (n % d) = d := by omega
    have : (2 : ℚ) * (n % d : ℕ) = d := by exact_mod_cast h4
    have : ((n % d : ℕ) : ℚ) / d = 1 / 2 := by
      rw [div_eq_iff hdq.ne']; linarith
    rw [e, abs_le]; push_cast; constructor <;> linarith

/-- `roundBinary` gives a multiple of the spacing that it selects for `x`, and one that lies
within half that spacing of `x`. -/
theorem roundBinary_spec (prec grid : ℕ) (x : ℚ) :
    (∃ k : ℤ, roundBinary prec grid x
      = k * (2 ^ (binaryDigits (x.num.natAbs * 2 ^ grid / x.den) - prec) / 2 ^ grid)) ∧
    |roundBinary prec grid x - x|
      ≤ (2 ^ (binaryDigits (x.num.natAbs * 2 ^ grid / x.den) - prec) / 2 ^ grid) / 2 := by
  generalize hsh : binaryDigits (x.num.natAbs * 2 ^ grid / x.den) - prec = sh
  have hD : (0 : ℚ) < x.den := by exact_mod_cast x.den_pos
  have hS : (0 : ℚ) < 2 ^ sh := by positivity
  have hG : (0 : ℚ) < 2 ^ grid := by positivity
  have hne := nearestEven_spec (x.num.natAbs * 2 ^ grid) (x.den * 2 ^ sh)
    (Nat.mul_pos x.den_pos (Nat.pow_pos (by norm_num)))
  set ne := nearestEven (x.num.natAbs * 2 ^ grid) (x.den * 2 ^ sh) with hnedef
  push_cast at hne
  have hx : x = (x.num : ℚ) / x.den := (Rat.num_div_den x).symm
  have key : |(ne : ℚ) * 2 ^ sh / 2 ^ grid - (x.num.natAbs : ℚ) / x.den|
      ≤ (2 ^ sh / 2 ^ grid) / 2 := by
    have e : (ne : ℚ) * 2 ^ sh / 2 ^ grid - (x.num.natAbs : ℚ) / x.den
        = ((ne : ℚ) - (x.num.natAbs : ℚ) * 2 ^ grid / (x.den * 2 ^ sh)) * (2 ^ sh / 2 ^ grid) := by
      field_simp
      ring
    rw [e, abs_mul, abs_of_pos (div_pos hS hG)]
    calc |(ne : ℚ) - (x.num.natAbs : ℚ) * 2 ^ grid / (x.den * 2 ^ sh)| * (2 ^ sh / 2 ^ grid)
        ≤ 1 / 2 * (2 ^ sh / 2 ^ grid) := mul_le_mul_of_nonneg_right hne (div_pos hS hG).le
      _ = (2 ^ sh / 2 ^ grid) / 2 := by ring
  have hval : roundBinary prec grid x
      = if x.num < 0 then mkRat (-((ne * 2 ^ sh : ℕ) : ℤ)) (2 ^ grid)
        else mkRat ((ne * 2 ^ sh : ℕ) : ℤ) (2 ^ grid) := by
    simp only [roundBinary, hsh, hnedef]
  rw [hval]
  by_cases hneg : x.num < 0
  · have ha : (x.num.natAbs : ℚ) / x.den = -x := by
      rw [← Int.cast_natCast, Int.ofNat_natAbs_of_nonpos hneg.le, Int.cast_neg, neg_div,
        Rat.num_div_den]
    rw [if_pos hneg, Rat.mkRat_eq_div]
    push_cast
    refine ⟨⟨-(ne : ℤ), by push_cast; ring⟩, ?_⟩
    have e : -((ne : ℚ) * 2 ^ sh) / 2 ^ grid - x
        = -((ne : ℚ) * 2 ^ sh / 2 ^ grid - (x.num.natAbs : ℚ) / x.den) := by
      rw [ha]; ring
    rw [e, abs_neg]; exact key
  · have ha : (x.num.natAbs : ℚ) / x.den = x := by
      rw [← Int.cast_natCast, Int.natAbs_of_nonneg (not_lt.mp hneg), Rat.num_div_den]
    rw [if_neg hneg, Rat.mkRat_eq_div]
    push_cast
    refine ⟨⟨(ne : ℤ), by push_cast; ring⟩, ?_⟩
    have e : (ne : ℚ) * 2 ^ sh / 2 ^ grid - x
        = (ne : ℚ) * 2 ^ sh / 2 ^ grid - (x.num.natAbs : ℚ) / x.den := by
      rw [ha]
    rw [e]; exact key

/-! ## The triangle wave -/


theorem triStep_triPhase (d : ℚ) (N m : ℕ) (hd : 0 < d) (hN : 0 < N) (hm : m < 2 * N) :
    triStep d (N * d) (triPhase d N m) = triPhase d N ((m + 1) % (2 * N)) := by
  have hNq : (0 : ℚ) < N := by exact_mod_cast hN
  by_cases h1 : m + 1 < N
  · have hm1 : (m + 1) % (2 * N) = m + 1 := Nat.mod_eq_of_lt (by omega)
    have hlt : m < N := by omega
    have hq : ((m : ℚ) + 1) < N := by exact_mod_cast h1
    have : ¬ ((m : ℚ) * d + d ≥ N * d) := by
      have : (m : ℚ) * d + d = ((m : ℚ) + 1) * d := by ring
      rw [this]; push_neg
      exact mul_lt_mul_of_pos_right hq hd
    simp [triStep, triPhase, hm1, hlt, h1, this]
    ring
  · by_cases h2 : m + 1 = N
    · have hm1 : (m + 1) % (2 * N) = N := by rw [h2]; exact Nat.mod_eq_of_lt (by omega)
      have hlt : m < N := by omega
      have hq : ((m : ℚ) + 1) = N := by exact_mod_cast h2
      have : (m : ℚ) * d + d = N * d := by rw [← hq]; ring
      simp only [triStep, triPhase, hm1, hlt, this, if_true, lt_irrefl, if_false, ge_iff_le,
        le_refl]
      refine Prod.ext ?_ rfl
      show (N : ℚ) * d = (2 * N - N) * d
      ring
    · by_cases h3 : m + 1 < 2 * N
      · have hm1 : (m + 1) % (2 * N) = m + 1 := Nat.mod_eq_of_lt h3
        have hge : ¬ m < N := by omega
        have hge1 : ¬ m + 1 < N := by omega
        have hq : ((m : ℚ) + 1) < 2 * N := by exact_mod_cast h3
        have : ¬ ((2 * (N : ℚ) - m) * d - d ≤ 0) := by
          have : (2 * (N : ℚ) - m) * d - d = (2 * N - (m + 1)) * d := by ring
          rw [this]; push_neg
          exact mul_pos (by linarith) hd
        simp [triStep, triPhase, hm1, hge, hge1, this]
        ring
      · have h4 : m + 1 = 2 * N := by omega
        have hm1 : (m + 1) % (2 * N) = 0 := by rw [h4]; exact Nat.mod_self _
        have hge : ¬ m < N := by omega
        have hq : ((m : ℚ) + 1) = 2 * N := by exact_mod_cast h4
        have : (2 * (N : ℚ) - m) * d - d = 0 := by
          have : (2 * (N : ℚ) - m) = 1 := by linarith
          rw [this]; ring
        simp [triStep, triPhase, hm1, hge, hN, this]

theorem triStep_iterate (d : ℚ) (N : ℕ) (hd : 0 < d) (hN : 0 < N) (n m : ℕ) (hm : m < 2 * N) :
    (triStep d (N * d))^[n] (triPhase d N m) = triPhase d N ((m + n) % (2 * N)) := by
  induction n with
  | zero => simp [Nat.mod_eq_of_lt hm]
  | succ k ih =>
    rw [Function.iterate_succ_apply', ih, triStep_triPhase d N _ hd hN (Nat.mod_lt _ (by omega))]
    congr 1
    rw [Nat.add_mod, Nat.mod_mod, ← Nat.add_mod, Nat.add_assoc]


theorem triStep_fst (d hi : ℚ) (v : ℚ × Bool) :
    (triStep d hi v).1 = if v.2 then v.1 + d else v.1 - d := by
  unfold triStep; split_ifs <;> rfl

theorem triPhase_snd (d : ℚ) (N m : ℕ) : (triPhase d N m).2 = decide (m < N) := by
  unfold triPhase; split_ifs with h <;> simp [h]

theorem triPhase_bounds (d : ℚ) (N m : ℕ) (hd : 0 ≤ d) (hm : m ≤ 2 * N) :
    0 ≤ (triPhase d N m).1 ∧ (triPhase d N m).1 ≤ N * d := by
  have hmq : (m : ℚ) ≤ 2 * N := by exact_mod_cast hm
  unfold triPhase
  split_ifs with h
  · have hq : (m : ℚ) ≤ N := by exact_mod_cast h.le
    exact ⟨mul_nonneg (Nat.cast_nonneg m) hd, mul_le_mul_of_nonneg_right hq hd⟩
  · have hq : (N : ℚ) ≤ m := by exact_mod_cast (not_lt.mp h)
    exact ⟨mul_nonneg (by linarith) hd, mul_le_mul_of_nonneg_right (by linarith) hd⟩

theorem triPhase_flip (d : ℚ) (N m : ℕ) (hd : 0 < d) (hN : 0 < N) (hm : m < 2 * N) :
    ((triPhase d N ((m + 1) % (2 * N))).2 ≠ (triPhase d N m).2) ↔
      ((triPhase d N ((m + 1) % (2 * N))).1 = 0 ∨
        (triPhase d N ((m + 1) % (2 * N))).1 = N * d) := by
  have hd0 : d ≠ 0 := ne_of_gt hd
  have hNq : (0 : ℚ) < N := by exact_mod_cast hN
  rw [triPhase_snd, triPhase_snd]
  by_cases h3 : m + 1 < 2 * N
  · rw [Nat.mod_eq_of_lt h3]
    unfold triPhase
    by_cases h1 : m + 1 < N
    · have hlt : m < N := by omega
      have hq : ((m : ℚ) + 1) < N := by exact_mod_cast h1
      have hne : ((m + 1 : ℕ) : ℚ) * d ≠ N * d := by
        intro h; have := mul_right_cancel₀ hd0 h; push_cast at this; linarith
      have hpos : ((m + 1 : ℕ) : ℚ) * d ≠ 0 := by
        apply mul_ne_zero _ hd0; push_cast; positivity
      simp only [h1, hlt, if_true]
      constructor
      · intro h; exact absurd rfl h
      · rintro (h | h)
        · exact absurd h hpos
        · exact absurd h hne
    · by_cases h2 : m + 1 = N
      · have hlt : m < N := by omega
        have hq : ((m + 1 : ℕ) : ℚ) = N := by exact_mod_cast h2
        simp only [h1, hlt, if_false]
        constructor
        · intro _; right; rw [hq]; ring
        · intro _; simp
      · have hge : ¬ m < N := by omega
        have hq : (N : ℚ) < ((m + 1 : ℕ) : ℚ) := by
          have : N < m + 1 := by omega
          exact_mod_cast this
        have hq2 : ((m + 1 : ℕ) : ℚ) < 2 * N := by exact_mod_cast h3
        simp only [h1, hge, if_false]
        constructor
        · intro h; exact absurd rfl h
        · rintro (h | h)
          · have := (mul_eq_zero.mp h).resolve_right hd0; linarith
          · have := mul_right_cancel₀ hd0 h; linarith
  · have h4 : m + 1 = 2 * N := by omega
    have hge : ¬ m < N := by omega
    rw [h4, Nat.mod_self]
    unfold triPhase
    simp only [hN, hge, if_true]
    constructor
    · intro _; left; simp
    · intro _; simp

/-! ## The oscillators of the scene update -/

/-- `Light1Strength` acts on the strength and its flag as one step between 0 and 75. -/
theorem strengthState_Light1Strength (s : Scene) :
    strengthState (Light1Strength s) = triStep 0.5 75 (strengthState s) := by
  unfold Light1Strength triStep strengthState
  by_cases h : s.light1StrengthGoingUp = true
  · by_cases h2 : (s.gLights 0).strength + 0.5 ≥ 75 <;>
      simp [h, h2, Scene.setStrength, Scene.setLight]
  · by_cases h2 : (s.gLights 0).strength - 0.5 ≤ 0 <;>
      simp [h, h2, Scene.setStrength, Scene.setLight]

/-- The red block of `Light2RGB` acts on the red channel as one channel step. -/
theorem redState_Light2Red (s : Scene) :
    redState (Light2Red s) = channelStep (redState s) := by
  unfold Light2Red channelStep redState
  by_cases h : s.light2RedGoingUp = true
  · by_cases h2 : toFloat (toDouble ((s.gLights 1).colour.x + toDouble 0.01)) ≥ 1 <;>
      simp [h, h2, Scene.setColour, Scene.setLight]
  · by_cases h2 : toFloat (toDouble ((s.gLights 1).colour.x - toDouble 0.01)) ≤ 0 <;>
      simp [h, h2, Scene.setColour, Scene.setLight]

/-- The green block of `Light2RGB` acts on the green channel as one channel step. -/
theorem greenState_Light2Green (s : Scene) :
    greenState (Light2Green s) = channelStep (greenState s) := by
  unfold Light2Green channelStep greenState
  by_cases h : s.light2GreenGoingUp = true
  · by_cases h2 : toFloat (toDouble ((s.gLights 1).colour.y + toDouble 0.01)) ≥ 1 <;>
      simp [h, h2, Scene.setColour, Scene.setLight]
  · by_cases h2 : toFloat (toDouble ((s.gLights 1).colour.y - toDouble 0.01)) ≤ 0 <;>
      simp [h, h2, Scene.setColour, Scene.setLight]

/-- The blue block of `Light2RGB` acts on the blue channel as one channel step. -/
theorem blueState_Light2Blue (s : Scene) :
    blueState (Light2Blue s) = channelStep (blueState s) := by
  unfold Light2Blue channelStep blueState
  by_cases h : s.light2BlueGoingUp = true
  · by_cases h2 : toFloat (toDouble ((s.gLights 1).colour.z + toDouble 0.01)) ≥ 1 <;>
      simp [h, h2, Scene.setColour, Scene.setLight]
  · by_cases h2 : toFloat (toDouble ((s.gLights 1).colour.z - toDouble 0.01)) ≤ 0 <;>
      simp [h, h2, Scene.setColour, Scene.setLight]

/-- `FadeTexture` acts on the fade alpha as one fade step. -/
theorem fadeState_FadeTexture (s : Scene) :
    fadeState (FadeTexture s) = fadeStep (fadeState s) := by
  unfold FadeTexture fadeStep fadeState
  by_cases h : s.isFading = true
  · by_cases h2 : toFloat (s.gPerFrameConstants.alpha + toFloat 0.001) ≥ toFloat 1.2 <;>
      simp [h, h2, Scene.setAlpha]
  · by_cases h2 : toFloat (s.gPerFrameConstants.alpha - toFloat 0.001) ≤ toFloat 0.0 <;>
      simp [h, h2, Scene.setAlpha]

/-- What the red block of `Light2RGB` leaves alone. -/
theorem Light2Red_frame (s : Scene) :
    (Light2Red s).gLights 0 = s.gLights 0 ∧
    ((Light2Red s).gLights 1).colour.y = (s.gLights 1).colour.y ∧
    ((Light2Red s).gLights 1).colour.z = (s.gLights 1).colour.z ∧
    (Light2Red s).gPerFrameConstants = s.gPerFrameConstants ∧
    (Light2Red s).light1StrengthGoingUp = s.light1StrengthGoingUp ∧
    (Light2Red s).light2GreenGoingUp = s.light2GreenGoingUp ∧
    (Light2Red s).light2BlueGoingUp = s.light2BlueGoingUp ∧
    (Light2Red s).isFading = s.isFading := by
  simp only [Light2Red]
  split_ifs <;> simp [Scene.setColour, Scene.setLight, Function.update]

/-- What the green block of `Light2RGB` leaves alone. -/
theorem Light2Green_frame (s : Scene) :
    (Light2Green s).gLights 0 = s.gLights 0 ∧
    ((Light2Green s).gLights 1).colour.x = (s.gLights 1).colour.x ∧
    ((Light2Green s).gLights 1).colour.z = (s.gLights 1).colour.z ∧
    (Light2Green s).gPerFrameConstants = s.gPerFrameConstants ∧
    (Light2Green s).light1StrengthGoingUp = s.light1StrengthGoingUp ∧
    (Light2Green s).light2RedGoingUp = s.light2RedGoingUp ∧
    (Light2Green s).light2BlueGoingUp = s.light2BlueGoingUp ∧
    (Light2Green s).isFading = s.isFading := by
  simp only [Light2Green]
  split_ifs <;> simp [Scene.setColour, Scene.setLight, Function.update]

/-- What the blue block of `Light2RGB` leaves alone. -/
theorem Light2Blue_frame (s : Scene) :
    (Light2Blue s).gLights 0 = s.gLights 0 ∧
    ((Light2Blue s).gLights 1).colour.x = (s.gLights 1).colour.x ∧
    ((Light2Blue s).gLights 1).colour.y = (s.gLights 1).colour.y ∧
    (Light2Blue s).gPerFrameConstants = s.gPerFrameConstants ∧
    (Light2Blue s).light1StrengthGoingUp = s.light1StrengthGoingUp ∧
    (Light2Blue s).light2RedGoingUp = s.light2RedGoingUp ∧
    (Light2Blue s).light2GreenGoingUp = s.light2GreenGoingUp ∧
    (Light2Blue s).isFading = s.isFading := by
  simp only [Light2Blue]
  split_ifs <;> simp [Scene.setColour, Scene.setLight, Function.update]

/-- What `FadeTexture` leaves alone. -/
theorem FadeTexture_frame (s : Scene) :
    (FadeTexture s).gLights = s.gLights ∧
    (FadeTexture s).light1StrengthGoingUp = s.light1StrengthGoingUp ∧
    (FadeTexture s).light2RedGoingUp = s.light2RedGoingUp ∧
    (FadeTexture s).light2GreenGoingUp = s.light2GreenGoingUp ∧
    (FadeTexture s).light2BlueGoingUp = s.light2BlueGoingUp := by
  simp only [FadeTexture]
  split_ifs <;> simp [Scene.setAlpha]

/-- `Light2RGB` steps the red channel once. -/
theorem redState_Light2RGB (s : Scene) :
    redState (Light2RGB s) = channelStep (redState s) := by
  rw [← redState_Light2Red]
  obtain ⟨-, hx, -, -, -, hr, -, -⟩ := Light2Blue_frame (Light2Green (Light2Red s))
  obtain ⟨-, hx2, -, -, -, hr2, -, -⟩ := Light2Green_frame (Light2Red s)
  simp only [redState, Light2RGB, hx, hr, hx2, hr2]

/-- `Light2RGB` steps the green channel once. -/
theorem greenState_Light2RGB (s : Scene) :
    greenState (Light2RGB s) = channelStep (greenState s) := by
  obtain ⟨-, -, hy, -, -, -, hg, -⟩ := Light2Blue_frame (Light2Green (Light2Red s))
  obtain ⟨-, hy2, -, -, -, hg2, -, -⟩ := Light2Red_frame s
  have h1 : greenState (Light2RGB s) = greenState (Light2Green (Light2Red s)) := by
    simp only [greenState, Light2RGB, hy, hg]
  have h2 : greenState (Light2Red s) = greenState s := by
    simp only [greenState, hy2, hg2]
  rw [h1, greenState_Light2Green, h2]

/-- `Light2RGB` steps the blue channel once. -/
theorem blueState_Light2RGB (s : Scene) :
    blueState (Light2RGB s) = channelStep (blueState s) := by
  obtain ⟨-, -, hz, -, -, -, hb, -⟩ := Light2Green_frame (Light2Red s)
  obtain ⟨-, -, hz2, -, -, -, hb2, -⟩ := Light2Red_frame s
  have h2 : blueState (Light2Green (Light2Red s)) = blueState s := by
    simp only [blueState, hz, hb, hz2, hb2]
  rw [Light2RGB, blueState_Light2Blue, h2]

/-- The part of `UpdateScene` after the three oscillator calls touches none of the
oscillating values or their flags. -/
theorem UpdateScene_tail (ext : Externals) (dt : ℚ) (inp : Input) (s : Scene) :
    ((UpdateScene ext dt inp s).gLights 0).strength
      = ((FadeTexture (Light2RGB (Light1Strength s))).gLights 0).strength ∧
    (UpdateScene ext dt inp s).gLights 1 = (FadeTexture (Light2RGB (Light1Strength s))).gLights 1 ∧
    (UpdateScene ext dt inp s).gPerFrameConstants
      = (FadeTexture (Light2RGB (Light1Strength s))).gPerFrameConstants ∧
    (UpdateScene ext dt inp s).light1StrengthGoingUp
      = (FadeTexture (Light2RGB (Light1Strength s))).light1StrengthGoingUp := by
  simp only [UpdateScene]
  split_ifs <;>
    simp [Scene.setModel, Scene.setLight, Function.update]

/-- `UpdateScene` steps the strength of light 0 once, whatever the frame time and keys. -/
theorem strengthState_UpdateScene (ext : Externals) (dt : ℚ) (inp : Input) (s : Scene) :
    strengthState (UpdateScene ext dt inp s) = triStep 0.5 75 (strengthState s) := by
  obtain ⟨h1, -, -, h2⟩ := UpdateScene_tail ext dt inp s
  obtain ⟨hl, hf, -, -, -⟩ := FadeTexture_frame (Light2RGB (Light1Strength s))
  obtain ⟨b0, -, -, -, bf, -, -, -⟩ := Light2Blue_frame (Light2Green (Light2Red (Light1Strength s)))
  obtain ⟨g0, -, -, -, gf, -, -, -⟩ := Light2Green_frame (Light2Red (Light1Strength s))
  obtain ⟨r0, -, -, -, rf, -, -, -⟩ := Light2Red_frame (Light1Strength s)
  rw [← strengthState_Light1Strength]
  simp only [strengthState, h1, h2, hl, hf]
  simp only [Light2RGB, b0, bf, g0, gf, r0, rf]

/-- Iterating a function that acts on a projection as `g` acts on the projection as the
iterate of `g`. -/
theorem iterate_proj {α β : Type} (f : α → α) (g : β → β) (proj : α → β)
    (h : ∀ a, proj (f a) = g (proj a)) (n : ℕ) (a : α) :
    proj (f^[n] a) = g^[n] (proj a) := by
  induction n with
  | zero => rfl
  | succ k ih => rw [Function.iterate_succ_apply', Function.iterate_succ_apply', h, ih]

/-- A run of updates steps the strength oscillator once per frame. -/
theorem strengthState_runUpdates (ext : Externals) (frames : List (ℚ × Input)) (s : Scene) :
    strengthState (runUpdates ext frames s)
      = (triStep 0.5 75)^[frames.length] (strengthState s) := by
  induction frames generalizing s with
  | nil => rfl
  | cons f fs ih =>
    simp only [runUpdates, List.foldl_cons, List.length_cons, Function.iterate_succ_apply]
    have := ih (UpdateScene ext f.1 f.2 s)
    simp only [runUpdates] at this
    rw [this, strengthState_UpdateScene]

/-- From strength 10 going down, the strength oscillator after `n` steps is at point
`280 + n` of the triangle wave with 150 steps of one half per ramp. -/
theorem strength_phase (v : ℚ × Bool) (hv : v = (10, false)) (n : ℕ) :
    (triStep 0.5 75)^[n] v = triPhase 0.5 150 ((280 + n) % 300) := by
  have h75 : (75 : ℚ) = ((150 : ℕ) : ℚ) * 0.5 := by norm_num
  have h0 : v = triPhase 0.5 150 280 := by
    rw [hv]; norm_num [triPhase]
  rw [h0, h75, triStep_iterate 0.5 150 (by norm_num) (by norm_num) n 280 (by norm_num)]

/-- The value a fade step produces. -/
theorem fadeStep_fst (v : ℚ × Bool) :
    (fadeStep v).1 = if v.2 then toFloat (v.1 + toFloat 0.001)
      else toFloat (v.1 - toFloat 0.001) := by
  unfold fadeStep; split_ifs <;> rfl

/-- C3: from any scene state in which light 0 has strength 10 and is going down (the state
after `InitScene`), after any number of `UpdateScene` calls, with any elapsed times and
keys, the strength of light 0 lies in the closed interval from 0 to 75. -/
theorem C3_strength_stays_within_bounds (ext : Externals) (s : Scene)
    (frames : List (ℚ × Input))
    (hstrength : (s.gLights 0).strength = 10) (hdown : s.light1StrengthGoingUp = false) :
    0 ≤ ((runUpdates ext frames s).gLights 0).strength ∧
      ((runUpdates ext frames s).gLights 0).strength ≤ 75 := by
  have hs : strengthState s = (10, false) := by
    simp only [strengthState, hstrength, hdown]
  have h := strengthState_runUpdates ext frames s
  rw [strength_phase _ hs] at h
  have hb := triPhase_bounds 0.5 150 ((280 + frames.length) % 300) (by norm_num)
    (by have := Nat.mod_lt (280 + frames.length) (show 300 > 0 by norm_num); omega)
  rw [← h] at hb
  simp only [strengthState] at hb
  refine ⟨hb.1, hb.2.trans (by norm_num)⟩

/-- C3 at a concrete input: the scene after `InitScene`, three frames of different lengths. -/
theorem C3_strength_stays_within_bounds_witness :
    (sampleScene.gLights 0).strength = 10 ∧ sampleScene.light1StrengthGoingUp = false ∧
    0 ≤ ((runUpdates sampleExternals [(1 / 60, Input.none), (0, Input.none), (2, Input.none)]
      sampleScene).gLights 0).strength ∧
    ((runUpdates sampleExternals [(1 / 60, Input.none), (0, Input.none), (2, Input.none)]
      sampleScene).gLights 0).strength ≤ 75 :=
  ⟨rfl, rfl, C3_strength_stays_within_bounds sampleExternals sampleScene _ rfl rfl⟩

/-- The strength oscillator under repeated `Light1Strength` calls, from strength 10 going
down: point `280 + n` of the triangle wave after `n` calls. -/
theorem strengthState_iterate (s : Scene) (hstrength : (s.gLights 0).strength = 10)
    (hdown : s.light1StrengthGoingUp = false) (n : ℕ) :
    strengthState (Light1Strength^[n] s) = triPhase 0.5 150 ((280 + n) % 300) := by
  have hs : strengthState s = (10, false) := by
    simp only [strengthState, hstrength, hdown]
  rw [iterate_proj Light1Strength (triStep 0.5 75) strengthState strengthState_Light1Strength,
    strength_phase _ hs]

/-- C4: from strength 10 going down, successive `Light1Strength` calls lower the strength by
one half on each of the first 20 calls, which brings it to exactly 0; raise it by one half on
each of the next 150 calls, which brings it to exactly 75; and lower it again on each of the
150 calls after that.  On every call, the direction flag changes if and only if the strength
that call produces is exactly 0 or exactly 75. -/
theorem C4_strength_turns_exactly_at_bounds (s : Scene)
    (hstrength : (s.gLights 0).strength = 10) (hdown : s.light1StrengthGoingUp = false) :
    (∀ n, n < 20 → strengthAfter (n + 1) s = strengthAfter n s - 0.5) ∧
    strengthAfter 20 s = 0 ∧
    (∀ n, 20 ≤ n → n < 170 → strengthAfter (n + 1) s = strengthAfter n s + 0.5) ∧
    strengthAfter 170 s = 75 ∧
    (∀ n, 170 ≤ n → n < 320 → strengthAfter (n + 1) s = strengthAfter n s - 0.5) ∧
    (∀ n, strengthUpAfter (n + 1) s ≠ strengthUpAfter n s ↔
      (strengthAfter (n + 1) s = 0 ∨ strengthAfter (n + 1) s = 75)) := by
  have key := strengthState_iterate s hstrength hdown
  have val : ∀ n, strengthAfter n s = (triPhase 0.5 150 ((280 + n) % 300)).1 := by
    intro n; rw [← key n]; rfl
  have flag : ∀ n, strengthUpAfter n s = decide ((280 + n) % 300 < 150) := by
    intro n; rw [← triPhase_snd 0.5, ← key n]; rfl
  have step : ∀ n, strengthAfter (n + 1) s
      = if strengthUpAfter n s then strengthAfter n s + 0.5 else strengthAfter n s - 0.5 := by
    intro n
    have h := congrArg Prod.fst (strengthState_Light1Strength (Light1Strength^[n] s))
    rw [triStep_fst, ← Function.iterate_succ_apply' Light1Strength n s] at h
    exact h
  refine ⟨?_, ?_, ?_, ?_, ?_, ?_⟩
  · intro n hn
    have hf : strengthUpAfter n s = false := by
      rw [flag n]; exact decide_eq_false (by omega)
    rw [step n, hf]; rfl
  · rw [val 20]; norm_num [triPhase]
  · intro n h1 h2
    have hf : strengthUpAfter n s = true := by
      rw [flag n]; exact decide_eq_true (by omega)
    rw [step n, hf]; rfl
  · rw [val 170]; norm_num [triPhase]
  · intro n h1 h2
    have hf : strengthUpAfter n s = false := by
      rw [flag n]; exact decide_eq_false (by omega)
    rw [step n, hf]; rfl
  · intro n
    have hm : (280 + n) % 300 < 2 * 150 := Nat.mod_lt _ (by norm_num)
    have h := triPhase_flip 0.5 150 ((280 + n) % 300) (by norm_num) (by norm_num) hm
    have e : ((280 + n) % 300 + 1) % (2 * 150) = (280 + (n + 1)) % 300 := by omega
    have h75 : ((150 : ℕ) : ℚ) * 0.5 = 75 := by norm_num
    rw [e, h75, ← key (n + 1), ← key n] at h
    exact h

/-- C4 at a concrete input: the scene after `InitScene`. -/
theorem C4_strength_turns_exactly_at_bounds_witness :
    (sampleScene.gLights 0).strength = 10 ∧ sampleScene.light1StrengthGoingUp = false ∧
    strengthAfter 1 sampleScene = strengthAfter 0 sampleScene - 0.5 ∧
    strengthAfter 20 sampleScene = 0 ∧
    strengthAfter 21 sampleScene = strengthAfter 20 sampleScene + 0.5 ∧
    strengthAfter 170 sampleScene = 75 ∧
    strengthAfter 171 sampleScene = strengthAfter 170 sampleScene - 0.5 :=
  have h := C4_strength_turns_exactly_at_bounds sampleScene rfl rfl
  ⟨rfl, rfl, h.1 0 (by decide), h.2.1, h.2.2.1 20 (by decide) (by decide), h.2.2.2.1,
    h.2.2.2.2.1 170 (by decide) (by decide)⟩

/-! ## The colour channels and the fade scalar in single precision -/

/-- A checked run that succeeds gives the iterate, and the property at every state before
the last. -/
theorem checkedRun_spec {α : Type} (P : α → Prop) [DecidablePred P] (f : α → α) :
    ∀ (n : ℕ) (x y : α), checkedRun P f n x = some y →
      f^[n] x = y ∧ ∀ k, k < n → P (f^[k] x) := by
  intro n
  induction n with
  | zero =>
    intro x y h
    simp only [checkedRun, Option.some.injEq] at h
    exact ⟨h, fun k hk => absurd hk (Nat.not_lt_zero k)⟩
  | succ n ih =>
    intro x y h
    simp only [checkedRun] at h
    by_cases hP : P x
    · rw [if_pos hP] at h
      obtain ⟨h1, h2⟩ := ih (f x) y h
      refine ⟨h1, ?_⟩
      intro k hk
      cases k with
      | zero => exact hP
      | succ j => exact h2 j (by omega)
    · rw [if_neg hP] at h
      exact absurd h (by simp)

/-- Two runs in a row: a property that holds along a run from `x` to `a` and along a run
from `a` holds along the joined run. -/
theorem holds_along_joined {α : Type} (P : α → Prop) (f : α → α) (x a : α) (m1 m2 : ℕ)
    (e1 : f^[m1] x = a) (c1 : ∀ k, k < m1 → P (f^[k] x)) (c2 : ∀ k, k < m2 → P (f^[k] a)) :
    ∀ k, k < m1 + m2 → P (f^[k] x) := by
  intro k hk
  by_cases hk1 : k < m1
  · exact c1 k hk1
  · have e : k = (k - m1) + m1 := by omega
    rw [e, Function.iterate_add_apply, e1]
    exact c2 (k - m1) (by omega)

/-- Checked runs in a row that succeed give the iterate over all their steps, and the
property at every state before the last. -/
theorem checkedRuns_spec {α : Type} [DecidableEq α] (P : α → Prop) [DecidablePred P]
    (f : α → α) : ∀ (l : List (ℕ × α)) (x : α), checkedRuns P f x l = true →
      f^[stepsOf l] x = endOf x l ∧ ∀ k, k < stepsOf l → P (f^[k] x) := by
  intro l
  induction l with
  | nil =>
    intro x _
    exact ⟨rfl, fun k hk => absurd hk (Nat.not_lt_zero k)⟩
  | cons e rest ih =>
    intro x h
    obtain ⟨n, y⟩ := e
    simp only [checkedRuns, Bool.and_eq_true, decide_eq_true_eq] at h
    obtain ⟨e1, c1⟩ := checkedRun_spec P f n x y h.1
    obtain ⟨e2, c2⟩ := ih y h.2
    refine ⟨?_, ?_⟩
    · show f^[stepsOf rest + n] x = endOf y rest
      rw [Function.iterate_add_apply, e1, e2]
    · intro k hk
      have hk2 : k < n + stepsOf rest := by
        have : stepsOf ((n, y) :: rest) = stepsOf rest + n := rfl
        omega
      exact holds_along_joined P f x y n (stepsOf rest) e1 c1 c2 k hk2

/-- A property that holds of the first `m + p` states of an orbit that returns, after
`m + p` steps, to its state after `m` steps, holds of every state of the orbit. -/
theorem holds_along_cycle {α : Type} (P : α → Prop) (f : α → α) (x : α) (m p : ℕ)
    (hp : 0 < p) (hcyc : f^[m + p] x = f^[m] x) (hP : ∀ k, k < m + p → P (f^[k] x)) (n : ℕ) :
    P (f^[n] x) := by
  induction n using Nat.strong_induction_on with
  | _ n ih =>
    by_cases hn : n < m + p
    · exact hP n hn
    · have e2 : f^[n] x = f^[n - p] x := by
        have h1 : f^[n] x = f^[n - (m + p)] (f^[m + p] x) := by
          rw [← Function.iterate_add_apply]; congr 1; omega
        have h2 : f^[n - p] x = f^[n - (m + p)] (f^[m] x) := by
          rw [← Function.iterate_add_apply]; congr 1; omega
        rw [h1, h2, hcyc]
      rw [e2]
      exact ih (n - p) (by omega)

/-- A property checked along runs from `x` to a state `a` and along runs from `a` back to
`a` holds of every state of the orbit of `x`. -/
theorem holds_along_checked_cycle {α : Type} [DecidableEq α] (P : α → Prop) [DecidablePred P]
    (f : α → α) (x a : α) (pre cyc : List (ℕ × α)) (hp : 0 < stepsOf cyc)
    (h1 : checkedRuns P f x pre = true) (ha : endOf x pre = a)
    (h2 : checkedRuns P f a cyc = true) (hb : endOf a cyc = a) (n : ℕ) : P (f^[n] x) := by
  obtain ⟨e1, c1⟩ := checkedRuns_spec P f pre x h1
  obtain ⟨e2, c2⟩ := checkedRuns_spec P f cyc a h2
  rw [ha] at e1
  rw [hb] at e2
  refine holds_along_cycle P f x (stepsOf pre) (stepsOf cyc) hp ?_
    (holds_along_joined P f x a _ _ e1 c1 c2) n
  rw [Nat.add_comm, Function.iterate_add_apply, e1, e2]

/-- The values of the `float` and `double` literals of the oscillators and of the colours. -/
theorem literal_values :
    toFloat 1.0 = 1 ∧ toFloat 0.0 = 0 ∧ toFloat 0.8 = 13421773 / 16777216 ∧
    toFloat 0.2 = 13421773 / 67108864 ∧ toFloat 0.001 = 8589935 / 8589934592 ∧
    toFloat 1.2 = 5033165 / 4194304 ∧
    toDouble 0.01 = 5764607523034235 / 576460752303423488 := by
  decide!

/-- The red channel, from 1.0 going down, is back at 1.0 going down after 202 calls, and
`channelTurns` holds on the way. -/
theorem red_cycle :
    checkedRuns channelTurns channelStep (toFloat 1.0, false)
      [(101, (-5368355 / 536870912, true)), (101, (1, false))] = true := by
  simp only [checkedRuns, Bool.and_eq_true, decide_eq_true_eq, and_true]
  refine ⟨?_, ?_⟩ <;> decide!

/-- The green channel, from the `float` nearest 0.8 going down, over its first 183 calls. -/
theorem green_run :
    checkedRuns channelTurns channelStep (toFloat 0.8, false)
      [(100, (12079629 / 67108864, true)), (83, (8472493 / 8388608, false))] = true := by
  simp only [checkedRuns, Bool.and_eq_true, decide_eq_true_eq, and_true]
  refine ⟨?_, ?_⟩ <;> decide!

/-- The green channel returns to its state after 183 calls every 204 calls. -/
theorem green_cycle :
    checkedRuns channelTurns channelStep (8472493 / 8388608, false)
      [(102, (-5368419 / 536870912, true)), (102, (8472493 / 8388608, false))] = true := by
  simp only [checkedRuns, Bool.and_eq_true, decide_eq_true_eq, and_true]
  refine ⟨?_, ?_⟩ <;> decide!

/-- The blue channel, from the `float` nearest 0.2 going down, over its first 121 calls. -/
theorem blue_run :
    checkedRuns channelTurns channelStep (toFloat 0.2, false)
      [(100, (13421765 / 16777216, true)), (21, (8472489 / 8388608, false))] = true := by
  simp only [checkedRuns, Bool.and_eq_true, decide_eq_true_eq, and_true]
  refine ⟨?_, ?_⟩ <;> decide!

/-- The blue channel returns to its state after 121 calls every 204 calls. -/
theorem blue_cycle :
    checkedRuns channelTurns channelStep (8472489 / 8388608, false)
      [(102, (-5368675 / 536870912, true)), (102, (8472489 / 8388608, false))] = true := by
  simp only [checkedRuns, Bool.and_eq_true, decide_eq_true_eq, and_true]
  refine ⟨?_, ?_⟩ <;> decide!

/-- The fade oscillator rises on each of the first 1200 calls, to the `float` nearest 1.2. -/
theorem fade_rise :
    checkedRuns (fun v => fadeTurns v ∧ v.2 = true) fadeStep (0, true)
      [(100, (838861 / 8388608, true)), (100, (3355447 / 16777216, true)),
       (100, (10066319 / 33554432, true)), (100, (13421719 / 33554432, true)),
       (100, (16777119 / 33554432, true)), (100, (2516565 / 4194304, true)),
       (100, (1467995 / 2097152, true)), (100, (3355415 / 4194304, true)),
       (100, (471855 / 524288, true)), (100, (4194265 / 4194304, true)),
       (100, (4613715 / 4194304, true)), (100, (5033165 / 4194304, false))] = true := by
  simp only [checkedRuns, Bool.and_eq_true, decide_eq_true_eq, and_true]
  refine ⟨?_, ?_, ?_, ?_, ?_, ?_, ?_, ?_, ?_, ?_, ?_, ?_⟩ <;> decide!

/-- The fade oscillator falls on each of the next 1200 calls, to a value above 0. -/
theorem fade_fall :
    checkedRuns (fun v => fadeTurns v ∧ v.2 = false) fadeStep (5033165 / 4194304, false)
      [(100, (4613715 / 4194304, false)), (100, (16777061 / 16777216, false)),
       (100, (15099361 / 16777216, false)), (100, (13421661 / 16777216, false)),
       (100, (11743961 / 16777216, false)), (100, (10066261 / 16777216, false)),
       (100, (8388561 / 16777216, false)), (100, (6710861 / 16777216, false)),
       (100, (5033161 / 16777216, false)), (100, (6710897 / 33554432, false)),
       (100, (3355447 / 33554432, false)), (100, (369 / 4294967296, false))] = true := by
  simp only [checkedRuns, Bool.and_eq_true, decide_eq_true_eq, and_true]
  refine ⟨?_, ?_, ?_, ?_, ?_, ?_, ?_, ?_, ?_, ?_, ?_, ?_⟩ <;> decide!

/-- The call after those falls once more, to a value below 0, and turns. -/
theorem fade_turn :
    checkedRuns (fun v => fadeTurns v ∧ v.2 = false) fadeStep (369 / 4294967296, false)
      [(1, (-8589197 / 8589934592, true))] = true := by
  simp only [checkedRuns, Bool.and_eq_true, decide_eq_true_eq, and_true]
  decide!

/-- From there the fade oscillator returns to the same state every 2402 calls. -/
theorem fade_cycle :
    checkedRuns fadeTurns fadeStep (-8589197 / 8589934592, true)
      [(100, (6643785 / 67108864, true)), (100, (13354685 / 67108864, true)),
       (100, (78381 / 262144, true)), (100, (1673521 / 4194304, true)),
       (100, (1046473 / 2097152, true)), (100, (2512371 / 4194304, true)),
       (100, (732949 / 1048576, true)), (100, (3351221 / 4194304, true)),
       (100, (1885323 / 2097152, true)), (100, (4190071 / 4194304, true)),
       (100, (9219041 / 8388608, true)), (100, (10057941 / 8388608, true)),
       (100, (9235819 / 8388608, false)), (100, (8396919 / 8388608, false)),
       (100, (7558069 / 8388608, false)), (100, (6719219 / 8388608, false)),
       (100, (5880369 / 8388608, false)), (100, (5041519 / 8388608, false)),
       (100, (4202669 / 8388608, false)), (100, (3363819 / 8388608, false)),
       (100, (2524969 / 8388608, false)), (100, (13488903 / 67108864, false)),
       (100, (6778003 / 67108864, false)), (100, (8590673 / 8589934592, false)),
       (2, (-8589197 / 8589934592, true))] = true := by
  simp only [checkedRuns, Bool.and_eq_true, decide_eq_true_eq, and_true]
  refine ⟨?_, ?_, ?_, ?_, ?_, ?_, ?_, ?_, ?_, ?_, ?_, ?_, ?_, ?_, ?_, ?_, ?_, ?_, ?_, ?_, ?_, ?_,
    ?_, ?_, ?_⟩ <;> decide!

/-- Every state of the red channel, from 1.0 going down, satisfies `channelTurns`. -/
theorem red_turns (n : ℕ) : channelTurns (channelStep^[n] (toFloat 1.0, false)) := by
  have h1 : toFloat 1.0 = 1 := literal_values.1
  refine holds_along_checked_cycle channelTurns channelStep _ (toFloat 1.0, false) [] _ ?_ rfl rfl
    red_cycle ?_ n
  · simp only [stepsOf]; norm_num
  · simp only [endOf, h1]

/-- Every state of the green channel, from the `float` nearest 0.8 going down, satisfies
`channelTurns`. -/
theorem green_turns (n : ℕ) : channelTurns (channelStep^[n] (toFloat 0.8, false)) := by
  refine holds_along_checked_cycle channelTurns channelStep _ _ _ _ ?_ green_run rfl
    green_cycle rfl n
  simp only [stepsOf]; norm_num

/-- Every state of the blue channel, from the `float` nearest 0.2 going down, satisfies
`channelTurns`. -/
theorem blue_turns (n : ℕ) : channelTurns (channelStep^[n] (toFloat 0.2, false)) := by
  refine holds_along_checked_cycle channelTurns channelStep _ _ _ _ ?_ blue_run rfl
    blue_cycle rfl n
  simp only [stepsOf]; norm_num

/-- The red channel after 100 calls from 1.0 going down: above 0, still going down. -/
theorem red_after_100 :
    channelStep^[100] (toFloat 1.0, false) = (2898985 / 4398046511104, false) := by
  decide!

/-- The red channel after 101 calls from 1.0 going down: below 0, turned. -/
theorem red_after_101 :
    channelStep^[101] (toFloat 1.0, false) = (-5368355 / 536870912, true) := by
  decide!

/-- C5 (refuted as stated): on the scene after `InitScene` (light 1 red channel 1.0, all
three channels going down), the red channel is 2898985 / 2^42, about 0.00000066, after 100
calls of `Light2RGB`, still going down, and -5368355 / 2^29, about -0.0099993, after 101
calls: it is outside the interval from 0 to 1, and its direction flag changes on the 101st
call although the value that call produces is neither 0 nor 1. -/
theorem C5_red_channel_passes_zero :
    (sampleScene.gLights 1).colour = { x := toFloat 1.0, y := toFloat 0.8, z := toFloat 0.2 } ∧
    sampleScene.light2RedGoingUp = false ∧ sampleScene.light2GreenGoingUp = false ∧
    sampleScene.light2BlueGoingUp = false ∧
    toFloat 1.0 = 1 ∧
    ((Light2RGB^[100] sampleScene).gLights 1).colour.x = 2898985 / 4398046511104 ∧
    (Light2RGB^[100] sampleScene).light2RedGoingUp = false ∧
    ((Light2RGB^[101] sampleScene).gLights 1).colour.x = -5368355 / 536870912 ∧
    (Light2RGB^[101] sampleScene).light2RedGoingUp = true ∧
    ¬ (0 ≤ ((Light2RGB^[101] sampleScene).gLights 1).colour.x ∧
      ((Light2RGB^[101] sampleScene).gLights 1).colour.x ≤ 1) ∧
    ¬ ((Light2RGB^[100 + 1] sampleScene).light2RedGoingUp
        ≠ (Light2RGB^[100] sampleScene).light2RedGoingUp ↔
      (((Light2RGB^[100 + 1] sampleScene).gLights 1).colour.x = 0 ∨
        ((Light2RGB^[100 + 1] sampleScene).gLights 1).colour.x = 1)) := by
  have s0 : redState sampleScene = (toFloat 1.0, false) := rfl
  have e : ∀ k, redState (Light2RGB^[k] sampleScene) = channelStep^[k] (toFloat 1.0, false) := by
    intro k
    rw [iterate_proj Light2RGB channelStep redState redState_Light2RGB, s0]
  have val : ∀ k, ((Light2RGB^[k] sampleScene).gLights 1).colour.x
      = (channelStep^[k] (toFloat 1.0, false)).1 := by
    intro k; rw [← e k]; rfl
  have flag : ∀ k, (Light2RGB^[k] sampleScene).light2RedGoingUp
      = (channelStep^[k] (toFloat 1.0, false)).2 := by
    intro k; rw [← e k]; rfl
  have x100 := val 100
  have f100 := flag 100
  have x101 := val 101
  have f101 := flag 101
  rw [red_after_100] at x100 f100
  rw [red_after_101] at x101 f101
  refine ⟨rfl, rfl, rfl, rfl, literal_values.1, x100, f100, x101, f101, ?_, ?_⟩
  · rw [x101]; norm_num
  · rw [val (100 + 1), flag (100 + 1), f100, red_after_101]; norm_num

/-- C5 (amended): from any scene state in which light 1 has the single-precision colour
(1.0f, 0.8f, 0.2f) and all three channels are going down (the state after `InitScene`),
after any number `n` of `Light2RGB` calls each of the red, green and blue channels lies
between -0.01 and 1.01, within one step of the interval from 0 to 1, and on the next call a
channel's direction flag changes if and only if the value that call produces for that
channel is at or below 0 or at or above 1. -/
theorem C5_colour_channels_turn_at_or_beyond_bounds (s : Scene) (n : ℕ)
    (hcolour : (s.gLights 1).colour
      = { x := toFloat 1.0, y := toFloat 0.8, z := toFloat 0.2 })
    (hred : s.light2RedGoingUp = false) (hgreen : s.light2GreenGoingUp = false)
    (hblue : s.light2BlueGoingUp = false) :
    (-0.01 ≤ ((Light2RGB^[n] s).gLights 1).colour.x ∧
      ((Light2RGB^[n] s).gLights 1).colour.x ≤ 1.01) ∧
    (-0.01 ≤ ((Light2RGB^[n] s).gLights 1).colour.y ∧
      ((Light2RGB^[n] s).gLights 1).colour.y ≤ 1.01) ∧
    (-0.01 ≤ ((Light2RGB^[n] s).gLights 1).colour.z ∧
      ((Light2RGB^[n] s).gLights 1).colour.z ≤ 1.01) ∧
    ((Light2RGB^[n + 1] s).light2RedGoingUp ≠ (Light2RGB^[n] s).light2RedGoingUp ↔
      (((Light2RGB^[n + 1] s).gLights 1).colour.x ≤ 0 ∨
        1 ≤ ((Light2RGB^[n + 1] s).gLights 1).colour.x)) ∧
    ((Light2RGB^[n + 1] s).light2GreenGoingUp ≠ (Light2RGB^[n] s).light2GreenGoingUp ↔
      (((Light2RGB^[n + 1] s).gLights 1).colour.y ≤ 0 ∨
        1 ≤ ((Light2RGB^[n + 1] s).gLights 1).colour.y)) ∧
    ((Light2RGB^[n + 1] s).light2BlueGoingUp ≠ (Light2RGB^[n] s).light2BlueGoingUp ↔
      (((Light2RGB^[n + 1] s).gLights 1).colour.z ≤ 0 ∨
        1 ≤ ((Light2RGB^[n + 1] s).gLights 1).colour.z)) := by
  have hr : redState s = (toFloat 1.0, false) := by
    simp only [redState, hcolour, hred]
  have hg : greenState s = (toFloat 0.8, false) := by
    simp only [greenState, hcolour, hgreen]
  have hb : blueState s = (toFloat 0.2, false) := by
    simp only [blueState, hcolour, hblue]
  have r := red_turns n
  have g := green_turns n
  have b := blue_turns n
  rw [← hr, ← iterate_proj Light2RGB channelStep redState redState_Light2RGB] at r
  rw [← hg, ← iterate_proj Light2RGB channelStep greenState greenState_Light2RGB] at g
  rw [← hb, ← iterate_proj Light2RGB channelStep blueState blueState_Light2RGB] at b
  unfold channelTurns at r g b
  rw [← redState_Light2RGB, ← Function.iterate_succ_apply' Light2RGB n s] at r
  rw [← greenState_Light2RGB, ← Function.iterate_succ_apply' Light2RGB n s] at g
  rw [← blueState_Light2RGB, ← Function.iterate_succ_apply' Light2RGB n s] at b
  exact ⟨r.1, g.1, b.1, r.2, g.2, b.2⟩

/-- C5 (amended) at a concrete input: the scene after `InitScene`, at the 101st call,
which takes the red channel below 0 and turns it. -/
theorem C5_colour_channels_turn_at_or_beyond_bounds_witness :
    (sampleScene.gLights 1).colour = { x := toFloat 1.0, y := toFloat 0.8, z := toFloat 0.2 } ∧
    sampleScene.light2RedGoingUp = false ∧ sampleScene.light2GreenGoingUp = false ∧
    sampleScene.light2BlueGoingUp = false ∧
    (-0.01 ≤ ((Light2RGB^[100] sampleScene).gLights 1).colour.x ∧
      ((Light2RGB^[100] sampleScene).gLights 1).colour.x ≤ 1.01) ∧
    ((Light2RGB^[100 + 1] sampleScene).light2RedGoingUp
        ≠ (Light2RGB^[100] sampleScene).light2RedGoingUp ↔
      (((Light2RGB^[100 + 1] sampleScene).gLights 1).colour.x ≤ 0 ∨
        1 ≤ ((Light2RGB^[100 + 1] sampleScene).gLights 1).colour.x)) :=
  have h := C5_colour_channels_turn_at_or_beyond_bounds sampleScene 100 rfl rfl rfl rfl
  ⟨rfl, rfl, rfl, rfl, h.1, h.2.2.2.1⟩

/-- The fade oscillator over its first 2401 calls from alpha 0 going up: the states after
1200, 2400 and 2401 calls; the flag is up before each of the first 1200 calls and down before
each of the next 1201; `fadeTurns` holds throughout. -/
theorem fade_first_cycle :
    fadeStep^[1200] (0, true) = (toFloat 1.2, false) ∧
    fadeStep^[2400] (0, true) = (369 / 4294967296, false) ∧
    fadeStep^[2401] (0, true) = (-8589197 / 8589934592, true) ∧
    (∀ k, k < 1200 → (fadeStep^[k] (0, true)).2 = true) ∧
    (∀ k, 1200 ≤ k → k < 2401 → (fadeStep^[k] (0, true)).2 = false) ∧
    (∀ k, k < 2401 → fadeTurns (fadeStep^[k] (0, true))) := by
  have h12 : toFloat 1.2 = 5033165 / 4194304 := literal_values.2.2.2.2.2.1
  obtain ⟨e1, c1⟩ := checkedRuns_spec _ fadeStep _ _ fade_rise
  obtain ⟨e2, c2⟩ := checkedRuns_spec _ fadeStep _ _ fade_fall
  obtain ⟨e3, c3⟩ := checkedRuns_spec _ fadeStep _ _ fade_turn
  simp only [stepsOf, endOf, Nat.zero_add, Nat.reduceAdd] at e1 e2 e3 c1 c2 c3
  have a1200 : fadeStep^[1200] (0, true) = (5033165 / 4194304, false) := e1
  have a2400 : fadeStep^[2400] (0, true) = (369 / 4294967296, false) := by
    rw [show 2400 = 1200 + 1200 from rfl, Function.iterate_add_apply, a1200, e2]
  have a2401 : fadeStep^[2401] (0, true) = (-8589197 / 8589934592, true) := by
    rw [show 2401 = 1 + 2400 from rfl, Function.iterate_add_apply, a2400, e3]
  have c23 : ∀ k, k < 1200 + 1 →
      fadeTurns (fadeStep^[k] (5033165 / 4194304, false)) ∧
        (fadeStep^[k] (5033165 / 4194304, false)).2 = false :=
    holds_along_joined (fun v => fadeTurns v ∧ v.2 = false) fadeStep _ _ 1200 1 e2 c2 c3
  have low : ∀ k, k < 1200 → fadeTurns (fadeStep^[k] (0, true)) ∧
      (fadeStep^[k] (0, true)).2 = true := c1
  have high : ∀ k, 1200 ≤ k → k < 2401 → fadeTurns (fadeStep^[k] (0, true)) ∧
      (fadeStep^[k] (0, true)).2 = false := by
    intro k hk1 hk2
    have e : k = (k - 1200) + 1200 := by omega
    rw [e, Function.iterate_add_apply, a1200]
    exact c23 (k - 1200) (by omega)
  refine ⟨by rw [h12]; exact a1200, a2400, a2401, fun k hk => (low k hk).2,
    fun k hk1 hk2 => (high k hk1 hk2).2, ?_⟩
  intro k hk
  by_cases h : k < 1200
  · exact (low k h).1
  · exact (high k (by omega) hk).1

/-- Every state of the fade oscillator, from alpha 0 going up, satisfies `fadeTurns`. -/
theorem fade_turns (n : ℕ) : fadeTurns (fadeStep^[n] (0, true)) := by
  obtain ⟨-, -, a2401, -, -, c⟩ := fade_first_cycle
  obtain ⟨e4, c4⟩ := checkedRuns_spec _ fadeStep _ _ fade_cycle
  simp only [stepsOf, endOf, Nat.zero_add, Nat.reduceAdd] at e4 c4
  refine holds_along_cycle fadeTurns fadeStep (0, true) 2401 2402 (by norm_num) ?_
    (holds_along_joined fadeTurns fadeStep _ _ 2401 2402 a2401 c c4) n
  rw [Nat.add_comm, Function.iterate_add_apply, a2401, e4]

/-- From the 2401st call on, the fade oscillator is in the same state every 2402 calls. -/
theorem fade_period (n : ℕ) (hn : 2401 ≤ n) :
    fadeStep^[n + 2402] (0, true) = fadeStep^[n] (0, true) := by
  obtain ⟨-, -, a2401, -, -, -⟩ := fade_first_cycle
  obtain ⟨e4, -⟩ := checkedRuns_spec _ fadeStep _ _ fade_cycle
  simp only [stepsOf, endOf, Nat.zero_add, Nat.reduceAdd] at e4
  have e1 : n + 2402 = (n - 2401) + (2402 + 2401) := by omega
  have e2 : n = (n - 2401) + 2401 := by omega
  have h1 : fadeStep^[n + 2402] (0, true)
      = fadeStep^[n - 2401] (fadeStep^[2402] (fadeStep^[2401] (0, true))) := by
    rw [e1, Function.iterate_add_apply, Function.iterate_add_apply]
  have h2 : fadeStep^[n] (0, true) = fadeStep^[n - 2401] (fadeStep^[2401] (0, true)) := by
    rw [← Function.iterate_add_apply, ← e2]
  rw [h1, h2, a2401, e4]

/-- C6 (refuted as stated): on the scene after `InitScene` (fade alpha 0, going up), the
alpha is 369 / 2^32, about 0.000000086 and not 0, after 2400 calls of `FadeTexture`, and
-8589197 / 2^33, about -0.00099991, after 2401 calls: it is outside the interval from 0 to
1.2. -/
theorem C6_fade_alpha_passes_zero :
    sampleScene.gPerFrameConstants.alpha = 0 ∧ sampleScene.isFading = true ∧
    alphaAfter 2400 sampleScene = 369 / 4294967296 ∧
    alphaAfter 2401 sampleScene = -8589197 / 8589934592 ∧
    ¬ (0 ≤ alphaAfter 2401 sampleScene ∧ alphaAfter 2401 sampleScene ≤ 1.2) ∧
    ¬ (alphaAfter 2400 sampleScene = 0.0) := by
  obtain ⟨-, a2400, a2401, -, -, -⟩ := fade_first_cycle
  have s0 : fadeState sampleScene = (0, true) := rfl
  have e : ∀ k, fadeState (FadeTexture^[k] sampleScene) = fadeStep^[k] (0, true) := by
    intro k
    rw [iterate_proj FadeTexture fadeStep fadeState fadeState_FadeTexture, s0]
  have val : ∀ k, alphaAfter k sampleScene = (fadeStep^[k] (0, true)).1 := by
    intro k; rw [← e k]; rfl
  have x2400 : alphaAfter 2400 sampleScene = 369 / 4294967296 := by
    rw [val 2400, a2400]
  have x2401 : alphaAfter 2401 sampleScene = -8589197 / 8589934592 := by
    rw [val 2401, a2401]
  refine ⟨rfl, rfl, x2400, x2401, ?_, ?_⟩
  · rw [x2401]; norm_num
  · rw [x2400]; norm_num

/-- C6 (amended): from fade alpha 0 going up (the initial state), after any number `n` of
`FadeTexture` calls the alpha lies between -0.001 and 1.201, within one step of the interval
from 0 to 1.2.  Every call moves the alpha by the `float` step 0.001f, the result held in a
`float`: up while the direction is increasing, down while it is decreasing; and the direction
changes on a call if and only if the alpha that call produces is at or below 0 or at or above
the `float` 1.2f.  The alpha rises on each of the first 1200 calls, to exactly 1.2f; it falls
on each of the next 1201 calls, to -8589197 / 2^33, just below 0, where it turns again; and
from there on the alpha and its direction are the same again every 2402 calls. -/
theorem C6_fade_alpha_turns_at_or_beyond_bounds (s : Scene) (n : ℕ)
    (halpha : s.gPerFrameConstants.alpha = 0) (hup : s.isFading = true) :
    (-0.001 ≤ alphaAfter n s ∧ alphaAfter n s ≤ 1.201) ∧
    ((FadeTexture^[n] s).isFading = true →
      alphaAfter (n + 1) s = toFloat (alphaAfter n s + toFloat 0.001)) ∧
    ((FadeTexture^[n] s).isFading = false →
      alphaAfter (n + 1) s = toFloat (alphaAfter n s - toFloat 0.001)) ∧
    ((FadeTexture^[n + 1] s).isFading ≠ (FadeTexture^[n] s).isFading ↔
      (alphaAfter (n + 1) s ≤ 0 ∨ toFloat 1.2 ≤ alphaAfter (n + 1) s)) ∧
    (n < 1200 → (FadeTexture^[n] s).isFading = true) ∧
    alphaAfter 1200 s = toFloat 1.2 ∧
    (1200 ≤ n → n < 2401 → (FadeTexture^[n] s).isFading = false) ∧
    alphaAfter 2401 s = -8589197 / 8589934592 ∧
    (FadeTexture^[2401] s).isFading = true ∧
    (2401 ≤ n → alphaAfter (n + 2402) s = alphaAfter n s ∧
      (FadeTexture^[n + 2402] s).isFading = (FadeTexture^[n] s).isFading) := by
  obtain ⟨a1200, -, a2401, up, down, -⟩ := fade_first_cycle
  have s0 : fadeState s = (0, true) := by
    simp only [fadeState, halpha, hup]
  have e : ∀ k, fadeState (FadeTexture^[k] s) = fadeStep^[k] (0, true) := by
    intro k
    rw [iterate_proj FadeTexture fadeStep fadeState fadeState_FadeTexture, s0]
  have val : ∀ k, alphaAfter k s = (fadeStep^[k] (0, true)).1 := by
    intro k; rw [← e k]; rfl
  have flag : ∀ k, (FadeTexture^[k] s).isFading = (fadeStep^[k] (0, true)).2 := by
    intro k; rw [← e k]; rfl
  have next : ∀ k, fadeStep^[k + 1] (0, true) = fadeStep (fadeStep^[k] (0, true)) :=
    fun k => Function.iterate_succ_apply' fadeStep k (0, true)
  have t := fade_turns n
  unfold fadeTurns at t
  rw [← next n] at t
  refine ⟨?_, ?_, ?_, ?_, ?_, ?_, ?_, ?_, ?_, ?_⟩
  · rw [val n]; exact t.1
  · intro h
    rw [flag n] at h
    rw [val (n + 1), val n, next n, fadeStep_fst, h]; rfl
  · intro h
    rw [flag n] at h
    rw [val (n + 1), val n, next n, fadeStep_fst, h]; rfl
  · rw [flag (n + 1), flag n, val (n + 1)]; exact t.2
  · intro h; rw [flag n]; exact up n h
  · rw [val 1200, a1200]
  · intro h1 h2; rw [flag n]; exact down n h1 h2
  · rw [val 2401, a2401]
  · rw [flag 2401, a2401]
  · intro h
    rw [val (n + 2402), val n, flag (n + 2402), flag n, fade_period n h]
    exact ⟨rfl, rfl⟩

/-- C6 (amended) at a concrete input: the scene after `InitScene`, at the 2401st call,
which takes the alpha below 0 and turns it. -/
theorem C6_fade_alpha_turns_at_or_beyond_bounds_witness :
    sampleScene.gPerFrameConstants.alpha = 0 ∧ sampleScene.isFading = true ∧
    (-0.001 ≤ alphaAfter 2400 sampleScene ∧ alphaAfter 2400 sampleScene ≤ 1.201) ∧
    ((FadeTexture^[2400 + 1] sampleScene).isFading ≠ (FadeTexture^[2400] sampleScene).isFading ↔
      (alphaAfter (2400 + 1) sampleScene ≤ 0 ∨ toFloat 1.2 ≤ alphaAfter (2400 + 1) sampleScene)) ∧
    alphaAfter 1200 sampleScene = toFloat 1.2 ∧
    alphaAfter 2401 sampleScene = -8589197 / 8589934592 :=
  have h := C6_fade_alpha_turns_at_or_beyond_bounds sampleScene 2400 rfl rfl
  ⟨rfl, rfl, h.1, h.2.2.2.1, h.2.2.2.2.2.1, h.2.2.2.2.2.2.2.1⟩

/-! ## Rendering: the passes -/

/-- C7: in the commands of `RenderSceneFromCamera`, the six unblended entities are drawn
first and the five blended ones after them, so every draw of an unblended entity precedes
every draw of a blended one; each unblended draw is issued with the no-blending,
depth-buffer and back-face-cull states bound; each blended draw is issued with the
depth-read-only state bound and with the blend state of its kind (additive for the light
markers, multiplicative for the glass cube, alpha for the smoke).  This holds whatever was
bound before the pass. -/
theorem C7_unblended_draws_precede_blended_draws (ext : Externals) (camera : Camera)
    (s : Scene) (p : Pipeline) :
    (drawsFrom p (RenderSceneFromCamera ext camera s).cmds).map (fun d => d.entity)
      = unblendedEntities ++ blendedEntities ∧
    List.Pairwise (fun a b => ¬ (a.entity ∈ blendedEntities ∧ b.entity ∈ unblendedEntities))
      (drawsFrom p (RenderSceneFromCamera ext camera s).cmds) ∧
    (∀ d ∈ drawsFrom p (RenderSceneFromCamera ext camera s).cmds,
      d.entity ∈ unblendedEntities →
        d.pipeline.blendState = some .gNoBlendingState ∧
        d.pipeline.depthStencilState = some .gUseDepthBufferState ∧
        d.pipeline.rasterizerState = some .gCullBackState) ∧
    (∀ d ∈ drawsFrom p (RenderSceneFromCamera ext camera s).cmds,
      d.entity ∈ blendedEntities →
        d.pipeline.depthStencilState = some .gDepthReadOnlyState ∧
        d.pipeline.blendState = some (blendModeOf d.entity)) := by
  have hmap := RenderSceneFromCamera_draws ext camera s p
  have hent : (drawsFrom p (RenderSceneFromCamera ext camera s).cmds).map (fun d => d.entity)
      = unblendedEntities ++ blendedEntities := rfl
  refine ⟨hent, ?_, ?_, ?_⟩
  · have h : List.Pairwise (fun a b : Entity => ¬ (a ∈ blendedEntities ∧ b ∈ unblendedEntities))
        ((drawsFrom p (RenderSceneFromCamera ext camera s).cmds).map (fun d => d.entity)) := by
      rw [hent]; decide
    exact List.pairwise_map.mp h
  · refine forall_mem_of_map (fun d : Draw => (d.entity, d.pipeline.blendState,
        d.pipeline.depthStencilState, d.pipeline.rasterizerState)) _
      (fun b : Entity × Option BlendState × Option DepthStencilState × Option RasterizerState =>
        b.1 ∈ unblendedEntities →
          b.2.1 = some .gNoBlendingState ∧ b.2.2.1 = some .gUseDepthBufferState ∧
          b.2.2.2 = some .gCullBackState) ?_
    rw [hmap]; decide
  · refine forall_mem_of_map (fun d : Draw => (d.entity, d.pipeline.blendState,
        d.pipeline.depthStencilState, d.pipeline.rasterizerState)) _
      (fun b : Entity × Option BlendState × Option DepthStencilState × Option RasterizerState =>
        b.1 ∈ blendedEntities →
          b.2.2.1 = some .gDepthReadOnlyState ∧ b.2.1 = some (blendModeOf b.1)) ?_
    rw [hmap]; decide

/-- C7 at a concrete input: the scene after `InitScene` with nothing bound before the pass;
the eleven draws are there, unblended ones first. -/
theorem C7_unblended_draws_precede_blended_draws_witness :
    (drawsFrom Pipeline.unbound
        (RenderSceneFromCamera sampleExternals sampleScene.gCamera sampleScene).cmds).map
      (fun d => d.entity)
      = [.Ground, .Sphere, .Teapot, .Cube, .Tech, .NormMapFadeCube, .LightModel 0,
         .LightModel 1, .LightModel 2, .GlassCube, .Smoke] :=
  (C7_unblended_draws_precede_blended_draws sampleExternals sampleScene.gCamera sampleScene
    Pipeline.unbound).1

/-- The affine inverse is a two-sided inverse of an affine matrix with an invertible
upper-left block. -/
theorem mul_InverseAffine (m : CMatrix4x4) (haff : m.IsAffine) (hdet : m.det3 ≠ 0) :
    m.mul (InverseAffine m) = CMatrix4x4.identity ∧
      (InverseAffine m).mul m = CMatrix4x4.identity := by
  obtain ⟨h03, h13, h23, h33⟩ := haff
  obtain ⟨a00, a01, a02, a03, a10, a11, a12, a13, a20, a21, a22, a23, a30, a31, a32, a33⟩ := m
  simp only at h03 h13 h23 h33
  subst h03 h13 h23 h33
  simp only [CMatrix4x4.det3] at hdet
  have hI := one_div_mul_cancel hdet
  constructor
  · simp only [CMatrix4x4.mul, InverseAffine, CMatrix4x4.identity, CMatrix4x4.mk.injEq]
    generalize 1 / (a00 * (a11 * a22 - a12 * a21) + a01 * (a12 * a20 - a10 * a22)
      + a02 * (a10 * a21 - a11 * a20)) = I at hI ⊢
    refine ⟨?_, ?_, ?_, ?_, ?_, ?_, ?_, ?_, ?_, ?_, ?_, ?_, ?_, ?_, ?_, ?_⟩ <;>
      first
        | ring1
        | linear_combination hI
  · simp only [CMatrix4x4.mul, InverseAffine, CMatrix4x4.identity, CMatrix4x4.mk.injEq]
    generalize 1 / (a00 * (a11 * a22 - a12 * a21) + a01 * (a12 * a20 - a10 * a22)
      + a02 * (a10 * a21 - a11 * a20)) = I at hI ⊢
    refine ⟨?_, ?_, ?_, ?_, ?_, ?_, ?_, ?_, ?_, ?_, ?_, ?_, ?_, ?_, ?_, ?_⟩ <;>
      first
        | ring1
        | linear_combination hI
        | linear_combination (-a30) * hI
        | linear_combination (-a31) * hI
        | linear_combination (-a32) * hI

/-- C8: the commands of one frame of `RenderScene` split into a set-up part `pre`, the
binding of the shadow map view at pixel-shader texture slot 1, a part `mid`, the commands of
the main pass, the binding of the null view at slot 1, and the present, which is the last
command.  The back buffer is targeted and the viewport is then set to the window size inside
`pre`; neither `pre` nor `mid` contains a draw, so the shadow map is bound before the first
draw of the main pass and unbound after its last draw.  Replaying the frame from any
bindings leaves slot 1 unbound. -/
theorem C8_shadow_map_bound_around_main_pass (ext : Externals) (s : Scene) (p : Pipeline) :
    (∃ pre mid,
      (RenderScene ext s).cmds
        = pre ++ [.PSSetShaderResources 1 (some .gShadowMap1SRV)] ++ mid
            ++ (RenderSceneFromCamera ext s.gCamera (assembleFrameConstants ext s)).cmds
            ++ [.PSSetShaderResources 1 none, .Present (if s.lockFPS then 1 else 0) 0] ∧
      (∃ a b c, pre = a ++ [.OMSetRenderTargets (some .gBackBufferRenderTarget) .gDepthStencil]
          ++ b ++ [.RSSetViewports (fullViewport s.gViewportWidth s.gViewportHeight)] ++ c) ∧
      (pre ++ mid).all (fun c => !c.isDraw) = true) ∧
    ((RenderSceneFromCamera ext s.gCamera (assembleFrameConstants ext s)).cmds.filter
        Cmd.isDraw).length = 11 ∧
    (RenderScene ext s).cmds.getLast? = some (.Present (if s.lockFPS then 1 else 0) 0) ∧
    (execCmds p (RenderScene ext s).cmds).psResources 1 = none := by
  refine ⟨⟨[.RSSetViewports (fullViewport s.gShadowMapSize s.gShadowMapSize),
         .OMSetRenderTargets none .gShadowMap1DepthStencil,
         .ClearDepthStencilView .gShadowMap1DepthStencil 1.0 0,
         .OMSetRenderTargets (some .gBackBufferRenderTarget) .gDepthStencil,
         .ClearRenderTargetView .gBackBufferRenderTarget s.gBackgroundColor,
         .ClearDepthStencilView .gDepthStencil 1.0 0,
         .RSSetViewports (fullViewport s.gViewportWidth s.gViewportHeight)],
        [.PSSetSamplers 1 .gPointSampler], ?_, ?_, ?_⟩, ?_, ?_, ?_⟩
  · rw [RenderScene_cmds]; simp
  · exact ⟨[.RSSetViewports (fullViewport s.gShadowMapSize s.gShadowMapSize),
         .OMSetRenderTargets none .gShadowMap1DepthStencil,
         .ClearDepthStencilView .gShadowMap1DepthStencil 1.0 0],
         [.ClearRenderTargetView .gBackBufferRenderTarget s.gBackgroundColor,
          .ClearDepthStencilView .gDepthStencil 1.0 0], [], rfl⟩
  · rfl
  · rfl
  · rw [RenderScene_cmds, List.getLast?_append]; rfl
  · rw [RenderScene_cmds]
    simp [execCmds, List.foldl_append, applyCmd]

/-- What matters of the bindings at each draw of the depth pass. -/
theorem RenderDepthBufferFromLight_draws (ext : Externals) (lightIndex : Fin NUM_LIGHTS)
    (s : Scene) (p : Pipeline) :
    (drawsFrom p (RenderDepthBufferFromLight ext lightIndex s).cmds).map
        (fun d => (d.entity, d.pipeline.vertexShader, d.pipeline.pixelShader,
          d.pipeline.blendState, d.pipeline.depthStencilState, d.pipeline.rasterizerState))
      = [.Ground, .Sphere, .Teapot].map
          (fun e => (e, some .gBasicTransformVertexShader, some .gDepthOnlyPixelShader,
            some .gNoBlendingState, some .gUseDepthBufferState, some .gCullBackState)) := by
  rfl

/-- C9: for every light index, `RenderDepthBufferFromLight` draws exactly three entities,
Ground, Sphere and Teapot, each once and in that order, and nothing else; each of the three
draws is issued with the basic-transform vertex shader, the depth-only pixel shader, no
blending, the depth buffer in use and back-face culling bound, whatever was bound before. -/
theorem C9_depth_pass_draws_the_three_shadow_casters (ext : Externals)
    (lightIndex : Fin NUM_LIGHTS) (s : Scene) (p : Pipeline) :
    (drawsFrom p (RenderDepthBufferFromLight ext lightIndex s).cmds).map (fun d => d.entity)
      = [.Ground, .Sphere, .Teapot] ∧
    (∀ d ∈ drawsFrom p (RenderDepthBufferFromLight ext lightIndex s).cmds,
      d.pipeline.vertexShader = some .gBasicTransformVertexShader ∧
      d.pipeline.pixelShader = some .gDepthOnlyPixelShader ∧
      d.pipeline.blendState = some .gNoBlendingState ∧
      d.pipeline.depthStencilState = some .gUseDepthBufferState ∧
      d.pipeline.rasterizerState = some .gCullBackState) := by
  refine ⟨rfl, ?_⟩
  refine forall_mem_of_map (fun d : Draw => (d.entity, d.pipeline.vertexShader,
      d.pipeline.pixelShader, d.pipeline.blendState, d.pipeline.depthStencilState,
      d.pipeline.rasterizerState)) _
    (fun b : Entity × Option VertexShader × Option PixelShader × Option BlendState ×
        Option DepthStencilState × Option RasterizerState =>
      b.2.1 = some .gBasicTransformVertexShader ∧ b.2.2.1 = some .gDepthOnlyPixelShader ∧
      b.2.2.2.1 = some .gNoBlendingState ∧ b.2.2.2.2.1 = some .gUseDepthBufferState ∧
      b.2.2.2.2.2 = some .gCullBackState) ?_
  rw [RenderDepthBufferFromLight_draws]; decide

/-- C9 at a concrete input: the scene after `InitScene`, light 0, nothing bound before. -/
theorem C9_depth_pass_draws_the_three_shadow_casters_witness :
    (drawsFrom Pipeline.unbound
        (RenderDepthBufferFromLight sampleExternals 0 sampleScene).cmds).map (fun d => d.entity)
      = [.Ground, .Sphere, .Teapot] :=
  (C9_depth_pass_draws_the_three_shadow_casters sampleExternals 0 sampleScene
    Pipeline.unbound).1

/-- The per-frame constants after the depth pass, and its first command. -/
theorem RenderDepthBufferFromLight_constants (ext : Externals) (lightIndex : Fin NUM_LIGHTS)
    (s : Scene) :
    (RenderDepthBufferFromLight ext lightIndex s).scene.gPerFrameConstants
      = { s.gPerFrameConstants with
            viewMatrix := CalculateLightViewMatrix ext s lightIndex,
            projectionMatrix := CalculateLightProjectionMatrix ext s lightIndex,
            viewProjectionMatrix := (CalculateLightViewMatrix ext s lightIndex).mul
              (CalculateLightProjectionMatrix ext s lightIndex) } ∧
    (RenderDepthBufferFromLight ext lightIndex s).cmds.head?
      = some (.UpdateConstantBuffer
          (RenderDepthBufferFromLight ext lightIndex s).scene.gPerFrameConstants) := by
  simp [RenderDepthBufferFromLight, RenderDepthBufferFromLightOn, Trace.cmds, Trace.start,
    Trace.emit, Trace.modify, Trace.emitWith, Trace.render, Model.Render, Scene.setPerFrame,
    CalculateLightViewMatrix, CalculateLightProjectionMatrix]

/-- C10: for every light index `i`, `RenderDepthBufferFromLight(i)` leaves the per-frame
constants with the view matrix set to the affine inverse of light `i`'s world matrix (a
two-sided inverse of it whenever the world matrix is affine with an invertible upper-left
block), the projection matrix set to the light projection, the view-projection matrix set
to view times projection in that order, and every other field unchanged; its first command,
before any draw, is the upload of exactly these constants. -/
theorem C10_depth_pass_sets_light_camera_matrices (ext : Externals)
    (lightIndex : Fin NUM_LIGHTS) (s : Scene) :
    (RenderDepthBufferFromLight ext lightIndex s).scene.gPerFrameConstants.viewMatrix
      = InverseAffine (ext.WorldMatrix (s.gLights lightIndex).model) ∧
    ((ext.WorldMatrix (s.gLights lightIndex).model).IsAffine →
      (ext.WorldMatrix (s.gLights lightIndex).model).det3 ≠ 0 →
      (ext.WorldMatrix (s.gLights lightIndex).model).mul
          (RenderDepthBufferFromLight ext lightIndex s).scene.gPerFrameConstants.viewMatrix
        = CMatrix4x4.identity ∧
      (RenderDepthBufferFromLight ext lightIndex s).scene.gPerFrameConstants.viewMatrix.mul
          (ext.WorldMatrix (s.gLights lightIndex).model)
        = CMatrix4x4.identity) ∧
    (RenderDepthBufferFromLight ext lightIndex s).scene.gPerFrameConstants.projectionMatrix
      = CalculateLightProjectionMatrix ext s lightIndex ∧
    (RenderDepthBufferFromLight ext lightIndex s).scene.gPerFrameConstants.viewProjectionMatrix
      = (RenderDepthBufferFromLight ext lightIndex s).scene.gPerFrameConstants.viewMatrix.mul
          (RenderDepthBufferFromLight ext lightIndex s).scene.gPerFrameConstants.projectionMatrix ∧
    (RenderDepthBufferFromLight ext lightIndex s).scene.gPerFrameConstants
      = { s.gPerFrameConstants with
            viewMatrix := CalculateLightViewMatrix ext s lightIndex,
            projectionMatrix := CalculateLightProjectionMatrix ext s lightIndex,
            viewProjectionMatrix := (CalculateLightViewMatrix ext s lightIndex).mul
              (CalculateLightProjectionMatrix ext s lightIndex) } ∧
    (RenderDepthBufferFromLight ext lightIndex s).cmds.head?
      = some (.UpdateConstantBuffer
          (RenderDepthBufferFromLight ext lightIndex s).scene.gPerFrameConstants) := by
  obtain ⟨hc, hhead⟩ := RenderDepthBufferFromLight_constants ext lightIndex s
  have hv : (RenderDepthBufferFromLight ext lightIndex s).scene.gPerFrameConstants.viewMatrix
      = InverseAffine (ext.WorldMatrix (s.gLights lightIndex).model) := by
    rw [hc]; rfl
  refine ⟨hv, ?_, ?_, ?_, hc, hhead⟩
  · intro haff hdet
    rw [hv]
    exact mul_InverseAffine _ haff hdet
  · rw [hc]
  · rw [hc]

/-- C10 at a concrete input: light 0 of the scene after `InitScene`, whose world matrix under
`sampleExternals` scales by 10 and translates to (30, 20, 0). -/
theorem C10_depth_pass_sets_light_camera_matrices_witness :
    (sampleExternals.WorldMatrix (sampleScene.gLights 0).model).IsAffine ∧
    (sampleExternals.WorldMatrix (sampleScene.gLights 0).model).det3 ≠ 0 ∧
    (sampleExternals.WorldMatrix (sampleScene.gLights 0).model).mul
        (RenderDepthBufferFromLight sampleExternals 0 sampleScene).scene.gPerFrameConstants.viewMatrix
      = CMatrix4x4.identity :=
  have haff : (sampleExternals.WorldMatrix (sampleScene.gLights 0).model).IsAffine :=
    ⟨rfl, rfl, rfl, rfl⟩
  have hdet : (sampleExternals.WorldMatrix (sampleScene.gLights 0).model).det3 ≠ 0 := by
    have h : (sampleExternals.WorldMatrix (sampleScene.gLights 0).model).det3 = 1000 := by
      simp [sampleExternals, sampleScene, InitScene, initLight, Model.new, Model.SetPosition,
        Model.SetScale, Model.FaceTarget, CMatrix4x4.det3, CMatrix4x4.identity]
      norm_num
    rw [h]; norm_num
  ⟨haff, hdet,
    ((C10_depth_pass_sets_light_camera_matrices sampleExternals 0 sampleScene).2.1 haff hdet).1⟩

/-! ## The per-frame constants of a frame -/

/-- The light fields after the assembly step of `RenderScene`: the `light1` fields hold the
data of light 0, the `light2` fields hold the data of light 2 (written over the data of
light 1). -/
theorem assembleFrameConstants_lights (ext : Externals) (s : Scene) :
    (assembleFrameConstants ext s).gPerFrameConstants.light1Colour
      = (s.gLights 0).colour.scale (s.gLights 0).strength ∧
    (assembleFrameConstants ext s).gPerFrameConstants.light1Position
      = (s.gLights 0).model.Position ∧
    (assembleFrameConstants ext s).gPerFrameConstants.light1Facing = lightFacing ext s 0 ∧
    (assembleFrameConstants ext s).gPerFrameConstants.light1CosHalfAngle = cosHalfAngle ext s ∧
    (assembleFrameConstants ext s).gPerFrameConstants.light1ViewMatrix
      = CalculateLightViewMatrix ext s 0 ∧
    (assembleFrameConstants ext s).gPerFrameConstants.light1ProjectionMatrix
      = CalculateLightProjectionMatrix ext s 0 ∧
    (assembleFrameConstants ext s).gPerFrameConstants.light2Colour
      = (s.gLights 2).colour.scale (s.gLights 2).strength ∧
    (assembleFrameConstants ext s).gPerFrameConstants.light2Position
      = (s.gLights 2).model.Position ∧
    (assembleFrameConstants ext s).gPerFrameConstants.light2Facing = lightFacing ext s 2 ∧
    (assembleFrameConstants ext s).gPerFrameConstants.light2CosHalfAngle = cosHalfAngle ext s ∧
    (assembleFrameConstants ext s).gPerFrameConstants.light2ViewMatrix
      = CalculateLightViewMatrix ext s 2 ∧
    (assembleFrameConstants ext s).gPerFrameConstants.light2ProjectionMatrix
      = CalculateLightProjectionMatrix ext s 2 := by
  simp [assembleFrameConstants, Scene.setPerFrame, lightFacing, cosHalfAngle,
    CalculateLightViewMatrix, CalculateLightProjectionMatrix]

/-- C11 (the code departs from the claim): on the scene after `InitScene`, after the
assembly step the `light1` fields hold the colour times strength and the position of light 0
and the `light2` fields hold those of light 2; the colour times strength of light 1,
(40, 32, 8), and its position, (-20, 30, 20), are in neither group. -/
theorem C11_light_one_fields_overwritten :
    (assembleFrameConstants sampleExternals sampleScene).gPerFrameConstants.light1Colour
      = { x := 8, y := 8, z := 10 } ∧
    (assembleFrameConstants sampleExternals sampleScene).gPerFrameConstants.light2Colour
      = { x := 32, y := 32, z := 8 } ∧
    (sampleScene.gLights 1).colour.scale (sampleScene.gLights 1).strength
      = { x := 40, y := 32, z := 8 } ∧
    (assembleFrameConstants sampleExternals sampleScene).gPerFrameConstants.light1Position
      = { x := 30, y := 20, z := 0 } ∧
    (assembleFrameConstants sampleExternals sampleScene).gPerFrameConstants.light2Position
      = { x := 50, y := 30, z := 20 } ∧
    (sampleScene.gLights 1).model.Position = { x := -20, y := 30, z := 20 } := by
  obtain ⟨h1, h2, -, -, -, -, h3, h4, -⟩ :=
    assembleFrameConstants_lights sampleExternals sampleScene
  have c0 : (sampleScene.gLights 0).colour
      = { x := toFloat 0.8, y := toFloat 0.8, z := toFloat 1.0 } := rfl
  have c1 : (sampleScene.gLights 1).colour
      = { x := toFloat 1.0, y := toFloat 0.8, z := toFloat 0.2 } := rfl
  have c2 : (sampleScene.gLights 2).colour
      = { x := toFloat 0.8, y := toFloat 0.8, z := toFloat 0.2 } := rfl
  have s0 : (sampleScene.gLights 0).strength = 10 := rfl
  have s1 : (sampleScene.gLights 1).strength = 40 := rfl
  have s2 : (sampleScene.gLights 2).strength = 40 := rfl
  have p0 : (sampleScene.gLights 0).model.Position = { x := 30, y := 20, z := 0 } := rfl
  have p1 : (sampleScene.gLights 1).model.Position = { x := -20, y := 30, z := 20 } := rfl
  have p2 : (sampleScene.gLights 2).model.Position = { x := 50, y := 30, z := 20 } := rfl
  have e1 : toFloat (toFloat 0.8 * 10) = 8 := by decide!
  have e2 : toFloat (toFloat 1.0 * 10) = 10 := by decide!
  have e3 : toFloat (toFloat 0.8 * 40) = 32 := by decide!
  have e4 : toFloat (toFloat 1.0 * 40) = 40 := by decide!
  have e5 : toFloat (toFloat 0.2 * 40) = 8 := by decide!
  rw [h1, h2, h3, h4, c0, c1, c2, s0, s1, s2, p0, p1, p2]
  simp only [CVector3.scale, e1, e2, e3, e4, e5]
  exact ⟨trivial, trivial, trivial, trivial, trivial, trivial⟩

/-- The colour and depth targets bound along one frame: the targets found on entry stay
through the first command, the shadow map alone is bound for the next two states, and the
back buffer with the main depth buffer from then on. -/
theorem RenderScene_targets_along (ext : Externals) (s : Scene) (p : Pipeline) :
    (statesAlong p (RenderScene ext s).cmds).map (fun q => (q.renderTarget, q.depthTarget))
      = [(p.renderTarget, p.depthTarget), (p.renderTarget, p.depthTarget),
         (none, some .gShadowMap1DepthStencil), (none, some .gShadowMap1DepthStencil)]
        ++ List.replicate 68 (some .gBackBufferRenderTarget, some .gDepthStencil) := by
  rfl


/-- C12: in a frame of `RenderScene` entered with bindings that do not pair the shadow depth
target with a colour target, at every point of the frame at which the shadow depth target is
bound no colour target is bound; every draw of the frame (all are draws of the main pass) is
issued with the back buffer and the main depth buffer bound, never the shadow depth target;
the frame does bind the shadow depth target, and it leaves the back buffer and the main depth
buffer bound. -/
theorem C12_shadow_target_never_paired_with_colour_target (ext : Externals) (s : Scene)
    (p : Pipeline)
    (hp : p.depthTarget = some .gShadowMap1DepthStencil → p.renderTarget = none) :
    (∀ q ∈ statesAlong p (RenderScene ext s).cmds,
      q.depthTarget = some .gShadowMap1DepthStencil → q.renderTarget = none) ∧
    (∀ d ∈ drawsFrom p (RenderScene ext s).cmds,
      d.pipeline.renderTarget = some .gBackBufferRenderTarget ∧
      d.pipeline.depthTarget = some .gDepthStencil) ∧
    (drawsFrom p (RenderScene ext s).cmds).map (fun d => d.entity)
      = (drawsFrom p
          (RenderSceneFromCamera ext s.gCamera (assembleFrameConstants ext s)).cmds).map
            (fun d => d.entity) ∧
    (drawsFrom p (RenderScene ext s).cmds).length = 11 ∧
    (execCmds p ((RenderScene ext s).cmds.take 2)).depthTarget
      = some .gShadowMap1DepthStencil ∧
    (execCmds p (RenderScene ext s).cmds).renderTarget = some .gBackBufferRenderTarget ∧
    (execCmds p (RenderScene ext s).cmds).depthTarget = some .gDepthStencil := by
  have e1 : (drawsFrom p (RenderScene ext s).cmds).map (fun d => d.entity)
      = unblendedEntities ++ blendedEntities := rfl
  have e2 : (drawsFrom p
      (RenderSceneFromCamera ext s.gCamera (assembleFrameConstants ext s)).cmds).map
        (fun d => d.entity) = unblendedEntities ++ blendedEntities := rfl
  have e3 : (drawsFrom p (RenderScene ext s).cmds).length = 11 := by
    rw [← List.length_map (drawsFrom p (RenderScene ext s).cmds) (fun d => d.entity), e1]; rfl
  refine ⟨?_, ?_, e1.trans e2.symm, e3, rfl, rfl, rfl⟩
  · refine forall_mem_of_map (fun q : Pipeline => (q.renderTarget, q.depthTarget)) _
      (fun b : Option RenderTargetView × Option DepthStencilView =>
        b.2 = some .gShadowMap1DepthStencil → b.1 = none) ?_
    rw [RenderScene_targets_along]
    intro b hb
    rcases List.mem_append.mp hb with h | h
    · simp only [List.mem_cons, List.mem_singleton, List.not_mem_nil, or_false] at h
      rcases h with rfl | rfl | rfl | rfl
      · exact hp
      · exact hp
      · intro _; rfl
      · intro _; rfl
    · rw [List.eq_of_mem_replicate h]
      intro h2
      cases h2
  · refine forall_mem_of_map (fun d : Draw => (d.entity, d.pipeline.renderTarget,
        d.pipeline.depthTarget)) _
      (fun b : Entity × Option RenderTargetView × Option DepthStencilView =>
        b.2.1 = some .gBackBufferRenderTarget ∧ b.2.2 = some .gDepthStencil) ?_
    rw [RenderScene_draw_targets]
    decide

/-- C12 at a concrete input: the scene after `InitScene`, entered with nothing bound; after
the second command of the frame the shadow depth target is bound with no colour target. -/
theorem C12_shadow_target_never_paired_with_colour_target_witness :
    (Pipeline.unbound.depthTarget = some .gShadowMap1DepthStencil →
      Pipeline.unbound.renderTarget = none) ∧
    ((execCmds Pipeline.unbound ((RenderScene sampleExternals sampleScene).cmds.take 2)).depthTarget
        = some .gShadowMap1DepthStencil →
      (execCmds Pipeline.unbound ((RenderScene sampleExternals sampleScene).cmds.take 2)).renderTarget
        = none) ∧
    (drawsFrom Pipeline.unbound (RenderScene sampleExternals sampleScene).cmds).length = 11 :=
  have hp : Pipeline.unbound.depthTarget = some .gShadowMap1DepthStencil →
      Pipeline.unbound.renderTarget = none := fun _ => rfl
  have h := C12_shadow_target_never_paired_with_colour_target sampleExternals sampleScene
    Pipeline.unbound hp
  ⟨hp, fun _ => rfl, h.2.2.2.1⟩

/-- A list whose head is known is that head followed by its tail. -/
theorem eq_cons_tail_of_head? {α : Type} {l : List α} {a : α} (h : l.head? = some a) :
    l = a :: l.tail := by
  cases l with
  | nil => cases h
  | cons b bs => simp only [List.head?_cons, Option.some.injEq] at h; rw [h]; rfl

/-- Commands that upload nothing leave the uploaded per-frame constants as they are, at
every draw among them. -/
theorem drawsFrom_perFrame_of_no_upload (cs : List Cmd) (q : Pipeline)
    (h : cs.all (fun c => !c.isUpload) = true) :
    ∀ d ∈ drawsFrom q cs, d.pipeline.perFrame = q.perFrame := by
  induction cs generalizing q with
  | nil => intro d hd; cases hd
  | cons c cs ih =>
    rw [List.all_cons, Bool.and_eq_true] at h
    obtain ⟨hc, hcs⟩ := h
    intro d hd
    cases c with
    | Render e m =>
      simp only [drawsFrom, List.mem_cons] at hd
      rcases hd with rfl | hd
      · rfl
      · exact (ih _ hcs d hd).trans rfl
    | UpdateConstantBuffer k => simp [Cmd.isUpload] at hc
    | _ =>
      simp only [drawsFrom] at hd
      exact (ih _ hcs d hd).trans rfl

/-- The per-frame constants after the main pass, and its first command. -/
theorem RenderSceneFromCamera_constants (ext : Externals) (camera : Camera) (s : Scene) :
    (RenderSceneFromCamera ext camera s).scene.gPerFrameConstants
      = { s.gPerFrameConstants with
            viewMatrix := ext.ViewMatrix camera,
            projectionMatrix := ext.ProjectionMatrix camera,
            viewProjectionMatrix := ext.ViewProjectionMatrix camera } ∧
    (RenderSceneFromCamera ext camera s).cmds.head?
      = some (.UpdateConstantBuffer (RenderSceneFromCamera ext camera s).scene.gPerFrameConstants) := by
  simp [RenderSceneFromCamera, RenderSceneFromCameraOn, Trace.cmds, Trace.start,
    Trace.emit, Trace.modify, Trace.emitWith, Trace.render, renderLight, finRange_NUM_LIGHTS,
    Model.Render, Scene.setPerFrame]

/-- After its first command the main pass uploads no per-frame constants. -/
theorem RenderSceneFromCamera_tail_no_upload (ext : Externals) (camera : Camera) (s : Scene) :
    (RenderSceneFromCamera ext camera s).cmds.tail.all (fun c => !c.isUpload) = true := by
  rfl

/-- The scene a frame leaves is the scene the main pass leaves. -/
theorem RenderScene_scene (ext : Externals) (s : Scene) :
    (RenderScene ext s).scene
      = (RenderSceneFromCamera ext s.gCamera (assembleFrameConstants ext s)).scene := by
  obtain ⟨h1, -⟩ := assembleFrameConstants_frame ext s
  simp only [RenderScene, Trace.start, Trace.emit, Trace.modify, Trace.emitWith,
    Trace.withScene, RenderSceneFromCameraOn_scene, h1]

/-- C13: in a frame of `RenderScene` the per-frame constants are uploaded exactly once; the
uploaded block is the block as the frame leaves it, which carries every assignment of the
frame (the light, ambient, specular, camera-position and parallax fields of the assembly
step and the three camera matrices), so no assignment changes the block after the upload;
and every draw of the frame is issued after that upload, with exactly that block in the
constant buffer. -/
theorem C13_constants_uploaded_once_before_every_draw (ext : Externals) (s : Scene)
    (p : Pipeline) :
    (RenderScene ext s).scene.gPerFrameConstants
      = { (assembleFrameConstants ext s).gPerFrameConstants with
            viewMatrix := ext.ViewMatrix s.gCamera,
            projectionMatrix := ext.ProjectionMatrix s.gCamera,
            viewProjectionMatrix := ext.ViewProjectionMatrix s.gCamera } ∧
    (RenderScene ext s).cmds.filter Cmd.isUpload
      = [.UpdateConstantBuffer (RenderScene ext s).scene.gPerFrameConstants] ∧
    (∀ d ∈ drawsFrom p (RenderScene ext s).cmds,
      d.pipeline.perFrame = some (RenderScene ext s).scene.gPerFrameConstants) ∧
    (drawsFrom p (RenderScene ext s).cmds).length = 11 := by
  obtain ⟨hc, hhead⟩ :=
    RenderSceneFromCamera_constants ext s.gCamera (assembleFrameConstants ext s)
  have hM := eq_cons_tail_of_head? hhead
  have htail := RenderSceneFromCamera_tail_no_upload ext s.gCamera (assembleFrameConstants ext s)
  have hlen : (drawsFrom p (RenderScene ext s).cmds).length = 11 := by
    have e1 : (drawsFrom p (RenderScene ext s).cmds).map (fun d => d.entity)
        = unblendedEntities ++ blendedEntities := rfl
    rw [← List.length_map (drawsFrom p (RenderScene ext s).cmds) (fun d => d.entity), e1]; rfl
  refine ⟨?_, ?_, ?_, hlen⟩
  · rw [RenderScene_scene, hc]
  · rw [RenderScene_scene, RenderScene_cmds, List.filter_append, List.filter_append, hM]
    have h0 : List.filter Cmd.isUpload
        (RenderSceneFromCamera ext s.gCamera (assembleFrameConstants ext s)).cmds.tail = [] := by
      rw [List.filter_eq_nil_iff]
      intro c hc2
      have := List.all_eq_true.mp htail c hc2
      simpa using this
    simp [List.filter_cons, Cmd.isUpload, h0]
  · rw [RenderScene_scene, RenderScene_cmds, drawsFrom_append, drawsFrom_append, hM]
    intro d hd
    rcases List.mem_append.mp hd with h | h
    · rcases List.mem_append.mp h with h | h
      · simp [drawsFrom] at h
      · simp only [drawsFrom] at h
        exact (drawsFrom_perFrame_of_no_upload _ _ htail d h).trans rfl
    · simp [drawsFrom] at h

/-- C13 at a concrete input: the scene after `InitScene`, nothing bound on entry; one upload
and eleven draws. -/
theorem C13_constants_uploaded_once_before_every_draw_witness :
    ((RenderScene sampleExternals sampleScene).cmds.filter Cmd.isUpload).length = 1 ∧
    (drawsFrom Pipeline.unbound (RenderScene sampleExternals sampleScene).cmds).length = 11 :=
  have h := C13_constants_uploaded_once_before_every_draw sampleExternals sampleScene
    Pipeline.unbound
  ⟨by rw [h.2.1]; rfl, h.2.2.2⟩

/-! ## Initialisation -/

/-- The `try` block catches the error of the first constructor that throws, and makes only
mesh constructions, at least one. -/
theorem tryMeshes_spec (w : InitWorld) (l : List (MeshVar × String × Bool)) :
    (tryMeshes w l).2 = l.findSome? (fun m => w.meshError m.1) ∧
    ((tryMeshes w l).2 = none ↔ l.all (fun m => (w.meshError m.1).isNone) = true) ∧
    (∀ c ∈ (tryMeshes w l).1, c.stage = .meshes) ∧
    (l ≠ [] → ∃ c ∈ (tryMeshes w l).1, c.stage = .meshes) := by
  induction l with
  | nil => simp [tryMeshes]
  | cons m rest ih =>
    obtain ⟨target, file, tangents⟩ := m
    obtain ⟨ih1, ih2, ih3, -⟩ := ih
    cases h : w.meshError target with
    | some what => simp [tryMeshes, h, InitCall.stage]
    | none =>
      simp only [tryMeshes, h, List.findSome?_cons, List.all_cons, Option.isNone_none,
        Bool.true_and]
      refine ⟨ih1, ih2, ?_, ?_⟩
      · intro c hc
        rcases List.mem_cons.mp hc with rfl | hc
        · rfl
        · exact ih3 c hc
      · intro _
        exact ⟨_, List.mem_cons_self _ _, rfl⟩

/-- The texture chain is true exactly when some load fails, and makes only texture loads,
at least one. -/
theorem anyTextureFails_spec (w : InitWorld) (l : List (String × ShaderResourceView)) :
    (anyTextureFails w l).2 = !(l.all (fun t => w.LoadTexture t.2)) ∧
    (∀ c ∈ (anyTextureFails w l).1, c.stage = .textures) ∧
    (l ≠ [] → ∃ c ∈ (anyTextureFails w l).1, c.stage = .textures) := by
  induction l with
  | nil => simp [anyTextureFails]
  | cons t rest ih =>
    obtain ⟨file, target⟩ := t
    obtain ⟨ih1, ih2, -⟩ := ih
    cases h : w.LoadTexture target with
    | false => simp [anyTextureFails, h, InitCall.stage]
    | true =>
      simp only [anyTextureFails, h, Bool.not_true, Bool.false_eq_true, if_false, List.all_cons,
        Bool.true_and]
      refine ⟨ih1, ?_, ?_⟩
      · intro c hc
        rcases List.mem_cons.mp hc with rfl | hc
        · rfl
        · exact ih2 c hc
      · intro _
        exact ⟨_, List.mem_cons_self _ _, rfl⟩

/-- The outcome of `InitGeometry`, by the first failing step: the return value, the message
and the calls made. -/
theorem InitGeometry_outcome (w : InitWorld) (e : String) :
    (firstFailingStage w = some .meshes ∧
      InitGeometry w e = ⟨false, stageMessage w .meshes, (tryMeshes w meshLoads).1⟩) ∨
    (firstFailingStage w = some .shaders ∧
      InitGeometry w e = ⟨false, stageMessage w .shaders,
        (tryMeshes w meshLoads).1 ++ [.LoadShaders]⟩) ∨
    (firstFailingStage w = some .constantBuffers ∧
      InitGeometry w e = ⟨false, stageMessage w .constantBuffers,
        (tryMeshes w meshLoads).1 ++ [.LoadShaders]
          ++ [.CreateConstantBuffer .gPerFrameConstantBuffer,
              .CreateConstantBuffer .gPerModelConstantBuffer]⟩) ∨
    (firstFailingStage w = some .textures ∧
      InitGeometry w e = ⟨false, stageMessage w .textures,
        (tryMeshes w meshLoads).1 ++ [.LoadShaders]
          ++ [.CreateConstantBuffer .gPerFrameConstantBuffer,
              .CreateConstantBuffer .gPerModelConstantBuffer]
          ++ (anyTextureFails w textureLoads).1⟩) ∨
    (firstFailingStage w = some .shadowTexture ∧
      InitGeometry w e = ⟨false, stageMessage w .shadowTexture,
        (tryMeshes w meshLoads).1 ++ [.LoadShaders]
          ++ [.CreateConstantBuffer .gPerFrameConstantBuffer,
              .CreateConstantBuffer .gPerModelConstantBuffer]
          ++ (anyTextureFails w textureLoads).1 ++ [.CreateTexture2D]⟩) ∨
    (firstFailingStage w = some .shadowDepthStencilView ∧
      InitGeometry w e = ⟨false, stageMessage w .shadowDepthStencilView,
        (tryMeshes w meshLoads).1 ++ [.LoadShaders]
          ++ [.CreateConstantBuffer .gPerFrameConstantBuffer,
              .CreateConstantBuffer .gPerModelConstantBuffer]
          ++ (anyTextureFails w textureLoads).1 ++ [.CreateTexture2D]
          ++ [.CreateDepthStencilView]⟩) ∨
    (firstFailingStage w = some .shadowShaderResourceView ∧
      InitGeometry w e = ⟨false, stageMessage w .shadowShaderResourceView,
        (tryMeshes w meshLoads).1 ++ [.LoadShaders]
          ++ [.CreateConstantBuffer .gPerFrameConstantBuffer,
              .CreateConstantBuffer .gPerModelConstantBuffer]
          ++ (anyTextureFails w textureLoads).1 ++ [.CreateTexture2D]
          ++ [.CreateDepthStencilView] ++ [.CreateShaderResourceView]⟩) ∨
    (firstFailingStage w = some .states ∧
      InitGeometry w e = ⟨false, stageMessage w .states,
        (tryMeshes w meshLoads).1 ++ [.LoadShaders]
          ++ [.CreateConstantBuffer .gPerFrameConstantBuffer,
              .CreateConstantBuffer .gPerModelConstantBuffer]
          ++ (anyTextureFails w textureLoads).1 ++ [.CreateTexture2D]
          ++ [.CreateDepthStencilView] ++ [.CreateShaderResourceView] ++ [.CreateStates]⟩) ∨
    (firstFailingStage w = none ∧ (∀ st, stageSucceeds w st = true) ∧
      InitGeometry w e = ⟨true, e,
        (tryMeshes w meshLoads).1 ++ [.LoadShaders]
          ++ [.CreateConstantBuffer .gPerFrameConstantBuffer,
              .CreateConstantBuffer .gPerModelConstantBuffer]
          ++ (anyTextureFails w textureLoads).1 ++ [.CreateTexture2D]
          ++ [.CreateDepthStencilView] ++ [.CreateShaderResourceView] ++ [.CreateStates]⟩) := by
  obtain ⟨hm2, hmiff, -, -⟩ := tryMeshes_spec w meshLoads
  obtain ⟨ht2, -, -⟩ := anyTextureFails_spec w textureLoads
  cases h1 : stageSucceeds w .meshes with
  | false =>
    left
    have hne : (tryMeshes w meshLoads).2 ≠ none := by
      intro h; rw [hmiff] at h; simp only [stageSucceeds] at h1; rw [h] at h1; cases h1
    obtain ⟨what, hw⟩ := Option.ne_none_iff_exists'.mp hne
    refine ⟨by simp [firstFailingStage, initStages, h1], ?_⟩
    have hmsg : stageMessage w .meshes = what := by
      simp only [stageMessage, ← hm2, hw, Option.getD_some]
    rw [hmsg]
    unfold InitGeometry
    rw [show tryMeshes w meshLoads = ((tryMeshes w meshLoads).1, some what) from
      Prod.ext rfl hw]
  | true =>
    right
    have hnone : (tryMeshes w meshLoads).2 = none := by
      rw [hmiff]; exact h1
    have hM : tryMeshes w meshLoads = ((tryMeshes w meshLoads).1, none) := Prod.ext rfl hnone
    cases h2 : stageSucceeds w .shaders with
    | false =>
      left
      refine ⟨by simp [firstFailingStage, initStages, h1, h2], ?_⟩
      simp only [stageSucceeds] at h2
      unfold InitGeometry
      rw [hM]
      simp [h2, stageMessage]
    | true =>
      right
      cases h3 : stageSucceeds w .constantBuffers with
      | false =>
        left
        refine ⟨by simp [firstFailingStage, initStages, h1, h2, h3], ?_⟩
        simp only [stageSucceeds] at h2 h3
        have hc : (!w.CreateConstantBuffer .gPerFrameConstantBuffer
            || !w.CreateConstantBuffer .gPerModelConstantBuffer) = true := by
          revert h3
          cases w.CreateConstantBuffer .gPerFrameConstantBuffer <;>
            cases w.CreateConstantBuffer .gPerModelConstantBuffer <;> simp
        unfold InitGeometry
        rw [hM]
        simp only [h2, hc, stageMessage, Bool.not_true, Bool.false_eq_true, if_false, if_true]
      | true =>
        right
        have hc : (!w.CreateConstantBuffer .gPerFrameConstantBuffer
            || !w.CreateConstantBuffer .gPerModelConstantBuffer) = false := by
          simp only [stageSucceeds] at h3
          revert h3
          cases w.CreateConstantBuffer .gPerFrameConstantBuffer <;>
            cases w.CreateConstantBuffer .gPerModelConstantBuffer <;> simp
        cases h4 : stageSucceeds w .textures with
        | false =>
          left
          refine ⟨by simp [firstFailingStage, initStages, h1, h2, h3, h4], ?_⟩
          have hf : (anyTextureFails w textureLoads).2 = true := by
            simp only [stageSucceeds] at h4
            rw [ht2, h4]; rfl
          simp only [stageSucceeds] at h2
          unfold InitGeometry
          rw [hM]
          simp only [h2, hc, hf, stageMessage, Bool.not_true, Bool.false_eq_true, if_false,
            if_true]
        | true =>
          right
          have hf : (anyTextureFails w textureLoads).2 = false := by
            simp only [stageSucceeds] at h4
            rw [ht2, h4]; rfl
          cases h5 : stageSucceeds w .shadowTexture with
          | false =>
            left
            refine ⟨by simp [firstFailingStage, initStages, h1, h2, h3, h4, h5], ?_⟩
            simp only [stageSucceeds] at h2 h5
            unfold InitGeometry
            rw [hM]
            simp only [h2, hc, hf, h5, stageMessage, Bool.not_true, Bool.not_false,
              Bool.false_eq_true, if_false, if_true]
          | true =>
            right
            cases h6 : stageSucceeds w .shadowDepthStencilView with
            | false =>
              left
              refine ⟨by simp [firstFailingStage, initStages, h1, h2, h3, h4, h5, h6], ?_⟩
              simp only [stageSucceeds] at h2 h5 h6
              unfold InitGeometry
              rw [hM]
              simp only [h2, hc, hf, h5, h6, stageMessage, Bool.not_true, Bool.not_false,
                Bool.false_eq_true, if_false, if_true]
            | true =>
              right
              cases h7 : stageSucceeds w .shadowShaderResourceView with
              | false =>
                left
                refine ⟨by simp [firstFailingStage, initStages, h1, h2, h3, h4, h5, h6, h7], ?_⟩
                simp only [stageSucceeds] at h2 h5 h6 h7
                unfold InitGeometry
                rw [hM]
                simp only [h2, hc, hf, h5, h6, h7, stageMessage, Bool.not_true, Bool.not_false,
                  Bool.false_eq_true, if_false, if_true]
              | true =>
                right
                cases h8 : stageSucceeds w .states with
                | false =>
                  left
                  refine ⟨by simp [firstFailingStage, initStages, h1, h2, h3, h4, h5, h6, h7,
                    h8], ?_⟩
                  simp only [stageSucceeds] at h2 h5 h6 h7 h8
                  unfold InitGeometry
                  rw [hM]
                  simp only [h2, hc, hf, h5, h6, h7, h8, stageMessage, Bool.not_true,
                    Bool.not_false, Bool.false_eq_true, if_false, if_true]
                | true =>
                  right
                  refine ⟨by simp [firstFailingStage, initStages, h1, h2, h3, h4, h5, h6, h7,
                    h8], ?_, ?_⟩
                  · intro st
                    cases st <;> assumption
                  · simp only [stageSucceeds] at h2 h5 h6 h7 h8
                    unfold InitGeometry
                    rw [hM]
                    simp only [h2, hc, hf, h5, h6, h7, h8, Bool.not_true, Bool.not_false,
                      Bool.false_eq_true, if_false, if_true]

/-- The first failing step fails. -/
theorem firstFailingStage_fails (w : InitWorld) (st : InitStage)
    (h : firstFailingStage w = some st) : stageSucceeds w st = false := by
  have := List.find?_some h
  simpa using this

/-- The run of `InitGeometry`, by the first failing step: the return value, the message, and
the steps of the calls made, in order (`a` mesh constructions, then the steps that follow, as
far as the run gets, with `b` texture loads). -/
theorem InitGeometry_stages (w : InitWorld) (e : String) :
    ∃ a b : ℕ, 0 < a ∧ 0 < b ∧
      ((firstFailingStage w = some .meshes ∧ (InitGeometry w e).result = false ∧
          (InitGeometry w e).gLastError = stageMessage w .meshes ∧
          (InitGeometry w e).calls.map InitCall.stage
            = List.replicate a .meshes) ∨
       (firstFailingStage w = some .shaders ∧ (InitGeometry w e).result = false ∧
          (InitGeometry w e).gLastError = stageMessage w .shaders ∧
          (InitGeometry w e).calls.map InitCall.stage
            = List.replicate a .meshes ++ [.shaders]) ∨
       (firstFailingStage w = some .constantBuffers ∧ (InitGeometry w e).result = false ∧
          (InitGeometry w e).gLastError = stageMessage w .constantBuffers ∧
          (InitGeometry w e).calls.map InitCall.stage
            = List.replicate a .meshes ++ [.shaders, .constantBuffers, .constantBuffers]) ∨
       (firstFailingStage w = some .textures ∧ (InitGeometry w e).result = false ∧
          (InitGeometry w e).gLastError = stageMessage w .textures ∧
          (InitGeometry w e).calls.map InitCall.stage
            = List.replicate a .meshes ++ [.shaders, .constantBuffers, .constantBuffers] ++ List.replicate b .textures) ∨
       (firstFailingStage w = some .shadowTexture ∧ (InitGeometry w e).result = false ∧
          (InitGeometry w e).gLastError = stageMessage w .shadowTexture ∧
          (InitGeometry w e).calls.map InitCall.stage
            = List.replicate a .meshes ++ [.shaders, .constantBuffers, .constantBuffers] ++ List.replicate b .textures ++ [.shadowTexture]) ∨
       (firstFailingStage w = some .shadowDepthStencilView ∧ (InitGeometry w e).result = false ∧
          (InitGeometry w e).gLastError = stageMessage w .shadowDepthStencilView ∧
          (InitGeometry w e).calls.map InitCall.stage
            = List.replicate a .meshes ++ [.shaders, .constantBuffers, .constantBuffers] ++ List.replicate b .textures ++ [.shadowTexture, .shadowDepthStencilView]) ∨
       (firstFailingStage w = some .shadowShaderResourceView ∧ (InitGeometry w e).result = false ∧
          (InitGeometry w e).gLastError = stageMessage w .shadowShaderResourceView ∧
          (InitGeometry w e).calls.map InitCall.stage
            = List.replicate a .meshes ++ [.shaders, .constantBuffers, .constantBuffers] ++ List.replicate b .textures ++ [.shadowTexture, .shadowDepthStencilView, .shadowShaderResourceView]) ∨
       (firstFailingStage w = some .states ∧ (InitGeometry w e).result = false ∧
          (InitGeometry w e).gLastError = stageMessage w .states ∧
          (InitGeometry w e).calls.map InitCall.stage
            = List.replicate a .meshes ++ [.shaders, .constantBuffers, .constantBuffers] ++ List.replicate b .textures ++ [.shadowTexture, .shadowDepthStencilView, .shadowShaderResourceView, .states]) ∨
       (firstFailingStage w = none ∧ (∀ st, stageSucceeds w st = true) ∧
          (InitGeometry w e).result = true ∧ (InitGeometry w e).gLastError = e ∧
          (InitGeometry w e).calls.map InitCall.stage
            = List.replicate a .meshes ++ [.shaders, .constantBuffers, .constantBuffers] ++ List.replicate b .textures ++ [.shadowTexture, .shadowDepthStencilView, .shadowShaderResourceView, .states])) := by
  obtain ⟨-, -, hMst, hMne⟩ := tryMeshes_spec w meshLoads
  obtain ⟨-, hTst, hTne⟩ := anyTextureFails_spec w textureLoads
  have hM : (tryMeshes w meshLoads).1.map InitCall.stage
      = List.replicate (tryMeshes w meshLoads).1.length .meshes := by
    rw [List.eq_replicate_iff]
    exact ⟨List.length_map _ _, fun b hb => by
      obtain ⟨c, hc, rfl⟩ := List.mem_map.mp hb
      exact hMst c hc⟩
  have hT : (anyTextureFails w textureLoads).1.map InitCall.stage
      = List.replicate (anyTextureFails w textureLoads).1.length .textures := by
    rw [List.eq_replicate_iff]
    exact ⟨List.length_map _ _, fun b hb => by
      obtain ⟨c, hc, rfl⟩ := List.mem_map.mp hb
      exact hTst c hc⟩
  have ha : 0 < (tryMeshes w meshLoads).1.length := by
    obtain ⟨c, hc, -⟩ := hMne (by simp [meshLoads])
    exact List.length_pos_of_mem hc
  have hb : 0 < (anyTextureFails w textureLoads).1.length := by
    obtain ⟨c, hc, -⟩ := hTne (by simp [textureLoads])
    exact List.length_pos_of_mem hc
  refine ⟨_, _, ha, hb, ?_⟩
  rcases InitGeometry_outcome w e with
    ⟨hf, hr⟩ | ⟨hf, hr⟩ | ⟨hf, hr⟩ | ⟨hf, hr⟩ | ⟨hf, hr⟩ | ⟨hf, hr⟩ | ⟨hf, hr⟩ | ⟨hf, hr⟩ |
    ⟨hf, hall, hr⟩
  · left
    exact ⟨hf, by rw [hr], by rw [hr], by rw [hr]; exact hM⟩
  · right; left
    exact ⟨hf, by rw [hr], by rw [hr], by rw [hr]; simp [hM, hT, InitCall.stage]⟩
  · right; right; left
    exact ⟨hf, by rw [hr], by rw [hr], by rw [hr]; simp [hM, hT, InitCall.stage]⟩
  · right; right; right; left
    exact ⟨hf, by rw [hr], by rw [hr], by rw [hr]; simp [hM, hT, InitCall.stage]⟩
  · right; right; right; right; left
    exact ⟨hf, by rw [hr], by rw [hr], by rw [hr]; simp [hM, hT, InitCall.stage]⟩
  · right; right; right; right; right; left
    exact ⟨hf, by rw [hr], by rw [hr], by rw [hr]; simp [hM, hT, InitCall.stage]⟩
  · right; right; right; right; right; right; left
    exact ⟨hf, by rw [hr], by rw [hr], by rw [hr]; simp [hM, hT, InitCall.stage]⟩
  · right; right; right; right; right; right; right; left
    exact ⟨hf, by rw [hr], by rw [hr], by rw [hr]; simp [hM, hT, InitCall.stage]⟩
  · right; right; right; right; right; right; right; right
    exact ⟨hf, hall, by rw [hr], by rw [hr], by rw [hr]; simp [hM, hT, InitCall.stage]⟩

/-- The positions of the steps of a complete run do not decrease. -/
theorem stage_indices_ordered (a b : ℕ) :
    List.Pairwise (fun x y : ℕ => x ≤ y)
      (List.replicate a 0 ++ [1, 2, 2] ++ List.replicate b 3 ++ [4, 5, 6, 7]) := by
  rw [List.pairwise_append, List.pairwise_append, List.pairwise_append]
  refine ⟨⟨⟨?_, ?_, ?_⟩, ?_, ?_⟩, ?_, ?_⟩
  · exact List.pairwise_replicate.mpr (Or.inr le_rfl)
  · decide
  · intro x hx y _
    rw [List.eq_of_mem_replicate hx]
    exact Nat.zero_le y
  · exact List.pairwise_replicate.mpr (Or.inr le_rfl)
  · intro x hx y hy
    rw [List.eq_of_mem_replicate hy]
    rcases List.mem_append.mp hx with h | h
    · rw [List.eq_of_mem_replicate h]; decide
    · simp only [List.mem_cons, List.mem_singleton, List.not_mem_nil, or_false] at h
      omega
  · decide
  · intro x hx y hy
    have hx4 : x ≤ 3 := by
      rcases List.mem_append.mp hx with h | h
      · rcases List.mem_append.mp h with h | h
        · rw [List.eq_of_mem_replicate h]; decide
        · simp only [List.mem_cons, List.mem_singleton, List.not_mem_nil, or_false] at h
          omega
      · rw [List.eq_of_mem_replicate h]
    have hy4 : 4 ≤ y := by
      simp only [List.mem_cons, List.mem_singleton, List.not_mem_nil, or_false] at hy
      omega
    omega

/-- The steps of a complete run are in the order of the specification. -/
theorem stages_ordered (a b : ℕ) :
    List.Pairwise (fun x y : InitStage => x.index ≤ y.index)
      (List.replicate a InitStage.meshes
        ++ [InitStage.shaders, InitStage.constantBuffers, InitStage.constantBuffers]
        ++ List.replicate b InitStage.textures
        ++ [InitStage.shadowTexture, InitStage.shadowDepthStencilView,
            InitStage.shadowShaderResourceView, InitStage.states]) := by
  refine List.Pairwise.of_map InitStage.index (fun _ _ h => h) ?_
  simpa [InitStage.index] using stage_indices_ordered a b

/-- A run that stops earlier keeps the order. -/
theorem stages_ordered_of_initial_segment (a b : ℕ) (l rest : List InitStage)
    (h : List.replicate a InitStage.meshes
        ++ [InitStage.shaders, InitStage.constantBuffers, InitStage.constantBuffers]
        ++ List.replicate b InitStage.textures
        ++ [InitStage.shadowTexture, InitStage.shadowDepthStencilView,
            InitStage.shadowShaderResourceView, InitStage.states] = l ++ rest) :
    List.Pairwise (fun x y : InitStage => x.index ≤ y.index) l := by
  have hp := stages_ordered a b
  rw [h] at hp
  exact (List.pairwise_append.mp hp).1

/-- C14: `InitGeometry` returns true if and only if every initialisation step succeeds.
When a step fails, with `st` the first failing step in the order mesh construction, shader
loading, constant-buffer creation, texture loading, shadow-map texture, depth-stencil view,
shader-resource view, state creation, it returns false, `gLastError` is the message of `st`
(for mesh construction the message of the runtime error caught), every step up to `st` has
been attempted and no call of a later step is made.  When no step fails it returns true,
leaves `gLastError` as it was and has attempted every step.  The calls are made in the order
of the steps. -/
theorem C14_InitGeometry_stops_at_first_failing_step (w : InitWorld) (e : String) :
    ((InitGeometry w e).result = true ↔ ∀ st, stageSucceeds w st = true) ∧
    (∀ st, firstFailingStage w = some st →
      (InitGeometry w e).result = false ∧
      (InitGeometry w e).gLastError = stageMessage w st ∧
      (∀ c ∈ (InitGeometry w e).calls, c.stage.index ≤ st.index) ∧
      (∀ st2 : InitStage, st2.index ≤ st.index → ∃ c ∈ (InitGeometry w e).calls, c.stage = st2)) ∧
    (firstFailingStage w = none →
      (InitGeometry w e).result = true ∧ (InitGeometry w e).gLastError = e ∧
      (∀ st2 : InitStage, ∃ c ∈ (InitGeometry w e).calls, c.stage = st2)) ∧
    List.Pairwise (fun c1 c2 => c1.stage.index ≤ c2.stage.index) (InitGeometry w e).calls := by
  obtain ⟨a, b, ha, hb, h⟩ := InitGeometry_stages w e
  have ha' : a ≠ 0 := ha.ne'
  have hb' : b ≠ 0 := hb.ne'
  have bound : ∀ (l : List InitStage) (k : ℕ),
      (InitGeometry w e).calls.map InitCall.stage = l → (∀ x ∈ l, x.index ≤ k) →
      ∀ c ∈ (InitGeometry w e).calls, c.stage.index ≤ k := by
    intro l k hl hk c hc
    exact hk _ (hl ▸ List.mem_map_of_mem InitCall.stage hc)
  have covered : ∀ (l : List InitStage) (st2 : InitStage),
      (InitGeometry w e).calls.map InitCall.stage = l → st2 ∈ l →
      ∃ c ∈ (InitGeometry w e).calls, c.stage = st2 := by
    intro l st2 hl hmem
    rw [← hl] at hmem
    obtain ⟨c, hc, hcs⟩ := List.mem_map.mp hmem
    exact ⟨c, hc, hcs⟩
  have ordered : ∀ (l : List InitStage),
      (InitGeometry w e).calls.map InitCall.stage = l →
      List.Pairwise (fun x y : InitStage => x.index ≤ y.index) l →
      List.Pairwise (fun c1 c2 => c1.stage.index ≤ c2.stage.index) (InitGeometry w e).calls := by
    intro l hl hp
    rw [← hl] at hp
    exact List.Pairwise.of_map InitCall.stage (fun _ _ h => h) hp
  rcases h with
    ⟨hf, hr, hm, hs⟩ | ⟨hf, hr, hm, hs⟩ | ⟨hf, hr, hm, hs⟩ | ⟨hf, hr, hm, hs⟩ |
    ⟨hf, hr, hm, hs⟩ | ⟨hf, hr, hm, hs⟩ | ⟨hf, hr, hm, hs⟩ | ⟨hf, hr, hm, hs⟩ |
    ⟨hf, hall, hr, hm, hs⟩
  · have hno : ¬ ∀ st, stageSucceeds w st = true := by
      intro h
      have h2 := firstFailingStage_fails w _ hf
      rw [h] at h2
      cases h2
    have hnt : ¬ (InitGeometry w e).result = true := by
      rw [hr]
      exact Bool.false_ne_true
    refine ⟨⟨fun h => absurd h hnt, fun h => absurd h hno⟩, ?_, ?_, ?_⟩
    · intro st hst
      rw [hf] at hst
      cases hst
      refine ⟨hr, hm, bound _ _ hs ?_, ?_⟩
      · clear bound covered ordered
        intro x hx
        cases x <;> simp_all [InitStage.index]
      · intro st2 h2
        refine covered _ st2 hs ?_
        clear bound covered ordered
        cases st2 <;> simp_all [InitStage.index]
    · intro hn
      rw [hf] at hn
      cases hn
    · exact ordered _ hs (stages_ordered_of_initial_segment a b _
        ([InitStage.shaders, InitStage.constantBuffers, InitStage.constantBuffers] ++ List.replicate b InitStage.textures ++ [InitStage.shadowTexture, InitStage.shadowDepthStencilView, InitStage.shadowShaderResourceView, InitStage.states]) (by simp))
  · have hno : ¬ ∀ st, stageSucceeds w st = true := by
      intro h
      have h2 := firstFailingStage_fails w _ hf
      rw [h] at h2
      cases h2
    have hnt : ¬ (InitGeometry w e).result = true := by
      rw [hr]
      exact Bool.false_ne_true
    refine ⟨⟨fun h => absurd h hnt, fun h => absurd h hno⟩, ?_, ?_, ?_⟩
    · intro st hst
      rw [hf] at hst
      cases hst
      refine ⟨hr, hm, bound _ _ hs ?_, ?_⟩
      · clear bound covered ordered
        intro x hx
        cases x <;> simp_all [InitStage.index]
      · intro st2 h2
        refine covered _ st2 hs ?_
        clear bound covered ordered
        cases st2 <;> simp_all [InitStage.index]
    · intro hn
      rw [hf] at hn
      cases hn
    · exact ordered _ hs (stages_ordered_of_initial_segment a b _
        ([InitStage.constantBuffers, InitStage.constantBuffers] ++ List.replicate b InitStage.textures ++ [InitStage.shadowTexture, InitStage.shadowDepthStencilView, InitStage.shadowShaderResourceView, InitStage.states]) (by simp))
  · have hno : ¬ ∀ st, stageSucceeds w st = true := by
      intro h
      have h2 := firstFailingStage_fails w _ hf
      rw [h] at h2
      cases h2
    have hnt : ¬ (InitGeometry w e).result = true := by
      rw [hr]
      exact Bool.false_ne_true
    refine ⟨⟨fun h => absurd h hnt, fun h => absurd h hno⟩, ?_, ?_, ?_⟩
    · intro st hst
      rw [hf] at hst
      cases hst
      refine ⟨hr, hm, bound _ _ hs ?_, ?_⟩
      · clear bound covered ordered
        intro x hx
        cases x <;> simp_all [InitStage.index]
      · intro st2 h2
        refine covered _ st2 hs ?_
        clear bound covered ordered
        cases st2 <;> simp_all [InitStage.index]
    · intro hn
      rw [hf] at hn
      cases hn
    · exact ordered _ hs (stages_ordered_of_initial_segment a b _
        (List.replicate b InitStage.textures ++ [InitStage.shadowTexture, InitStage.shadowDepthStencilView, InitStage.shadowShaderResourceView, InitStage.states]) (by simp))
  · have hno : ¬ ∀ st, stageSucceeds w st = true := by
      intro h
      have h2 := firstFailingStage_fails w _ hf
      rw [h] at h2
      cases h2
    have hnt : ¬ (InitGeometry w e).result = true := by
      rw [hr]
      exact Bool.false_ne_true
    refine ⟨⟨fun h => absurd h hnt, fun h => absurd h hno⟩, ?_, ?_, ?_⟩
    · intro st hst
      rw [hf] at hst
      cases hst
      refine ⟨hr, hm, bound _ _ hs ?_, ?_⟩
      · clear bound covered ordered
        intro x hx
        cases x <;> simp_all [InitStage.index]
      · intro st2 h2
        refine covered _ st2 hs ?_
        clear bound covered ordered
        cases st2 <;> simp_all [InitStage.index]
    · intro hn
      rw [hf] at hn
      cases hn
    · exact ordered _ hs (stages_ordered_of_initial_segment a b _
        ([InitStage.shadowTexture, InitStage.shadowDepthStencilView, InitStage.shadowShaderResourceView, InitStage.states]) (by simp))
  · have hno : ¬ ∀ st, stageSucceeds w st = true := by
      intro h
      have h2 := firstFailingStage_fails w _ hf
      rw [h] at h2
      cases h2
    have hnt : ¬ (InitGeometry w e).result = true := by
      rw [hr]
      exact Bool.false_ne_true
    refine ⟨⟨fun h => absurd h hnt, fun h => absurd h hno⟩, ?_, ?_, ?_⟩
    · intro st hst
      rw [hf] at hst
      cases hst
      refine ⟨hr, hm, bound _ _ hs ?_, ?_⟩
      · clear bound covered ordered
        intro x hx
        cases x <;> simp_all [InitStage.index]
      · intro st2 h2
        refine covered _ st2 hs ?_
        clear bound covered ordered
        cases st2 <;> simp_all [InitStage.index]
    · intro hn
      rw [hf] at hn
      cases hn
    · exact ordered _ hs (stages_ordered_of_initial_segment a b _
        ([InitStage.shadowDepthStencilView, InitStage.shadowShaderResourceView, InitStage.states]) (by simp))
  · have hno : ¬ ∀ st, stageSucceeds w st = true := by
      intro h
      have h2 := firstFailingStage_fails w _ hf
      rw [h] at h2
      cases h2
    have hnt : ¬ (InitGeometry w e).result = true := by
      rw [hr]
      exact Bool.false_ne_true
    refine ⟨⟨fun h => absurd h hnt, fun h => absurd h hno⟩, ?_, ?_, ?_⟩
    · intro st hst
      rw [hf] at hst
      cases hst
      refine ⟨hr, hm, bound _ _ hs ?_, ?_⟩
      · clear bound covered ordered
        intro x hx
        cases x <;> simp_all [InitStage.index]
      · intro st2 h2
        refine covered _ st2 hs ?_
        clear bound covered ordered
        cases st2 <;> simp_all [InitStage.index]
    · intro hn
      rw [hf] at hn
      cases hn
    · exact ordered _ hs (stages_ordered_of_initial_segment a b _
        ([InitStage.shadowShaderResourceView, InitStage.states]) (by simp))
  · have hno : ¬ ∀ st, stageSucceeds w st = true := by
      intro h
      have h2 := firstFailingStage_fails w _ hf
      rw [h] at h2
      cases h2
    have hnt : ¬ (InitGeometry w e).result = true := by
      rw [hr]
      exact Bool.false_ne_true
    refine ⟨⟨fun h => absurd h hnt, fun h => absurd h hno⟩, ?_, ?_, ?_⟩
    · intro st hst
      rw [hf] at hst
      cases hst
      refine ⟨hr, hm, bound _ _ hs ?_, ?_⟩
      · clear bound covered ordered
        intro x hx
        cases x <;> simp_all [InitStage.index]
      · intro st2 h2
        refine covered _ st2 hs ?_
        clear bound covered ordered
        cases st2 <;> simp_all [InitStage.index]
    · intro hn
      rw [hf] at hn
      cases hn
    · exact ordered _ hs (stages_ordered_of_initial_segment a b _
        ([InitStage.states]) (by simp))
  · have hno : ¬ ∀ st, stageSucceeds w st = true := by
      intro h
      have h2 := firstFailingStage_fails w _ hf
      rw [h] at h2
      cases h2
    have hnt : ¬ (InitGeometry w e).result = true := by
      rw [hr]
      exact Bool.false_ne_true
    refine ⟨⟨fun h => absurd h hnt, fun h => absurd h hno⟩, ?_, ?_, ?_⟩
    · intro st hst
      rw [hf] at hst
      cases hst
      refine ⟨hr, hm, bound _ _ hs ?_, ?_⟩
      · clear bound covered ordered
        intro x hx
        cases x <;> simp_all [InitStage.index]
      · intro st2 h2
        refine covered _ st2 hs ?_
        clear bound covered ordered
        cases st2 <;> simp_all [InitStage.index]
    · intro hn
      rw [hf] at hn
      cases hn
    · exact ordered _ hs (stages_ordered_of_initial_segment a b _
        ([]) (by simp))
  · refine ⟨⟨fun _ => hall, fun _ => hr⟩, ?_, ?_, ?_⟩
    · intro st hst
      rw [hf] at hst
      cases hst
    · intro _
      refine ⟨hr, hm, fun st2 => covered _ st2 hs ?_⟩
      clear bound covered ordered
      cases st2 <;> simp [ha', hb']
    · exact ordered _ hs (stages_ordered a b)

/-- C14 at a concrete input: a world in which the second mesh constructor throws and the
shaders would not load either; the run stops at the mesh step with the thrown message, after
two constructor calls. -/
theorem C14_InitGeometry_stops_at_first_failing_step_witness :
    firstFailingStage brokenWorld = some .meshes ∧
    (InitGeometry brokenWorld "").result = false ∧
    (InitGeometry brokenWorld "").gLastError = "Cannot load Teapot.x" ∧
    (InitGeometry brokenWorld "").calls.length = 2 :=
  have hf : firstFailingStage brokenWorld = some .meshes := by decide
  have h := (C14_InitGeometry_stops_at_first_failing_step brokenWorld "").2.1 .meshes hf
  ⟨hf, h.1, h.2.1.trans (by decide), by decide⟩

/-! ## The orbit of light 0 -/

/-- The assembly of the per-frame constants does not read the frame-rate lock. -/
theorem assembleFrameConstants_lock (ext : Externals) (s : Scene) (b : Bool) :
    assembleFrameConstants ext { s with lockFPS := b }
      = { assembleFrameConstants ext s with lockFPS := b } := by
  simp [assembleFrameConstants, Scene.setPerFrame, lightFacing, cosHalfAngle,
    CalculateLightViewMatrix, CalculateLightProjectionMatrix]

/-- The main pass issues the same commands whatever the frame-rate lock. -/
theorem RenderSceneFromCamera_cmds_lock (ext : Externals) (camera : Camera) (s : Scene)
    (b : Bool) :
    (RenderSceneFromCamera ext camera { s with lockFPS := b }).cmds
      = (RenderSceneFromCamera ext camera s).cmds := by
  simp [RenderSceneFromCamera, RenderSceneFromCameraOn, Trace.cmds, Trace.start,
    Trace.emit, Trace.modify, Trace.emitWith, Trace.render, renderLight, finRange_NUM_LIGHTS,
    Model.Render, Scene.setPerFrame, Scene.model]

/-- The commands of a frame with the frame-rate lock set to `b`: the commands that do not
depend on the lock, then the present with the sync interval of `b`. -/
theorem RenderScene_cmds_lock (ext : Externals) (s : Scene) (b : Bool) :
    (RenderScene ext { s with lockFPS := b }).cmds
      = ([.RSSetViewports (fullViewport s.gShadowMapSize s.gShadowMapSize),
          .OMSetRenderTargets none .gShadowMap1DepthStencil,
          .ClearDepthStencilView .gShadowMap1DepthStencil 1.0 0,
          .OMSetRenderTargets (some .gBackBufferRenderTarget) .gDepthStencil,
          .ClearRenderTargetView .gBackBufferRenderTarget s.gBackgroundColor,
          .ClearDepthStencilView .gDepthStencil 1.0 0,
          .RSSetViewports (fullViewport s.gViewportWidth s.gViewportHeight),
          .PSSetShaderResources 1 (some .gShadowMap1SRV),
          .PSSetSamplers 1 .gPointSampler]
          ++ (RenderSceneFromCamera ext s.gCamera (assembleFrameConstants ext s)).cmds
          ++ [.PSSetShaderResources 1 none])
        ++ [.Present (if b then 1 else 0) 0] := by
  rw [RenderScene_cmds, assembleFrameConstants_lock, RenderSceneFromCamera_cmds_lock]
  simp

/-- C16: `RenderScene` presents with sync interval 1 when the frame-rate lock is on and 0
when it is off, and for any scene state the command sequences it issues with the lock on and
with the lock off are the same sequence `init` followed by the final `Present`, which differs
in its sync interval only. -/
theorem C16_lock_changes_only_the_sync_interval (ext : Externals) (s : Scene) :
    (RenderScene ext s).cmds.getLast? = some (.Present (if s.lockFPS then 1 else 0) 0) ∧
    (∃ init,
      (RenderScene ext { s with lockFPS := true }).cmds = init ++ [.Present 1 0] ∧
      (RenderScene ext { s with lockFPS := false }).cmds = init ++ [.Present 0 0]) := by
  constructor
  · rw [RenderScene_cmds, List.getLast?_append]; rfl
  · exact ⟨_, RenderScene_cmds_lock ext s true, RenderScene_cmds_lock ext s false⟩

/-! ## The light projection and the independence of the colour channels -/

/-- C17: for every light index and every position given to that light,
`CalculateLightProjectionMatrix` returns the projection matrix built by
`MakeProjectionMatrix` from aspect ratio 1.0 and the process-wide cone angle converted from
degrees to radians; the result is the same for all light indices. -/
theorem C17_light_projection_ignores_index_and_position (ext : Externals) (s : Scene)
    (i j : Fin NUM_LIGHTS) (position : CVector3) :
    CalculateLightProjectionMatrix ext s i
      = ext.MakeProjectionMatrix 1.0 (ext.ToRadians s.gSpotlightConeAngle) ∧
    CalculateLightProjectionMatrix ext
        (s.setModel i ((s.gLights i).model.SetPosition position)) i
      = ext.MakeProjectionMatrix 1.0 (ext.ToRadians s.gSpotlightConeAngle) ∧
    CalculateLightProjectionMatrix ext s i = CalculateLightProjectionMatrix ext s j := by
  refine ⟨rfl, ?_, rfl⟩
  simp [CalculateLightProjectionMatrix, Scene.setModel, Scene.setLight]

/-- What the red block of `Light2RGB` changes. -/
theorem Light2Red_shape (s : Scene) :
    ∃ (c : CVector3) (f : Bool), Light2Red s
      = { s with
            gLights := Function.update s.gLights 1 { s.gLights 1 with colour := c },
            light2RedGoingUp := f } := by
  simp only [Light2Red]
  split_ifs <;> exact ⟨_, _, rfl⟩

/-- What the green block of `Light2RGB` changes. -/
theorem Light2Green_shape (s : Scene) :
    ∃ (c : CVector3) (f : Bool), Light2Green s
      = { s with
            gLights := Function.update s.gLights 1 { s.gLights 1 with colour := c },
            light2GreenGoingUp := f } := by
  simp only [Light2Green]
  split_ifs <;> exact ⟨_, _, rfl⟩

/-- What the blue block of `Light2RGB` changes. -/
theorem Light2Blue_shape (s : Scene) :
    ∃ (c : CVector3) (f : Bool), Light2Blue s
      = { s with
            gLights := Function.update s.gLights 1 { s.gLights 1 with colour := c },
            light2BlueGoingUp := f } := by
  simp only [Light2Blue]
  split_ifs <;> exact ⟨_, _, rfl⟩

/-- What `Light2RGB` changes: nothing but the colour of light 1 and the three channel
flags. -/
theorem Light2RGB_frame (s : Scene) :
    Light2RGB s
      = { s with
            gLights := Function.update s.gLights 1
              { s.gLights 1 with colour := ((Light2RGB s).gLights 1).colour },
            light2RedGoingUp := (Light2RGB s).light2RedGoingUp,
            light2GreenGoingUp := (Light2RGB s).light2GreenGoingUp,
            light2BlueGoingUp := (Light2RGB s).light2BlueGoingUp } := by
  obtain ⟨cr, fr, hr⟩ := Light2Red_shape s
  obtain ⟨cg, fg, hg⟩ := Light2Green_shape (Light2Red s)
  obtain ⟨cb, fb, hb⟩ := Light2Blue_shape (Light2Green (Light2Red s))
  have h : Light2RGB s
      = { s with
            gLights := Function.update s.gLights 1 { s.gLights 1 with colour := cb },
            light2RedGoingUp := fr, light2GreenGoingUp := fg, light2BlueGoingUp := fb } := by
    rw [Light2RGB, hb, hg, hr]
    simp
  rw [h]
  simp

/-- C18: the three colour-channel oscillators of light 1 are independent: for any two scene
states that agree on one channel's value and direction flag, `Light2RGB` produces the same
new value and flag for that channel, whatever the other two channels hold; and `Light2RGB`
changes nothing but light 1's colour and the three channel flags. -/
theorem C18_colour_channels_independent (s t : Scene) :
    (redState s = redState t → redState (Light2RGB s) = redState (Light2RGB t)) ∧
    (greenState s = greenState t → greenState (Light2RGB s) = greenState (Light2RGB t)) ∧
    (blueState s = blueState t → blueState (Light2RGB s) = blueState (Light2RGB t)) ∧
    Light2RGB s
      = { s with
            gLights := Function.update s.gLights 1
              { s.gLights 1 with colour := ((Light2RGB s).gLights 1).colour },
            light2RedGoingUp := (Light2RGB s).light2RedGoingUp,
            light2GreenGoingUp := (Light2RGB s).light2GreenGoingUp,
            light2BlueGoingUp := (Light2RGB s).light2BlueGoingUp } := by
  refine ⟨?_, ?_, ?_, Light2RGB_frame s⟩
  · intro h
    rw [redState_Light2RGB, redState_Light2RGB, h]
  · intro h
    rw [greenState_Light2RGB, greenState_Light2RGB, h]
  · intro h
    rw [blueState_Light2RGB, blueState_Light2RGB, h]

/-- C18 at a concrete input: the scene after `InitScene` and the same scene with the green
and blue channels of light 1 set to other values; the red channel steps alike in both. -/
theorem C18_colour_channels_independent_witness :
    redState sampleScene
      = redState (sampleScene.setColour 1 { x := toFloat 1.0, y := 0.5, z := 0.9 }) ∧
    redState (Light2RGB sampleScene)
      = redState (Light2RGB (sampleScene.setColour 1 { x := toFloat 1.0, y := 0.5, z := 0.9 })) :=
  have h : redState sampleScene
      = redState (sampleScene.setColour 1 { x := toFloat 1.0, y := 0.5, z := 0.9 }) := rfl
  ⟨h, (C18_colour_channels_independent sampleScene
    (sampleScene.setColour 1 { x := toFloat 1.0, y := 0.5, z := 0.9 })).1 h⟩

/-! ## The period of the strength oscillator -/

/-- Different points of the triangle wave differ in value or in direction. -/
theorem triPhase_injective (d : ℚ) (N m n : ℕ) (hd : 0 < d)
    (h : triPhase d N m = triPhase d N n) : m = n := by
  have hd0 : d ≠ 0 := ne_of_gt hd
  have hflag := congrArg Prod.snd h
  have hval := congrArg Prod.fst h
  rw [triPhase_snd, triPhase_snd] at hflag
  unfold triPhase at hval
  by_cases h1 : m < N
  · have h2 : n < N := by
      by_contra hc
      rw [decide_eq_true h1, decide_eq_false hc] at hflag
      cases hflag
    simp only [h1, h2, if_true] at hval
    exact_mod_cast mul_right_cancel₀ hd0 hval
  · have h2 : ¬ n < N := by
      intro hc
      rw [decide_eq_false h1, decide_eq_true hc] at hflag
      cases hflag
    simp only [h1, h2, if_false] at hval
    have := mul_right_cancel₀ hd0 hval
    have e : (m : ℚ) = n := by linarith
    exact_mod_cast e

/-- C19: from strength 10 going down, light 0's strength is a triangle wave of period 300
calls (twice 75 over one half): for every `n` the pair of strength and direction after
`n + 300` calls of `Light1Strength` equals the pair after `n` calls, and no smaller positive
number of calls has this property; indeed for `0 < k < 300` the pair after `n + k` calls
differs from the pair after `n` calls for every `n`. -/
theorem C19_strength_period_is_300 (s : Scene)
    (hstrength : (s.gLights 0).strength = 10) (hdown : s.light1StrengthGoingUp = false) :
    (∀ n, (strengthAfter (n + 300) s, strengthUpAfter (n + 300) s)
      = (strengthAfter n s, strengthUpAfter n s)) ∧
    (∀ k, 0 < k → k < 300 →
      ¬ ∀ n, (strengthAfter (n + k) s, strengthUpAfter (n + k) s)
        = (strengthAfter n s, strengthUpAfter n s)) ∧
    (∀ k, 0 < k → k < 300 →
      ∀ n, (strengthAfter (n + k) s, strengthUpAfter (n + k) s)
        ≠ (strengthAfter n s, strengthUpAfter n s)) := by
  have key : ∀ n, (strengthAfter n s, strengthUpAfter n s)
      = triPhase 0.5 150 ((280 + n) % 300) := by
    intro n
    rw [← strengthState_iterate s hstrength hdown n]
    rfl
  have diff : ∀ k, 0 < k → k < 300 →
      ∀ n, (strengthAfter (n + k) s, strengthUpAfter (n + k) s)
        ≠ (strengthAfter n s, strengthUpAfter n s) := by
    intro k hk0 hk n h
    rw [key, key] at h
    have := triPhase_injective 0.5 150 _ _ (by norm_num) h
    omega
  refine ⟨?_, ?_, diff⟩
  · intro n
    rw [key, key]
    congr 1
    omega
  · intro k hk0 hk hall
    exact diff k hk0 hk 0 (hall 0)

/-- C19 at a concrete input: the scene after `InitScene`; after 300 calls the strength is 10
going down again, and after 150 calls it is not. -/
theorem C19_strength_period_is_300_witness :
    (sampleScene.gLights 0).strength = 10 ∧ sampleScene.light1StrengthGoingUp = false ∧
    (strengthAfter (0 + 300) sampleScene, strengthUpAfter (0 + 300) sampleScene)
      = (strengthAfter 0 sampleScene, strengthUpAfter 0 sampleScene) ∧
    (strengthAfter (0 + 150) sampleScene, strengthUpAfter (0 + 150) sampleScene)
      ≠ (strengthAfter 0 sampleScene, strengthUpAfter 0 sampleScene) :=
  have h := C19_strength_period_is_300 sampleScene rfl rfl
  ⟨rfl, rfl, h.1 0, h.2.2 150 (by decide) (by decide) 0⟩

/-! ## Texture slot 1 during the main pass -/

/-- C20 (the code departs from the claim): at the draws of one frame of `RenderScene`, the
view at pixel-shader texture slot 1 is the shadow map for Ground, Sphere, Teapot and Cube
only.  The Tech draw binds its normal and height map there and the NormMapFadeCube draw its
normal map, which is never replaced: the light markers, and GlassCube and Smoke, which are
drawn with the same lighting pixel shader as the Teapot, are drawn with that normal map at
slot 1 instead of the shadow map. -/
theorem C20_slot_one_holds_a_normal_map_at_late_draws (ext : Externals) (s : Scene)
    (p : Pipeline) :
    (drawsFrom p (RenderScene ext s).cmds).map
        (fun d => (d.entity, d.pipeline.pixelShader, d.pipeline.psResources 1))
      = [(.Ground, some .gPointLightPixelShader, some .gShadowMap1SRV),
         (.Sphere, some .gWigglePixelShader, some .gShadowMap1SRV),
         (.Teapot, some .gPixelLightingPixelShader, some .gShadowMap1SRV),
         (.Cube, some .gFadeTexturePixelShader, some .gShadowMap1SRV),
         (.Tech, some .gParallaxMappingPixelShader, some .gTechNormalHeightMapSRV),
         (.NormMapFadeCube, some .gNormalMappingPixelShader, some .gCubeNormalMapSRV),
         (.LightModel 0, some .gLightModelPixelShader, some .gCubeNormalMapSRV),
         (.LightModel 1, some .gLightModelPixelShader, some .gCubeNormalMapSRV),
         (.LightModel 2, some .gLightModelPixelShader, some .gCubeNormalMapSRV),
         (.GlassCube, some .gPixelLightingPixelShader, some .gCubeNormalMapSRV),
         (.Smoke, some .gPixelLightingPixelShader, some .gCubeNormalMapSRV)] := by
  rfl

end GPEngine
